import Mathlib

/-!
# Shooting-game-ghosts: the frame loop of `Program_Run`

A shallow embedding of `src/Application/main.cpp`: the depth comparator
`compare_ghosts`, the per-frame billboard sort, the input step that maintains
`cmd_move` and `quit`, the clock step, and the loop body as a function from a
loop state and the values the engine hands back in one iteration to the next
loop state together with the sequence of engine calls issued; `Program_Init` with
`Init_Graphics`; and of `src/Framework/getdxver.cpp`: `GetDXVersion` with its two
probes, `MakeInt64` and `CompareLargeInts`.
-/

namespace Ghosts

/-! ## Scalars and vectors -/

/-- A C `float` as far as the program looks at it: either a NaN or an ordinary
value.  The comparisons below follow IEEE 754: every comparison that involves a
NaN is false. -/
inductive F32 where
  | nan : F32
  | fin (q : ℚ) : F32
deriving DecidableEq

/-- The C operator `==` on floats. -/
def F32.eq : F32 → F32 → Bool
  | .fin a, .fin b => decide (a = b)
  | _, _ => false

/-- The C operator `<` on floats. -/
def F32.lt : F32 → F32 → Bool
  | .fin a, .fin b => decide (a < b)
  | _, _ => false

/-- The C operator `<=` on floats. -/
def F32.le : F32 → F32 → Bool
  | .fin a, .fin b => decide (a ≤ b)
  | _, _ => false

/-- Test for NaN. -/
def F32.isNaN : F32 → Bool
  | .nan => true
  | .fin _ => false

/-- The engine's `gx3dVector`. -/
structure gx3dVector where
  x : F32
  y : F32
  z : F32
deriving DecidableEq

/-- The engine's `gx3dMatrix`.  The program never inspects a matrix; it only
builds matrices through engine calls and hands them back to the engine, so a
matrix is recorded as the expression of engine calls that built it.
`view n` stands for a matrix read back from the engine by `gx3d_GetViewMatrix`. -/
inductive gx3dMatrix where
  | rotateY (angle : ℚ) : gx3dMatrix
  | translate (x y z : F32) : gx3dMatrix
  | scale (x y z : F32) : gx3dMatrix
  | billboardRotateY (normal heading : gx3dVector) : gx3dMatrix
  | translateTexture (u v : ℚ) : gx3dMatrix
  | multiply (a b : gx3dMatrix) : gx3dMatrix
  | view (n : Nat) : gx3dMatrix
deriving DecidableEq

/-! ## The billboard sort (main.cpp, lines 219-234 and 681-686) -/

/-- `struct GhostPos { gx3dVector world, view; }`. -/
structure GhostPos where
  world : gx3dVector
  view : gx3dVector
deriving DecidableEq

/-- `compare_ghosts`, on the two entries the pointers refer to. -/
def compare_ghosts (e1 e2 : GhostPos) : Int :=
  if F32.eq e1.view.z e2.view.z then 0
  else if F32.lt e1.view.z e2.view.z then 1
  else -1

/-- Insertion of one element in front of the first element it does not have to
follow, as decided by the comparator. -/
def qsortInsert {α : Type} (cmp : α → α → Int) (a : α) : List α → List α
  | [] => [a]
  | b :: l => if cmp a b ≤ 0 then a :: b :: l else b :: qsortInsert cmp a l

/-- The C library's `qsort (base, num, size, compar)` on the array seen as a
list: the elements are rearranged as whole records, using only the sign of the
comparator.  The library routine is not part of the repository; an insertion
sort stands for it.  For a comparator that is consistent on the array the result
is the library's up to the order of equal elements; for an inconsistent one (a
NaN depth) only that the result is a rearrangement of the array is common to
the two, and nothing more is used of it in that case. -/
def qsort {α : Type} (cmp : α → α → Int) (base : List α) : List α :=
  base.foldr (qsortInsert cmp) []

/-- The loop `for (i=0; i<NUM_GHOSTS; i++) gx3d_MultiplyVectorMatrix
(&ghost_pos[i].world, &viewmatrix, &ghost_pos[i].view)`; the engine's
vector-by-matrix product is the parameter `mulVM`. -/
def transformGhosts (mulVM : gx3dVector → gx3dMatrix → gx3dVector)
    (viewmatrix : gx3dMatrix) (ghost_pos : List GhostPos) : List GhostPos :=
  ghost_pos.map (fun g => { g with view := mulVM g.world viewmatrix })

/-- The sort step of a rendered frame: transform, then
`qsort (ghost_pos, NUM_GHOSTS, sizeof(GhostPos), compare_ghosts)`. -/
def sortStep (mulVM : gx3dVector → gx3dMatrix → gx3dVector)
    (viewmatrix : gx3dMatrix) (ghost_pos : List GhostPos) : List GhostPos :=
  qsort compare_ghosts (transformGhosts mulVM viewmatrix ghost_pos)

/-! ## Constants and events of the engine headers -/

/-- The constants of `position.h` and of the event header that the loop uses.
Their values are not fixed by the program text, so they are parameters. -/
structure Consts where
  evKY_ESC : Int
  POSITION_MOVE_FORWARD : Nat
  POSITION_MOVE_BACK : Nat
  POSITION_MOVE_LEFT : Nat
  POSITION_MOVE_RIGHT : Nat

/-- The event types enabled by `evStartEvents` in `Init_Graphics`, and the
cooked key press that is commented out there. -/
inductive evTYPE where
  | MOUSE_LEFT_PRESS
  | MOUSE_RIGHT_PRESS
  | MOUSE_LEFT_RELEASE
  | MOUSE_RIGHT_RELEASE
  | MOUSE_WHEEL_BACKWARD
  | MOUSE_WHEEL_FORWARD
  | KEY_PRESS
  | RAW_KEY_PRESS
  | RAW_KEY_RELEASE
deriving DecidableEq

/-- The fields of `evEvent` that the loop reads. -/
structure evEvent where
  type : evTYPE
  keycode : Int
deriving DecidableEq

/-- A C character constant as an `int`. -/
def chr (ch : Char) : Int := (ch.toNat : Int)

/-! ## The input step (main.cpp, lines 517-546) -/

/-- The operator `~` on a 32-bit `unsigned`. -/
def bitNot32 (x : Nat) : Nat := x ^^^ 0xFFFFFFFF

/-- The body of `if (evGetEvent (&event)) { ... }`: the new `cmd_move` and
`quit` after one event. -/
def processEvent (c : Consts) (cmd_move : Nat) (quit : Bool) (event : evEvent) : Nat × Bool :=
  if event.type = evTYPE.RAW_KEY_PRESS then
    if event.keycode = c.evKY_ESC then (cmd_move, true)
    else if event.keycode = chr 'w' then (cmd_move ||| c.POSITION_MOVE_FORWARD, quit)
    else if event.keycode = chr 's' then (cmd_move ||| c.POSITION_MOVE_BACK, quit)
    else if event.keycode = chr 'a' then (cmd_move ||| c.POSITION_MOVE_LEFT, quit)
    else if event.keycode = chr 'd' then (cmd_move ||| c.POSITION_MOVE_RIGHT, quit)
    else (cmd_move, quit)
  else if event.type = evTYPE.RAW_KEY_RELEASE then
    if event.keycode = chr 'w' then (cmd_move &&& bitNot32 c.POSITION_MOVE_FORWARD, quit)
    else if event.keycode = chr 's' then (cmd_move &&& bitNot32 c.POSITION_MOVE_BACK, quit)
    else if event.keycode = chr 'a' then (cmd_move &&& bitNot32 c.POSITION_MOVE_LEFT, quit)
    else if event.keycode = chr 'd' then (cmd_move &&& bitNot32 c.POSITION_MOVE_RIGHT, quit)
    else (cmd_move, quit)
  else (cmd_move, quit)

/-- The input step of one iteration: `evGetEvent` either hands over one event
(`some event`) or reports that none is pending (`none`). -/
def inputStep (c : Consts) (cmd_move : Nat) (quit : Bool) : Option evEvent → Nat × Bool
  | none => (cmd_move, quit)
  | some event => processEvent c cmd_move quit event

/-- The input steps of consecutive iterations, the loop test left aside:
only `cmd_move` and `quit` are followed. -/
def inputSteps (c : Consts) (cmd_move : Nat) (quit : Bool) : List (Option evEvent) → Nat × Bool
  | [] => (cmd_move, quit)
  | ev :: rest => inputSteps c (inputStep c cmd_move quit ev).1 (inputStep c cmd_move quit ev).2 rest

/-! ## The clock step (main.cpp, lines 503-510) -/

/-- Subtraction of 32-bit `unsigned` values. -/
def sub32 (a b : Nat) : Nat := (a + 2 ^ 32 - b) % 2 ^ 32

/-- The clock step: from `last_time` and the value `new_time` returned by
`timeGetTime ()` to the pair (`elapsed_time`, new `last_time`). -/
def clockStep (last_time new_time : Nat) : Nat × Nat :=
  (if last_time = 0 then 0 else sub32 new_time last_time, new_time)

/-! ## The loop body of `Program_Run` (main.cpp, lines 481-720) -/

/-- The 3D objects loaded by `Program_Run`. -/
inductive Object where
  | obj_tree | obj_tree2 | obj_skydome | obj_clouddome | obj_ghost | obj_billboard_tree
  | obj_ground
deriving DecidableEq

/-- The textures loaded by `Program_Run`. -/
inductive Texture where
  | tex_tree | tex_bark | tex_billboardtree | tex_skydome | tex_clouddome | tex_ghost
  | tex_ground
deriving DecidableEq

/-- The object layers looked up by `gx3d_GetObjectLayer`. -/
inductive Layer where
  | trunk | leaves
deriving DecidableEq

/-- The lights created by `Program_Run`. -/
inductive Light where
  | dir_light | point_light1
deriving DecidableEq

/-- The sounds loaded by `Program_Run`. -/
inductive Sound where
  | s_chimes | s_song
deriving DecidableEq

/-- One call from the loop body into the engine or the C library, with the
arguments the program computes.  The pure matrix builders are not calls of their
own: they show in the `gx3dMatrix` arguments. -/
inductive Call where
  | gx3d_UpdateLight (light : Light) (src : gx3dVector)
  | snd_SetSoundPosition (sound : Sound) (x y z : F32)
  | timeGetTime
  | evGetEvent
  | msGetMouseMovement
  | Position_Update (elapsed_time cmd_move : Nat) (dy dx : Int) (force_update : Bool)
  | snd_SetListenerPosition (x y z : F32)
  | snd_SetListenerOrientation (fx fy fz ux uy uz : F32)
  | gx3d_ClearViewport
  | gx3d_BeginRender
  | gx3d_SetAmbientLight
  | gx3d_SetMaterial
  | gx3d_EnableAlphaBlending
  | gx3d_EnableAlphaTesting (ref : Nat)
  | gx3d_EnableLight (light : Light)
  | gx3d_DisableLight (light : Light)
  | gx3d_SetObjectMatrix (obj : Object) (m : gx3dMatrix)
  | gx3d_Object_UpdateTransforms (obj : Object)
  | gx3d_SetTexture (stage : Nat) (tex : Texture)
  | gx3d_DrawObject (obj : Object)
  | gx3d_DrawObjectLayer (obj : Object) (layer : Layer)
  | gx3d_Relation_Sphere_Frustum
  | gx3d_DisableAlphaTesting
  | gx3d_EnableFog
  | gx3d_SetFogColor
  | gx3d_SetExp2PixelFog
  | gx3d_EnableTextureMatrix (stage : Nat)
  | gx3d_SetTextureMatrix (stage : Nat) (m : gx3dMatrix)
  | gx3d_DisableTextureMatrix (stage : Nat)
  | gx3d_DisableFog
  | gx3d_GetViewMatrix
  | qsort (sorted : List GhostPos)
  | gx3d_DisableAlphaBlending
  | gx3d_EndRender
  | gxFlipVisualActivePages
deriving DecidableEq

/-- The variables of `Program_Run` that live across iterations (the two
function-level statics `offset` and `targetX`/`targetX_incr` included).  The
`float` counters `angle`, `offset`, `targetX` and `targetX_incr` are followed as
exact rationals; `last_time` and `cmd_move` are 32-bit `unsigned` values. -/
structure LoopState where
  quit : Bool
  angle : ℚ
  light_src : gx3dVector
  last_time : Nat
  cmd_move : Nat
  force_update : Bool
  position : gx3dVector
  heading : gx3dVector
  ghost_pos : List GhostPos
  offset : ℚ
  targetX : ℚ
  targetX_incr : ℚ
deriving DecidableEq

/-- What the engine and the operating system hand back during one iteration. -/
structure FrameInput where
  /-- The value of `timeGetTime ()`, a 32-bit `DWORD`. -/
  new_time : Nat
  /-- The event of `evGetEvent (&event)`, if it reports one. -/
  event : Option evEvent
  /-- The counters written by `msGetMouseMovement`. -/
  move_x : Int
  move_y : Int
  /-- The position and heading written by `Position_Update`. -/
  position : gx3dVector
  heading : gx3dVector
  /-- The result of `gx3d_BeginRender ()`. -/
  beginRender : Bool
  /-- Whether `gx3d_Relation_Sphere_Frustum` answers `gxRELATION_OUTSIDE`. -/
  relation_outside : Bool
  /-- The matrix written by `gx3d_GetViewMatrix`. -/
  viewmatrix : gx3dMatrix

/-- Lines 483-485: `angle += 0.5; if (angle >= 360) angle = 0;`. -/
def advanceAngle (angle : ℚ) : ℚ :=
  if angle + 1 / 2 ≥ 360 then 0 else angle + 1 / 2

/-- The initialiser `light_position = { 10, 20, 0 }`. -/
def light_position : gx3dVector := ⟨.fin 10, .fin 20, .fin 0⟩

/-- The initialiser `sound1_position = { 50, 10, 0 }`. -/
def sound1_position : gx3dVector := ⟨.fin 50, .fin 10, .fin 0⟩

/-- Lines 486-496: the calls that move the point light and the 3D sound, for the
angle already advanced. -/
def orbitCalls (mulVM : gx3dVector → gx3dMatrix → gx3dVector) (angle : ℚ) : List Call :=
  let m := gx3dMatrix.rotateY angle
  let Xsound1_position := mulVM sound1_position m
  [Call.gx3d_UpdateLight Light.point_light1 (mulVM light_position m),
   Call.snd_SetSoundPosition Sound.s_chimes Xsound1_position.x Xsound1_position.y
     Xsound1_position.z]

/-- Lines 547-559: mouse sample, camera update and listener update. -/
def cameraCalls (elapsed_time cmd_move : Nat) (force_update : Bool) (i : FrameInput) :
    List Call :=
  [Call.msGetMouseMovement,
   Call.Position_Update elapsed_time cmd_move (-i.move_y) i.move_x force_update,
   Call.snd_SetListenerPosition i.position.x i.position.y i.position.z,
   Call.snd_SetListenerOrientation i.heading.x i.heading.y i.heading.z (.fin 0) (.fin 1)
     (.fin 0)]

/-- Lines 570-600: light, material, blending and the ground and first tree. -/
def drawSceneCalls : List Call :=
  [Call.gx3d_SetAmbientLight, Call.gx3d_SetMaterial,
   Call.gx3d_EnableAlphaBlending, Call.gx3d_EnableAlphaTesting 128,
   Call.gx3d_EnableLight Light.point_light1,
   Call.gx3d_SetObjectMatrix Object.obj_tree (.translate (.fin 0) (.fin 0) (.fin 0)),
   Call.gx3d_Object_UpdateTransforms Object.obj_tree,
   Call.gx3d_SetObjectMatrix Object.obj_ground (.translate (.fin 0) (.fin 0) (.fin 0)),
   Call.gx3d_SetTexture 0 Texture.tex_ground,
   Call.gx3d_DrawObject Object.obj_ground,
   Call.gx3d_SetTexture 0 Texture.tex_bark,
   Call.gx3d_DrawObjectLayer Object.obj_tree Layer.trunk,
   Call.gx3d_SetTexture 0 Texture.tex_tree,
   Call.gx3d_DrawObjectLayer Object.obj_tree Layer.leaves]

/-- Lines 601-621: the smaller tree, drawn unless it is outside the frustum. -/
def drawTree2Calls (relation_outside : Bool) : List Call :=
  Call.gx3d_Relation_Sphere_Frustum ::
  (if relation_outside then []
   else
    [Call.gx3d_SetObjectMatrix Object.obj_tree2
       (.multiply (.scale (.fin 1) (.fin (1 / 2)) (.fin 1)) (.translate (.fin 30) (.fin 0) (.fin 0))),
     Call.gx3d_Object_UpdateTransforms Object.obj_tree2,
     Call.gx3d_SetTexture 0 Texture.tex_bark,
     Call.gx3d_DrawObjectLayer Object.obj_tree2 Layer.trunk,
     Call.gx3d_SetTexture 0 Texture.tex_tree,
     Call.gx3d_DrawObjectLayer Object.obj_tree2 Layer.leaves])

/-- The initialiser `billboard_normal = {0,0,1}`. -/
def billboard_normal : gx3dVector := ⟨.fin 0, .fin 0, .fin 1⟩

/-- Lines 623-640: the two billboard trees (`47 / 2` is an integer division). -/
def drawBillboardTreeCalls (heading : gx3dVector) : List Call :=
  let m1 := gx3dMatrix.scale (.fin 23) (.fin 23) (.fin 1)
  let m2 := gx3dMatrix.billboardRotateY billboard_normal heading
  [Call.gx3d_SetObjectMatrix Object.obj_billboard_tree
     (.multiply (.multiply m1 m2) (.translate (.fin 10) (.fin 0) (.fin 50))),
   Call.gx3d_SetTexture 0 Texture.tex_billboardtree,
   Call.gx3d_DrawObject Object.obj_billboard_tree,
   Call.gx3d_SetObjectMatrix Object.obj_billboard_tree
     (.multiply (.multiply m1 m2) (.translate (.fin (-30)) (.fin 0) (.fin 0))),
   Call.gx3d_SetTexture 0 Texture.tex_billboardtree,
   Call.gx3d_DrawObject Object.obj_billboard_tree]

/-- Lines 654-656: `offset += 0.001; if (offset > 1.0) offset = 0;`. -/
def advanceOffset (offset : ℚ) : ℚ :=
  if offset + 1 / 1000 > 1 then 0 else offset + 1 / 1000

/-- Lines 642-679: sky dome, then the cloud dome under fog. -/
def drawSkyCalls (offset : ℚ) : List Call :=
  [Call.gx3d_DisableAlphaTesting,
   Call.gx3d_SetAmbientLight,
   Call.gx3d_DisableLight Light.dir_light,
   Call.gx3d_SetTexture 0 Texture.tex_skydome,
   Call.gx3d_SetObjectMatrix Object.obj_skydome (.scale (.fin 500) (.fin 500) (.fin 500)),
   Call.gx3d_DrawObject Object.obj_skydome,
   Call.gx3d_EnableFog, Call.gx3d_SetFogColor, Call.gx3d_SetExp2PixelFog,
   Call.gx3d_EnableTextureMatrix 0,
   Call.gx3d_SetTextureMatrix 0 (.translateTexture offset 0),
   Call.gx3d_SetObjectMatrix Object.obj_clouddome (.scale (.fin 500) (.fin 500) (.fin 500)),
   Call.gx3d_SetTexture 0 Texture.tex_clouddome,
   Call.gx3d_DrawObject Object.obj_clouddome,
   Call.gx3d_DisableTextureMatrix 0,
   Call.gx3d_SetAmbientLight,
   Call.gx3d_DisableLight Light.dir_light,
   Call.gx3d_DisableFog]

/-- Lines 691-694: the new `targetX_incr`, from the `targetX` already advanced. -/
def nextTargetIncr (targetX targetX_incr : ℚ) : ℚ :=
  if targetX > 10 then -(1 / 10)
  else if targetX < -10 then 1 / 10
  else targetX_incr

/-- Lines 699-706: the calls that draw one ghost. -/
def drawGhostCalls (heading : gx3dVector) (targetX : ℚ) (g : GhostPos) : List Call :=
  let m1 := gx3dMatrix.scale (.fin 10) (.fin 10) (.fin 10)
  let m2 := gx3dMatrix.billboardRotateY billboard_normal heading
  let m3 := gx3dMatrix.translate (.fin targetX) g.world.y g.world.z
  [Call.gx3d_SetObjectMatrix Object.obj_ghost (.multiply (.multiply m1 m2) m3),
   Call.gx3d_SetTexture 0 Texture.tex_ghost,
   Call.gx3d_DrawObject Object.obj_ghost]

/-- Lines 698-707: the loop over the sorted array. -/
def drawGhostsCalls (heading : gx3dVector) (targetX : ℚ) (ghost_pos : List GhostPos) :
    List Call :=
  (ghost_pos.map (drawGhostCalls heading targetX)).flatten

/-- Lines 709-718: the end of a rendered frame. -/
def endRenderCalls : List Call :=
  [Call.gx3d_SetAmbientLight, Call.gx3d_DisableAlphaBlending, Call.gx3d_EndRender,
   Call.gxFlipVisualActivePages]

/-- Lines 570-718: the calls inside `if (gx3d_BeginRender ()) { ... }`, for the
heading of this iteration, the advanced statics and the sorted array. -/
def renderCalls (heading : gx3dVector) (relation_outside : Bool) (offset targetX : ℚ)
    (sorted : List GhostPos) : List Call :=
  drawSceneCalls ++ drawTree2Calls relation_outside ++ drawBillboardTreeCalls heading
    ++ drawSkyCalls offset
    ++ [Call.gx3d_GetViewMatrix, Call.qsort sorted]
    ++ drawGhostsCalls heading targetX sorted
    ++ endRenderCalls

/-- One iteration of the game loop, from after the test `NOT quit` to the end of
the body: the next loop state and the calls issued, in order. -/
def frame (c : Consts) (mulVM : gx3dVector → gx3dMatrix → gx3dVector)
    (s : LoopState) (i : FrameInput) : LoopState × List Call :=
  let angle := advanceAngle s.angle
  let clock := clockStep s.last_time i.new_time
  let input := inputStep c s.cmd_move s.quit i.event
  let front : List Call :=
    orbitCalls mulVM angle ++ [Call.timeGetTime, Call.evGetEvent]
      ++ cameraCalls clock.1 input.1 s.force_update i
      ++ [Call.gx3d_ClearViewport, Call.gx3d_BeginRender]
  let s1 : LoopState :=
    { s with
      quit := input.2
      angle := angle
      light_src := mulVM light_position (gx3dMatrix.rotateY angle)
      last_time := clock.2
      cmd_move := input.1
      position := i.position
      heading := i.heading }
  if i.beginRender then
    let offset := advanceOffset s.offset
    let sorted := sortStep mulVM i.viewmatrix s.ghost_pos
    let targetX := s.targetX + s.targetX_incr
    ({ s1 with
       ghost_pos := sorted
       offset := offset
       targetX := targetX
       targetX_incr := nextTargetIncr targetX s.targetX_incr },
     front ++ renderCalls i.heading i.relation_outside offset targetX sorted)
  else (s1, front)

/-- The loop `for (quit=FALSE; NOT quit; ) { ... }` from a given state, run on
the inputs of as many iterations as the list holds: the test comes first, so an
iteration starts only while `quit` is false. -/
def gameLoop (c : Consts) (mulVM : gx3dVector → gx3dMatrix → gx3dVector) :
    LoopState → List FrameInput → LoopState × List Call
  | s, [] => (s, [])
  | s, i :: rest =>
    if s.quit then (s, [])
    else
      ((gameLoop c mulVM (frame c mulVM s i).1 rest).1,
       (frame c mulVM s i).2 ++ (gameLoop c mulVM (frame c mulVM s i).1 rest).2)

/-- The loop state on entry to the game loop (lines 336-346, 439-440, 475-481,
653, 688-689), for the ghost array filled at lines 270-276. -/
def initLoopState (ghost_pos : List GhostPos) : LoopState :=
  { quit := false
    angle := 0
    light_src := light_position
    last_time := 0
    cmd_move := 0
    force_update := false
    position := ⟨.fin 0, .fin 5, .fin (-120)⟩
    heading := ⟨.fin 0, .fin 0, .fin 1⟩
    ghost_pos := ghost_pos
    offset := 0
    targetX := -10
    targetX_incr := 1 / 10 }

/-- The statements after the game loop (main.cpp, lines 722-732), as calls. -/
inductive ExitCall where
  | gx3d_FreeObject (obj : Object)
  | snd_StopSound (sound : Sound)
  | snd_Free
deriving DecidableEq

/-- `Program_Run` from the entry of the game loop to its return: the loop, then
the statements that free the two trees and stop the sound.  The result is the
loop state as the loop left it, the calls of the loop and the calls after it. -/
def Program_Run (c : Consts) (mulVM : gx3dVector → gx3dMatrix → gx3dVector)
    (ghost_pos : List GhostPos) (inputs : List FrameInput) :
    LoopState × List Call × List ExitCall :=
  ((gameLoop c mulVM (initLoopState ghost_pos) inputs).1,
   (gameLoop c mulVM (initLoopState ghost_pos) inputs).2,
   [ExitCall.gx3d_FreeObject Object.obj_tree, ExitCall.gx3d_FreeObject Object.obj_tree2,
    ExitCall.snd_StopSound Sound.s_song, ExitCall.snd_Free])

/-! ## `Program_Init` and `Init_Graphics` (main.cpp, lines 40-43, 59, 80, 83, 108-208) -/

/-- `typedef struct { unsigned resolution; unsigned bitdepth; } UserPreferences`. -/
structure UserPreferences where
  resolution : Nat
  bitdepth : Nat
deriving DecidableEq

/-- `#define MAX_VRAM_PAGES 2`. -/
def MAX_VRAM_PAGES : Int := 2

/-- `#define GRAPHICS_STENCILDEPTH 0`. -/
def GRAPHICS_STENCILDEPTH : Nat := 0

/-- `#define AUTO_TRACKING 1`. -/
def AUTO_TRACKING : Nat := 1

/-- The fields of `gxColor`. -/
structure gxColor where
  r : Nat
  g : Nat
  b : Nat
  a : Nat
deriving DecidableEq

/-- One call from `Init_Graphics` or `Set_Mouse_Cursor` into the engine; a font
is named by a number, and `gxLoadFontData` may hand back no font. -/
inductive InitCall where
  | gxStartGraphics (resolution bitdepth stencildepth : Nat) (num_pages : Int)
  | gxLoadFontData
  | gxSetFont (font : Option Nat)
  | evStartEvents (auto_tracking : Nat)
  | msSetCursor (fc bc : gxColor)
deriving DecidableEq

/-- The globals `Pgm_num_pages` and `Pgm_system_font` and the caller's variable
behind the pointer `generate_keypress_events`. -/
structure InitState where
  Pgm_num_pages : Int
  Pgm_system_font : Option Nat
  generate_keypress_events : Int
deriving DecidableEq

/-- `Set_Mouse_Cursor`: the one call it makes. -/
def Set_Mouse_Cursor : List InitCall :=
  [InitCall.msSetCursor ⟨255, 0, 0, 0⟩ ⟨1, 1, 1, 0⟩]

/-- `Init_Graphics`; `started` is the value returned by `gxStartGraphics` and
`font` the value returned by `gxLoadFontData`.  The result is the return value,
the state left behind and the calls made. -/
def Init_Graphics (resolution bitdepth stencildepth : Nat) (started : Int)
    (font : Option Nat) (st : InitState) : Int × InitState × List InitCall :=
  let st0 : InitState := { st with Pgm_num_pages := 0, Pgm_system_font := none }
  let num_pages := started
  let start := InitCall.gxStartGraphics resolution bitdepth stencildepth MAX_VRAM_PAGES
  if num_pages = MAX_VRAM_PAGES then
    let st1 : InitState :=
      { Pgm_num_pages := num_pages, Pgm_system_font := font, generate_keypress_events := 0 }
    (st1.Pgm_num_pages, st1,
     [start, InitCall.gxLoadFontData, InitCall.gxSetFont font,
      InitCall.evStartEvents AUTO_TRACKING] ++ Set_Mouse_Cursor)
  else (st0.Pgm_num_pages, st0, [start])

/-- `Program_Init`; `preferences` is `none` for a null pointer. -/
def Program_Init (preferences : Option UserPreferences) (started : Int) (font : Option Nat)
    (st : InitState) : Int × InitState × List InitCall :=
  match preferences with
  | some user_preferences =>
    Init_Graphics user_preferences.resolution user_preferences.bitdepth GRAPHICS_STENCILDEPTH
      started font st
  | none => (0, st, [])

/-! ## The DirectX version probe (getdxver.cpp) -/

/-- The two 32-bit halves of a `ULARGE_INTEGER`. -/
structure ULARGE_INTEGER where
  HighPart : Nat
  LowPart : Nat
deriving DecidableEq

/-- The Windows macro `MAKELONG (low, high)`: two 16-bit words packed into a
32-bit value.  It belongs to the platform headers, not to the repository. -/
def MAKELONG (low high : Nat) : Nat := (low &&& 0xFFFF) ||| ((high &&& 0xFFFF) <<< 16)

/-- The Windows macro `HIWORD`: the upper 16 bits of a 32-bit value. -/
def HIWORD (x : Nat) : Nat := (x >>> 16) &&& 0xFFFF

/-- `MakeInt64 (a, b, c, d)`. -/
def MakeInt64 (a b c d : Nat) : ULARGE_INTEGER :=
  { HighPart := MAKELONG b a, LowPart := MAKELONG d c }

/-- `CompareLargeInts`. -/
def CompareLargeInts (ullParam1 ullParam2 : ULARGE_INTEGER) : Int :=
  if ullParam1.HighPart > ullParam2.HighPart then 1
  else if ullParam1.HighPart < ullParam2.HighPart then -1
  else if ullParam1.LowPart > ullParam2.LowPart then 1
  else if ullParam1.LowPart < ullParam2.LowPart then -1
  else 0

/-- The three output variables of the probes: major and minor version and the
character code of the version letter. -/
structure DXVersion where
  major : Nat
  minor : Nat
  letter : Nat
deriving DecidableEq

/-- The code of a character constant. -/
def charCode (ch : Char) : Nat := ch.toNat

/-- What the DxDiag COM interface answers: whether each of the four steps up to
the system-info container succeeds, and the value of each of the three properties
when `GetProp` succeeds with the expected variant type. -/
structure DxDiagEnv where
  createInstance : Bool
  providerInit : Bool
  rootContainer : Bool
  systemInfo : Bool
  major : Option Nat
  minor : Option Nat
  letter : Option Nat

/-- `GetDirectXVersionViaDxDiag`: whether it returns `S_OK`, and the output
variables as it leaves them. -/
def GetDirectXVersionViaDxDiag (e : DxDiagEnv) (v : DXVersion) : Bool × DXVersion :=
  if e.createInstance && e.providerInit && e.rootContainer && e.systemInfo then
    let v1 : DXVersion := match e.major with
      | some m => { v with major := m }
      | none => v
    let v2 : DXVersion := match e.minor with
      | some m => { v1 with minor := m }
      | none => v1
    let v3 : DXVersion := match e.letter with
      | some l => { v2 with letter := l }
      | none => v2
    (e.major.isSome && e.minor.isSome && e.letter.isSome, v3)
  else (false, v)

/-- What the file system answers: whether `GetSystemDirectory` succeeds, and for
each probed file the version that `GetFileVersion` returns with `S_OK`, if it
does. -/
structure FileEnv where
  systemDirectory : Bool
  ddraw : Option ULARGE_INTEGER
  d3drg8x : Option ULARGE_INTEGER
  dplayx : Option ULARGE_INTEGER
  dinput : Option ULARGE_INTEGER
  d3d8 : Option ULARGE_INTEGER
  mpg2splt : Option ULARGE_INTEGER
  dpnet : Option ULARGE_INTEGER
  d3d9 : Option ULARGE_INTEGER

/-- The test `CompareLargeInts (llFileVersion, MakeInt64 (a, b, c, d)) >= 0`. -/
def atLeast (a b c d : Nat) (llFileVersion : ULARGE_INTEGER) : Bool :=
  decide (CompareLargeInts llFileVersion (MakeInt64 a b c d) ≥ 0)

/-- The test with one bound for Win9x files (`HIWORD` 4) and one for Win2k/WinXP
files (`HIWORD` 5). -/
def atLeast45 (b4 c4 d4 b5 c5 d5 : Nat) (llFileVersion : ULARGE_INTEGER) : Bool :=
  (HIWORD llFileVersion.HighPart == 4 && atLeast 4 b4 c4 d4 llFileVersion)
  || (HIWORD llFileVersion.HighPart == 5 && atLeast 5 b5 c5 d5 llFileVersion)

/-- One `if` of the file probe: when the file's version was read and passes the
test, the outputs are set and `bFound` becomes true. -/
def probe (file : Option ULARGE_INTEGER) (test : ULARGE_INTEGER → Bool)
    (major minor : Nat) (letter : Char) (st : Bool × DXVersion) : Bool × DXVersion :=
  match file with
  | some llFileVersion =>
    if test llFileVersion then (true, ⟨major, minor, charCode letter⟩) else st
  | none => st

/-- The body of `if (GetSystemDirectory (...) != 0) { ... }` in
`GetDirectXVerionViaFileVersions`, on the pair of `bFound` and the outputs. -/
def probeFiles (fs : FileEnv) (st : Bool × DXVersion) : Bool × DXVersion :=
  let st := probe fs.ddraw (atLeast 4 2 0 95) 1 0 ' ' st
  let st := probe fs.ddraw (atLeast 4 3 0 1096) 2 0 ' ' st
  let st := probe fs.ddraw (atLeast 4 4 0 68) 3 0 ' ' st
  let st := probe fs.d3drg8x (atLeast 4 4 0 70) 3 0 'a' st
  let st := probe fs.ddraw (atLeast 4 5 0 155) 5 0 ' ' st
  let st := probe fs.ddraw (atLeast 4 6 0 318) 6 0 ' ' st
  let st := probe fs.ddraw (atLeast 4 6 0 436) 6 1 ' ' st
  let st := probe fs.dplayx (atLeast 4 6 3 518) 6 1 'a' st
  let st := probe fs.ddraw (atLeast 4 7 0 700) 7 0 ' ' st
  let st := probe fs.dinput (atLeast 4 7 0 716) 7 0 'a' st
  let st := probe fs.ddraw (atLeast45 8 0 400 1 2258 400) 8 0 ' ' st
  let st := probe fs.d3d8 (atLeast45 8 1 881 1 2600 881) 8 1 ' ' st
  let st := probe fs.d3d8 (atLeast45 8 1 901 1 2600 901) 8 1 'a' st
  let st := probe fs.mpg2splt (atLeast 6 3 1 885) 8 1 'b' st
  let st := probe fs.dpnet (atLeast45 9 0 134 2 3677 134) 8 2 ' ' st
  probe fs.d3d9 (fun _ => true) 9 0 ' ' st

/-- `GetDirectXVerionViaFileVersions`: whether it returns `S_OK` (it always
does), and the output variables as it leaves them. -/
def GetDirectXVerionViaFileVersions (fs : FileEnv) (v : DXVersion) : Bool × DXVersion :=
  let st : Bool × DXVersion := if fs.systemDirectory then probeFiles fs (false, v) else (false, v)
  if !st.1 then (true, ⟨0, 0, charCode ' '⟩) else (true, st.2)

/-- The C library's `tolower`, in the C locale. -/
def tolower (ch : Nat) : Nat :=
  if charCode 'A' ≤ ch ∧ ch ≤ charCode 'Z' then ch + 32 else ch

/-- Lines 81-89 of `GetDXVersion`: the `DWORD` built from the three outputs. -/
def encodeVersion (v : DXVersion) : Nat :=
  let cDirectXVersionLetter := tolower v.letter % 256
  let version := v.major % 2 ^ 32
  let version := (version <<< 8) % 2 ^ 32
  let version := (version + v.minor) % 2 ^ 32
  let version := (version <<< 8) % 2 ^ 32
  if charCode 'a' ≤ cDirectXVersionLetter ∧ cDirectXVersionLetter ≤ charCode 'z' then
    (version + (cDirectXVersionLetter - charCode 'a') + 1) % 2 ^ 32
  else version

/-- `GetDXVersion`. -/
def GetDXVersion (dx : DxDiagEnv) (fs : FileEnv) : Nat :=
  let v0 : DXVersion := ⟨0, 0, charCode ' '⟩
  let viaDxDiag := GetDirectXVersionViaDxDiag dx v0
  let probed := if viaDxDiag.1 then viaDxDiag else GetDirectXVerionViaFileVersions fs viaDxDiag.2
  if probed.1 then encodeVersion probed.2 else 0

/-! ## Vocabulary of the statements -/

/-- A value is one bit of a 32-bit word. -/
def SingleBit32 (b : Nat) : Prop := ∃ n, n < 32 ∧ b = 2 ^ n

/-- The assumptions on the header constants: the four `POSITION_MOVE_*` values
are distinct single bits, and the code of the ESC key is none of the four
movement letters. -/
structure Consts.WellFormed (c : Consts) : Prop where
  forward_bit : SingleBit32 c.POSITION_MOVE_FORWARD
  back_bit : SingleBit32 c.POSITION_MOVE_BACK
  left_bit : SingleBit32 c.POSITION_MOVE_LEFT
  right_bit : SingleBit32 c.POSITION_MOVE_RIGHT
  forward_back : c.POSITION_MOVE_FORWARD ≠ c.POSITION_MOVE_BACK
  forward_left : c.POSITION_MOVE_FORWARD ≠ c.POSITION_MOVE_LEFT
  forward_right : c.POSITION_MOVE_FORWARD ≠ c.POSITION_MOVE_RIGHT
  back_left : c.POSITION_MOVE_BACK ≠ c.POSITION_MOVE_LEFT
  back_right : c.POSITION_MOVE_BACK ≠ c.POSITION_MOVE_RIGHT
  left_right : c.POSITION_MOVE_LEFT ≠ c.POSITION_MOVE_RIGHT
  esc_w : c.evKY_ESC ≠ chr 'w'
  esc_s : c.evKY_ESC ≠ chr 's'
  esc_a : c.evKY_ESC ≠ chr 'a'
  esc_d : c.evKY_ESC ≠ chr 'd'

/-- The four movement key codes. -/
def movementKeys : List Int := [chr 'w', chr 's', chr 'a', chr 'd']

/-- The `POSITION_MOVE_*` bit that belongs to a movement key code. -/
def moveBit (c : Consts) (keycode : Int) : Nat :=
  if keycode = chr 'w' then c.POSITION_MOVE_FORWARD
  else if keycode = chr 's' then c.POSITION_MOVE_BACK
  else if keycode = chr 'a' then c.POSITION_MOVE_LEFT
  else if keycode = chr 'd' then c.POSITION_MOVE_RIGHT
  else 0

/-- An event is a raw press or a raw release of one of the four movement keys. -/
def IsMoveKeyEvent (e : evEvent) : Prop :=
  (e.type = evTYPE.RAW_KEY_PRESS ∨ e.type = evTYPE.RAW_KEY_RELEASE) ∧ e.keycode ∈ movementKeys

/-- A key is held after a sequence of events when the most recent event of that
key is a press. -/
def held (events : List evEvent) (keycode : Int) : Bool :=
  match events.reverse.find? (fun e => decide (e.keycode = keycode)) with
  | some e => decide (e.type = evTYPE.RAW_KEY_PRESS)
  | none => false

/-- The bitwise OR of the bits of the keys held after a sequence of events. -/
def heldMask (c : Consts) (events : List evEvent) : Nat :=
  (if held events (chr 'w') then c.POSITION_MOVE_FORWARD else 0)
  ||| (if held events (chr 's') then c.POSITION_MOVE_BACK else 0)
  ||| (if held events (chr 'a') then c.POSITION_MOVE_LEFT else 0)
  ||| (if held events (chr 'd') then c.POSITION_MOVE_RIGHT else 0)

/-- An event that the input step reacts to: a raw press of ESC or of a movement
key, or a raw release of a movement key. -/
def IsHandledEvent (c : Consts) (e : evEvent) : Prop :=
  (e.type = evTYPE.RAW_KEY_PRESS ∧ (e.keycode = c.evKY_ESC ∨ e.keycode ∈ movementKeys))
  ∨ (e.type = evTYPE.RAW_KEY_RELEASE ∧ e.keycode ∈ movementKeys)

/-- The calls of a sequence that come after the first occurrence of a given
call. -/
def callsAfter (c : Call) (l : List Call) : List Call :=
  (l.dropWhile (fun d => decide (d ≠ c))).tail

/-- The value of `x` modulo 360, for a rational `x`. -/
def mod360 (x : ℚ) : ℚ := x - 360 * ⌊x / 360⌋

/-- A call that draws geometry. -/
def Call.isDraw : Call → Bool
  | .gx3d_DrawObject _ => true
  | .gx3d_DrawObjectLayer _ _ => true
  | _ => false

/-- A call of the library sort. -/
def Call.isQsort : Call → Bool
  | .qsort _ => true
  | _ => false

/-- A call of the camera controller. -/
def Call.isPositionUpdate : Call → Bool
  | .Position_Update _ _ _ _ _ => true
  | _ => false

/-- The positions handed to `gx3d_UpdateLight`, in order. -/
def lightPositions (l : List Call) : List gx3dVector :=
  l.filterMap (fun d => match d with
    | .gx3d_UpdateLight _ src => some src
    | _ => none)

/-- The positions handed to `snd_SetSoundPosition`, in order. -/
def soundPositions (l : List Call) : List gx3dVector :=
  l.filterMap (fun d => match d with
    | .snd_SetSoundPosition _ x y z => some ⟨x, y, z⟩
    | _ => none)

/-- The object matrices set for the ghost object, in order. -/
def ghostMatrices (l : List Call) : List gx3dMatrix :=
  l.filterMap (fun d => match d with
    | .gx3d_SetObjectMatrix Object.obj_ghost m => some m
    | _ => none)

/-- The alpha-blending switch of the engine after one call. -/
def blendAfter (blend : Bool) : Call → Bool
  | .gx3d_EnableAlphaBlending => true
  | .gx3d_DisableAlphaBlending => false
  | _ => blend

/-- The drawing calls of a sequence, each with the state of the alpha-blending
switch at the moment it is issued; `blend` is the state before the sequence. -/
def drawsWithBlend : Bool → List Call → List (Call × Bool)
  | _, [] => []
  | blend, d :: rest =>
    (if d.isDraw then [(d, blend)] else []) ++ drawsWithBlend (blendAfter blend d) rest

/-- The calls of a sequence that come before the first call of the sort. -/
def callsBeforeSort (l : List Call) : List Call :=
  l.takeWhile (fun d => !d.isQsort)

/-- A call that sets the audio listener. -/
def Call.isListenerUpdate : Call → Bool
  | .snd_SetListenerPosition _ _ _ => true
  | .snd_SetListenerOrientation _ _ _ _ _ _ => true
  | _ => false

/-- The 64-bit value of a `ULARGE_INTEGER` (its `QuadPart`). -/
def ULARGE_INTEGER.QuadPart (u : ULARGE_INTEGER) : Nat := u.HighPart * 2 ^ 32 + u.LowPart

/-- Lexicographic three-way comparison of two tuples of numbers: 1, 0 or -1. -/
def lexCompare : List Nat → List Nat → Int
  | x :: xs, y :: ys => if x > y then 1 else if x < y then -1 else lexCompare xs ys
  | _, _ => 0

/-- The letter part of the documented encoding: 0 for a character that is no
Latin letter, and the place in the alphabet of the letter otherwise. -/
def letterIndex (letter : Nat) : Nat :=
  if charCode 'a' ≤ letter ∧ letter ≤ charCode 'z' then letter - charCode 'a' + 1
  else if charCode 'A' ≤ letter ∧ letter ≤ charCode 'Z' then letter - charCode 'A' + 1
  else 0

/-- A version letter as the probes write it: a blank or a lower-case letter. -/
def IsVersionLetter (letter : Nat) : Prop :=
  letter = charCode ' ' ∨ (charCode 'a' ≤ letter ∧ letter ≤ charCode 'z')

/-- Lexicographic order on versions, the letters ordered by their character
codes (so that a blank comes before every letter). -/
def DXVersion.lexLt (v w : DXVersion) : Prop :=
  v.major < w.major
  ∨ (v.major = w.major ∧ (v.minor < w.minor ∨ (v.minor = w.minor ∧ v.letter < w.letter)))

/-! ## Sample data -/

/-- Header constants of the usual shape: ESC is 27 and the movement bits are
1, 2, 4, 8. -/
def sampleConsts : Consts :=
  { evKY_ESC := 27
    POSITION_MOVE_FORWARD := 1
    POSITION_MOVE_BACK := 2
    POSITION_MOVE_LEFT := 4
    POSITION_MOVE_RIGHT := 8 }

/-- A vector product that ignores the matrix: the identity view transform. -/
def identityMulVM : gx3dVector → gx3dMatrix → gx3dVector := fun v _ => v

/-- A ghost entry at world position `(0, 1, z)` with a zeroed view field. -/
def ghostAt (z : ℚ) : GhostPos :=
  { world := ⟨.fin 0, .fin 1, .fin z⟩, view := ⟨.fin 0, .fin 0, .fin 0⟩ }

/-- A ghost entry at world position `(x, 1, z)` with a zeroed view field. -/
def ghostAtXZ (x z : ℚ) : GhostPos :=
  { world := ⟨.fin x, .fin 1, .fin z⟩, view := ⟨.fin 0, .fin 0, .fin 0⟩ }

/-- Negation of a float. -/
def F32.neg : F32 → F32
  | .nan => .nan
  | .fin q => .fin (-q)

/-- Sum of two floats, with a NaN for a NaN operand and without rounding. -/
def F32.add : F32 → F32 → F32
  | .fin a, .fin b => .fin (a + b)
  | _, _ => .nan

/-- A vector product that turns a point by a quarter turn about the Y axis,
(x, y, z) to (z, y, -x), when the matrix is the Y rotation by 90 degrees, and
leaves the point in place for every other matrix. -/
def quarterTurnMulVM : gx3dVector → gx3dMatrix → gx3dVector :=
  fun v m => match m with
    | .rotateY angle => if angle = 90 then ⟨v.z, v.y, F32.neg v.x⟩ else v
    | _ => v

/-- A vector product for a view direction halfway between the x and the z axis:
the depth of a point is x + z. -/
def depthSumMulVM : gx3dVector → gx3dMatrix → gx3dVector :=
  fun v _ => ⟨v.x, v.y, F32.add v.x v.z⟩

/-- The vector product with a matrix whose entries are all NaN: every
coordinate of every point comes out NaN. -/
def nanMulVM : gx3dVector → gx3dMatrix → gx3dVector :=
  fun _ _ => ⟨F32.nan, F32.nan, F32.nan⟩

/-- A DxDiag interface that cannot be created. -/
def noDxDiag : DxDiagEnv :=
  { createInstance := false, providerInit := false, rootContainer := false,
    systemInfo := false, major := none, minor := none, letter := none }

/-- A DxDiag interface that answers with the given version. -/
def dxDiagOf (major minor : Nat) (letter : Char) : DxDiagEnv :=
  { createInstance := true, providerInit := true, rootContainer := true,
    systemInfo := true, major := some major, minor := some minor,
    letter := some (charCode letter) }

/-- A system directory in which none of the probed files has a version. -/
def noFiles : FileEnv :=
  { systemDirectory := true, ddraw := none, d3drg8x := none, dplayx := none, dinput := none,
    d3d8 := none, mpg2splt := none, dpnet := none, d3d9 := none }

/-- The globals before `Program_Init` has run. -/
def sampleInitState : InitState :=
  { Pgm_num_pages := 7, Pgm_system_font := none, generate_keypress_events := 1 }

/-- A raw key press event. -/
def pressOf (keycode : Int) : evEvent := ⟨evTYPE.RAW_KEY_PRESS, keycode⟩

/-- A raw key release event. -/
def releaseOf (keycode : Int) : evEvent := ⟨evTYPE.RAW_KEY_RELEASE, keycode⟩

/-- The inputs of an iteration in which nothing happens: time `t`, the given
event, no mouse movement, the initial camera, and the given `gx3d_BeginRender`
result. -/
def sampleInput (t : Nat) (event : Option evEvent) (beginRender : Bool) : FrameInput :=
  { new_time := t
    event := event
    move_x := 0
    move_y := 0
    position := ⟨.fin 0, .fin 5, .fin (-120)⟩
    heading := ⟨.fin 0, .fin 0, .fin 1⟩
    beginRender := beginRender
    relation_outside := false
    viewmatrix := gx3dMatrix.view 0 }

/-! ## Lemmas on the sort -/

theorem qsortInsert_perm {α : Type} (cmp : α → α → Int) (a : α) (l : List α) :
    (qsortInsert cmp a l).Perm (a :: l) := by
  induction l with
  | nil => exact List.Perm.refl _
  | cons b l ih =>
    unfold qsortInsert
    split
    · exact List.Perm.refl _
    · exact (List.Perm.cons b ih).trans (List.Perm.swap a b l)

theorem qsort_cons {α : Type} (cmp : α → α → Int) (a : α) (l : List α) :
    qsort cmp (a :: l) = qsortInsert cmp a (qsort cmp l) := rfl

theorem qsort_perm {α : Type} (cmp : α → α → Int) (l : List α) :
    (qsort cmp l).Perm l := by
  induction l with
  | nil => exact List.Perm.refl _
  | cons a l ih =>
    rw [qsort_cons]
    exact (qsortInsert_perm cmp a _).trans (List.Perm.cons a ih)

/-- Insertion keeps a list ordered by `R`, when on the elements concerned (those
satisfying `P`) the comparator decides `R` and `R` is transitive. -/
theorem qsortInsert_pairwise {α : Type} (cmp : α → α → Int) (R : α → α → Prop)
    (P : α → Prop)
    (hle : ∀ a b, P a → P b → cmp a b ≤ 0 → R a b)
    (hgt : ∀ a b, P a → P b → ¬ cmp a b ≤ 0 → R b a)
    (htr : ∀ a b d, P a → P b → P d → R a b → R b d → R a d)
    (a : α) (ha : P a) (l : List α) (hl : ∀ b ∈ l, P b) (hs : l.Pairwise R) :
    (qsortInsert cmp a l).Pairwise R := by
  induction l with
  | nil => simp [qsortInsert]
  | cons b l ih =>
    have hb : P b := hl b (List.mem_cons_self b l)
    have hl2 : ∀ d ∈ l, P d := fun d hd => hl d (List.mem_cons_of_mem b hd)
    rw [List.pairwise_cons] at hs
    unfold qsortInsert
    split
    · rename_i hab
      rw [List.pairwise_cons]
      refine ⟨?_, List.pairwise_cons.mpr hs⟩
      intro d hd
      rcases List.mem_cons.mp hd with rfl | hd
      · exact hle a d ha hb hab
      · exact htr a b d ha hb (hl2 d hd) (hle a b ha hb hab) (hs.1 d hd)
    · rename_i hab
      rw [List.pairwise_cons]
      refine ⟨?_, ih hl2 hs.2⟩
      intro d hd
      rcases List.mem_cons.mp ((qsortInsert_perm cmp a l).mem_iff.mp hd) with rfl | hd
      · exact hgt d b ha hb hab
      · exact hs.1 d hd

theorem qsort_pairwise {α : Type} (cmp : α → α → Int) (R : α → α → Prop)
    (P : α → Prop)
    (hle : ∀ a b, P a → P b → cmp a b ≤ 0 → R a b)
    (hgt : ∀ a b, P a → P b → ¬ cmp a b ≤ 0 → R b a)
    (htr : ∀ a b d, P a → P b → P d → R a b → R b d → R a d)
    (l : List α) (hl : ∀ b ∈ l, P b) :
    (qsort cmp l).Pairwise R := by
  induction l with
  | nil => simp [qsort]
  | cons a l ih =>
    rw [qsort_cons]
    have hl2 : ∀ d ∈ l, P d := fun d hd => hl d (List.mem_cons_of_mem a hd)
    refine qsortInsert_pairwise cmp R P hle hgt htr a (hl a (List.mem_cons_self a l)) _ ?_
      (ih hl2)
    intro b hb
    exact hl2 b ((qsort_perm cmp l).mem_iff.mp hb)

theorem compare_ghosts_le {a b : GhostPos} (ha : a.view.z.isNaN = false)
    (hb : b.view.z.isNaN = false) (h : compare_ghosts a b ≤ 0) :
    F32.le b.view.z a.view.z = true := by
  unfold compare_ghosts at h
  cases hza : a.view.z with
  | nan => simp [hza, F32.isNaN] at ha
  | fin p =>
    cases hzb : b.view.z with
    | nan => simp [hzb, F32.isNaN] at hb
    | fin q =>
      simp only [hza, hzb, F32.eq, F32.lt, F32.le, decide_eq_true_eq] at h ⊢
      by_cases hpq : p = q
      · exact le_of_eq hpq.symm
      · by_cases hlt : p < q
        · simp [hpq, hlt] at h
        · exact le_of_not_lt hlt

theorem compare_ghosts_gt {a b : GhostPos} (ha : a.view.z.isNaN = false)
    (hb : b.view.z.isNaN = false) (h : ¬ compare_ghosts a b ≤ 0) :
    F32.le a.view.z b.view.z = true := by
  unfold compare_ghosts at h
  cases hza : a.view.z with
  | nan => simp [hza, F32.isNaN] at ha
  | fin p =>
    cases hzb : b.view.z with
    | nan => simp [hzb, F32.isNaN] at hb
    | fin q =>
      simp only [hza, hzb, F32.eq, F32.lt, F32.le, decide_eq_true_eq] at h ⊢
      by_cases hpq : p = q
      · exact le_of_eq hpq
      · by_cases hlt : p < q
        · exact le_of_lt hlt
        · simp [hpq, hlt] at h

theorem F32.le_transitive {a b d : F32} (hab : F32.le a b = true) (hbd : F32.le b d = true) :
    F32.le a d = true := by
  cases a <;> cases b <;> cases d <;> simp_all [F32.le]
  exact le_trans hab hbd

theorem transformGhosts_length (mulVM : gx3dVector → gx3dMatrix → gx3dVector)
    (vm : gx3dMatrix) (l : List GhostPos) :
    (transformGhosts mulVM vm l).length = l.length := by
  simp [transformGhosts]

theorem transformGhosts_world (mulVM : gx3dVector → gx3dMatrix → gx3dVector)
    (vm : gx3dMatrix) (l : List GhostPos) :
    (transformGhosts mulVM vm l).map (fun g => g.world) = l.map (fun g => g.world) := by
  simp [transformGhosts, Function.comp_def]

theorem sortStep_perm (mulVM : gx3dVector → gx3dMatrix → gx3dVector)
    (vm : gx3dMatrix) (l : List GhostPos) :
    (sortStep mulVM vm l).Perm (transformGhosts mulVM vm l) :=
  qsort_perm compare_ghosts _

theorem sortStep_world_perm (mulVM : gx3dVector → gx3dMatrix → gx3dVector)
    (vm : gx3dMatrix) (l : List GhostPos) :
    ((sortStep mulVM vm l).map (fun g => g.world)).Perm (l.map (fun g => g.world)) := by
  have h := (sortStep_perm mulVM vm l).map (fun g => g.world)
  rwa [transformGhosts_world] at h

/-! ## Lemmas on the command mask -/

theorem bitNot32_testBit (x n : Nat) :
    (bitNot32 x).testBit n = Bool.xor (x.testBit n) (decide (n < 32)) := by
  have h : (0xFFFFFFFF : Nat) = 2 ^ 32 - 1 := by norm_num
  unfold bitNot32
  rw [Nat.testBit_xor, h, Nat.testBit_two_pow_sub_one]

theorem testBit_of_lt_32 {x n : Nat} (hx : x < 2 ^ 32) (h : x.testBit n = true) : n < 32 := by
  by_contra hn
  have h2 : x < 2 ^ n :=
    lt_of_lt_of_le hx (Nat.pow_le_pow_right (by norm_num) (Nat.le_of_not_lt hn))
  rw [Nat.testBit_lt_two_pow h2] at h
  exact Bool.noConfusion h

theorem and_bitNot32_self {x : Nat} (hx : x < 2 ^ 32) : x &&& bitNot32 x = 0 := by
  apply Nat.eq_of_testBit_eq
  intro n
  rw [Nat.testBit_and, bitNot32_testBit, Nat.zero_testBit]
  cases h : x.testBit n with
  | false => rfl
  | true => simp [testBit_of_lt_32 hx h]

theorem and_bitNot32_of_disjoint {x y : Nat} (hx : x < 2 ^ 32) (h : x &&& y = 0) :
    x &&& bitNot32 y = x := by
  apply Nat.eq_of_testBit_eq
  intro n
  rw [Nat.testBit_and, bitNot32_testBit]
  cases hxn : x.testBit n with
  | false => rfl
  | true =>
    have hy : y.testBit n = false := by
      have h2 := congrArg (fun v => Nat.testBit v n) h
      simpa [hxn] using h2
    simp [hy, testBit_of_lt_32 hx hxn]

theorem SingleBit32.lt {b : Nat} (h : SingleBit32 b) : b < 2 ^ 32 := by
  obtain ⟨n, hn, rfl⟩ := h
  exact Nat.pow_lt_pow_right (by norm_num) hn

theorem SingleBit32.disjoint {a b : Nat} (ha : SingleBit32 a) (hb : SingleBit32 b)
    (hab : a ≠ b) : a &&& b = 0 := by
  obtain ⟨n, _, rfl⟩ := ha
  obtain ⟨m, _, rfl⟩ := hb
  have hnm : n ≠ m := fun h => hab (by rw [h])
  apply Nat.eq_of_testBit_eq
  intro k
  rw [Nat.testBit_and, Nat.testBit_two_pow, Nat.testBit_two_pow, Nat.zero_testBit]
  by_cases h1 : n = k
  · have h2 : ¬ m = k := fun h => hnm (h1.trans h.symm)
    simp [h2]
  · simp [h1]

theorem inputSteps_append (c : Consts) (m : Nat) (q : Bool) (l : List (Option evEvent))
    (ev : Option evEvent) :
    inputSteps c m q (l ++ [ev])
      = inputStep c (inputSteps c m q l).1 (inputSteps c m q l).2 ev := by
  induction l generalizing m q with
  | nil => rfl
  | cons a l ih => exact ih _ _

theorem held_append (l : List evEvent) (e : evEvent) (k : Int) :
    held (l ++ [e]) k
      = if e.keycode = k then decide (e.type = evTYPE.RAW_KEY_PRESS) else held l k := by
  unfold held
  rw [List.reverse_append]
  by_cases h : e.keycode = k
  · simp [List.find?, h]
  · simp [List.find?, h]

/-- One movement-key event turns the mask of the held keys into the mask of the
keys held afterwards. -/
theorem processEvent_heldMask (c : Consts) (hc : c.WellFormed) (l : List evEvent)
    (e : evEvent) (he : IsMoveKeyEvent e) (q : Bool) :
    (processEvent c (heldMask c l) q e).1 = heldMask c (l ++ [e]) := by
  have hF := hc.forward_bit.lt
  have hB := hc.back_bit.lt
  have hL := hc.left_bit.lt
  have hR := hc.right_bit.lt
  have hFB := SingleBit32.disjoint hc.forward_bit hc.back_bit hc.forward_back
  have hFL := SingleBit32.disjoint hc.forward_bit hc.left_bit hc.forward_left
  have hFR := SingleBit32.disjoint hc.forward_bit hc.right_bit hc.forward_right
  have hBL := SingleBit32.disjoint hc.back_bit hc.left_bit hc.back_left
  have hBR := SingleBit32.disjoint hc.back_bit hc.right_bit hc.back_right
  have hLR := SingleBit32.disjoint hc.left_bit hc.right_bit hc.left_right
  have hBF := (Nat.and_comm _ _).trans hFB
  have hLF := (Nat.and_comm _ _).trans hFL
  have hRF := (Nat.and_comm _ _).trans hFR
  have hLB := (Nat.and_comm _ _).trans hBL
  have hRB := (Nat.and_comm _ _).trans hBR
  have hRL := (Nat.and_comm _ _).trans hLR
  have ews := hc.esc_w
  have ess := hc.esc_s
  have eas := hc.esc_a
  have eds := hc.esc_d
  obtain ⟨ty, code⟩ := e
  obtain ⟨hty, hcode⟩ := he
  simp only [movementKeys, List.mem_cons, List.mem_singleton, List.not_mem_nil, or_false]
    at hcode
  have hws : chr 'w' ≠ chr 's' := by decide
  have hwa : chr 'w' ≠ chr 'a' := by decide
  have hwd : chr 'w' ≠ chr 'd' := by decide
  have hsa : chr 's' ≠ chr 'a' := by decide
  have hsd : chr 's' ≠ chr 'd' := by decide
  have had : chr 'a' ≠ chr 'd' := by decide
  simp only [heldMask, held_append]
  generalize held l (chr 'w') = kw
  generalize held l (chr 's') = ks
  generalize held l (chr 'a') = ka
  generalize held l (chr 'd') = kd
  rcases hty with rfl | rfl <;> rcases hcode with rfl | rfl | rfl | rfl
  all_goals
    simp only [processEvent, if_true, if_false, hws, hwa, hwd, hsa, hsd, had, hws.symm, hwa.symm,
      hwd.symm, hsa.symm, hsd.symm, had.symm, ews.symm, ess.symm, eas.symm, eds.symm,
      reduceCtorEq, decide_True, decide_False]
  all_goals
    generalize c.POSITION_MOVE_FORWARD = F at *
    generalize c.POSITION_MOVE_BACK = B at *
    generalize c.POSITION_MOVE_LEFT = L at *
    generalize c.POSITION_MOVE_RIGHT = R at *
    cases kw <;> cases ks <;> cases ka <;> cases kd <;>
    simp only [if_true, if_false, Bool.false_eq_true, Nat.zero_or, Nat.or_zero, Nat.zero_and,
      Nat.and_distrib_right, and_bitNot32_self hF, and_bitNot32_self hB, and_bitNot32_self hL,
      and_bitNot32_self hR, and_bitNot32_of_disjoint hF hFB, and_bitNot32_of_disjoint hF hFL,
      and_bitNot32_of_disjoint hF hFR, and_bitNot32_of_disjoint hB hBF,
      and_bitNot32_of_disjoint hB hBL, and_bitNot32_of_disjoint hB hBR,
      and_bitNot32_of_disjoint hL hLF, and_bitNot32_of_disjoint hL hLB,
      and_bitNot32_of_disjoint hL hLR, and_bitNot32_of_disjoint hR hRF,
      and_bitNot32_of_disjoint hR hRB, and_bitNot32_of_disjoint hR hRL] <;>
    first
      | rfl
      | (apply Nat.eq_of_testBit_eq
         intro n
         simp only [Nat.testBit_or]
         cases F.testBit n <;> cases B.testBit n <;> cases L.testBit n <;> cases R.testBit n <;>
           rfl)

theorem processEvent_quit_of_moveKey (c : Consts) (hc : c.WellFormed) (m : Nat) (q : Bool)
    (e : evEvent) (he : IsMoveKeyEvent e) : (processEvent c m q e).2 = q := by
  have ews := hc.esc_w
  have ess := hc.esc_s
  have eas := hc.esc_a
  have eds := hc.esc_d
  obtain ⟨ty, code⟩ := e
  obtain ⟨hty, hcode⟩ := he
  simp only [movementKeys, List.mem_cons, List.mem_singleton, List.not_mem_nil, or_false]
    at hcode
  rcases hcode with rfl | rfl | rfl | rfl
  all_goals
    unfold processEvent
    simp only [ews.symm, ess.symm, eas.symm, eds.symm, if_false]
    repeat' split
  all_goals rfl

theorem inputSteps_heldMask (c : Consts) (hc : c.WellFormed) (evs : List (Option evEvent))
    (h : ∀ e, some e ∈ evs → IsMoveKeyEvent e) :
    (inputSteps c 0 false evs).1 = heldMask c (evs.filterMap id) := by
  induction evs using List.reverseRecOn with
  | nil => simp [inputSteps, heldMask, held]
  | append_singleton l ev ih =>
    have hl : ∀ e, some e ∈ l → IsMoveKeyEvent e :=
      fun e he => h e (List.mem_append_left _ he)
    rw [inputSteps_append, List.filterMap_append]
    cases ev with
    | none => simpa [inputStep] using ih hl
    | some e =>
      have he : IsMoveKeyEvent e := h e (by simp)
      simp only [inputStep, List.filterMap_cons, id, List.filterMap_nil]
      rw [ih hl]
      exact processEvent_heldMask c hc _ e he _

theorem inputSteps_quit (c : Consts) (hc : c.WellFormed) (m : Nat) (q : Bool)
    (evs : List (Option evEvent)) (h : ∀ e, some e ∈ evs → IsMoveKeyEvent e) :
    (inputSteps c m q evs).2 = q := by
  induction evs generalizing m with
  | nil => rfl
  | cons ev l ih =>
    have hl : ∀ e, some e ∈ l → IsMoveKeyEvent e :=
      fun e he => h e (List.mem_cons_of_mem _ he)
    have hq : (inputStep c m q ev).2 = q := by
      cases ev with
      | none => rfl
      | some e => exact processEvent_quit_of_moveKey c hc m q e (h e (by simp))
    simp only [inputSteps, hq]
    exact ih _ hl

theorem frame_cmd_move (c : Consts) (mulVM : gx3dVector → gx3dMatrix → gx3dVector)
    (s : LoopState) (i : FrameInput) :
    (frame c mulVM s i).1.cmd_move = (inputStep c s.cmd_move s.quit i.event).1 := by
  unfold frame
  split <;> rfl

theorem frame_quit (c : Consts) (mulVM : gx3dVector → gx3dMatrix → gx3dVector)
    (s : LoopState) (i : FrameInput) :
    (frame c mulVM s i).1.quit = (inputStep c s.cmd_move s.quit i.event).2 := by
  unfold frame
  split <;> rfl

theorem frame_last_time (c : Consts) (mulVM : gx3dVector → gx3dMatrix → gx3dVector)
    (s : LoopState) (i : FrameInput) :
    (frame c mulVM s i).1.last_time = i.new_time := by
  unfold frame
  split <;> rfl

/-- While only movement-key events arrive, the loop keeps running and its
`cmd_move` is that of the input steps alone. -/
theorem gameLoop_cmd_move (c : Consts) (hc : c.WellFormed)
    (mulVM : gx3dVector → gx3dMatrix → gx3dVector) (s : LoopState) (hs : s.quit = false)
    (inputs : List FrameInput)
    (h : ∀ e, some e ∈ inputs.map (fun i => i.event) → IsMoveKeyEvent e) :
    (gameLoop c mulVM s inputs).1.cmd_move
      = (inputSteps c s.cmd_move false (inputs.map (fun i => i.event))).1 := by
  induction inputs generalizing s with
  | nil => rfl
  | cons i rest ih =>
    have hrest : ∀ e, some e ∈ rest.map (fun i => i.event) → IsMoveKeyEvent e :=
      fun e he => h e (by simp only [List.map_cons]; exact List.mem_cons_of_mem _ he)
    have hq : (inputStep c s.cmd_move false i.event).2 = false :=
      inputSteps_quit c hc s.cmd_move false [i.event]
        (fun e he => h e (by
          simp only [List.map_cons]
          rw [List.mem_singleton] at he
          rw [he]
          exact List.mem_cons_self _ _))
    have hq2 : (frame c mulVM s i).1.quit = false := by rw [frame_quit, hs]; exact hq
    simp only [gameLoop, hs, Bool.false_eq_true, if_false, List.map_cons, inputSteps]
    rw [ih _ hq2 hrest, frame_cmd_move, hs, hq]

theorem qsort_eq_self {α : Type} (cmp : α → α → Int) (l : List α)
    (h : l.Pairwise (fun a b => cmp a b ≤ 0)) : qsort cmp l = l := by
  induction l with
  | nil => rfl
  | cons a l ih =>
    rw [List.pairwise_cons] at h
    rw [qsort_cons, ih h.2]
    cases l with
    | nil => rfl
    | cons b l =>
      simp only [qsortInsert]
      rw [if_pos (h.1 b (List.mem_cons_self b l))]

theorem compare_ghosts_of_lt {a b : GhostPos} (h : F32.lt b.view.z a.view.z = true) :
    compare_ghosts a b ≤ 0 := by
  unfold compare_ghosts
  cases hza : a.view.z with
  | nan => simp [hza, F32.lt] at h
  | fin p =>
    cases hzb : b.view.z with
    | nan => simp [hzb, F32.lt] at h
    | fin q =>
      simp only [hza, hzb, F32.lt, decide_eq_true_eq] at h
      have h1 : ¬ p = q := ne_of_gt h
      have h2 : ¬ p < q := not_lt_of_gt h
      simp [F32.eq, F32.lt, h1, h2]

theorem frame_ghost_world_perm (c : Consts) (mulVM : gx3dVector → gx3dMatrix → gx3dVector)
    (s : LoopState) (i : FrameInput) :
    ((frame c mulVM s i).1.ghost_pos.map (fun g => g.world)).Perm
      (s.ghost_pos.map (fun g => g.world)) := by
  unfold frame
  split
  · exact sortStep_world_perm mulVM i.viewmatrix s.ghost_pos
  · exact List.Perm.refl _

theorem gameLoop_of_quit (c : Consts) (mulVM : gx3dVector → gx3dMatrix → gx3dVector)
    (s : LoopState) (hs : s.quit = true) (inputs : List FrameInput) :
    gameLoop c mulVM s inputs = (s, []) := by
  cases inputs with
  | nil => rfl
  | cons i rest => simp [gameLoop, hs]

theorem sampleConsts_wellFormed : sampleConsts.WellFormed where
  forward_bit := ⟨0, by decide, rfl⟩
  back_bit := ⟨1, by decide, rfl⟩
  left_bit := ⟨2, by decide, rfl⟩
  right_bit := ⟨3, by decide, rfl⟩
  forward_back := by decide
  forward_left := by decide
  forward_right := by decide
  back_left := by decide
  back_right := by decide
  left_right := by decide
  esc_w := by decide
  esc_s := by decide
  esc_a := by decide
  esc_d := by decide

theorem and_bitNot32_idem (m b : Nat) : m &&& bitNot32 b &&& bitNot32 b = m &&& bitNot32 b := by
  rw [Nat.and_assoc, Nat.and_self]

theorem inputStep_press_esc (c : Consts) (m : Nat) (q : Bool) :
    inputStep c m q (some (pressOf c.evKY_ESC)) = (m, true) := by
  simp [inputStep, processEvent, pressOf]

theorem frame_calls (c : Consts)
    (mulVM : gx3dVector → gx3dMatrix → gx3dVector) (s : LoopState) (i : FrameInput) :
    (frame c mulVM s i).2
      = orbitCalls mulVM (advanceAngle s.angle) ++ [Call.timeGetTime, Call.evGetEvent]
        ++ cameraCalls (clockStep s.last_time i.new_time).1
            (inputStep c s.cmd_move s.quit i.event).1 s.force_update i
        ++ [Call.gx3d_ClearViewport, Call.gx3d_BeginRender]
        ++ (if i.beginRender then
              renderCalls i.heading i.relation_outside (advanceOffset s.offset)
                (s.targetX + s.targetX_incr) (sortStep mulVM i.viewmatrix s.ghost_pos)
            else []) := by
  unfold frame
  split <;> simp

theorem callsAfter_evGetEvent_frame (c : Consts)
    (mulVM : gx3dVector → gx3dMatrix → gx3dVector) (s : LoopState) (i : FrameInput) :
    callsAfter Call.evGetEvent (frame c mulVM s i).2
      = cameraCalls (clockStep s.last_time i.new_time).1
          (inputStep c s.cmd_move s.quit i.event).1 s.force_update i
        ++ [Call.gx3d_ClearViewport, Call.gx3d_BeginRender]
        ++ (if i.beginRender then
              renderCalls i.heading i.relation_outside (advanceOffset s.offset)
                (s.targetX + s.targetX_incr) (sortStep mulVM i.viewmatrix s.ghost_pos)
            else []) := by
  unfold frame
  split <;> simp [callsAfter, orbitCalls, List.dropWhile]

/-! ## The claims -/

/-- C1: for every array of N entries and every view transform that yields no NaN
depth, the sort step returns N entries, a permutation of the transformed input
entries (so the world positions are a permutation of the input world positions),
with view depth non-increasing from first to last; three entries whose depths are
5, 1, 3 come out in the order 5, 3, 1. -/
theorem C1_sortStep_sorted_perm (mulVM : gx3dVector → gx3dMatrix → gx3dVector)
    (vm : gx3dMatrix) (ghost_pos : List GhostPos)
    (h : ∀ g ∈ ghost_pos, (mulVM g.world vm).z.isNaN = false) :
    (sortStep mulVM vm ghost_pos).length = ghost_pos.length
    ∧ (sortStep mulVM vm ghost_pos).Perm (transformGhosts mulVM vm ghost_pos)
    ∧ ((sortStep mulVM vm ghost_pos).map (fun g => g.world)).Perm
        (ghost_pos.map (fun g => g.world))
    ∧ (sortStep mulVM vm ghost_pos).Pairwise (fun a b => F32.le b.view.z a.view.z = true)
    ∧ (∀ g1 g2 g3 : GhostPos,
        (mulVM g1.world vm).z = F32.fin 5 → (mulVM g2.world vm).z = F32.fin 1 →
        (mulVM g3.world vm).z = F32.fin 3 →
        sortStep mulVM vm [g1, g2, g3]
          = [⟨g1.world, mulVM g1.world vm⟩, ⟨g3.world, mulVM g3.world vm⟩,
             ⟨g2.world, mulVM g2.world vm⟩]) := by
  refine ⟨?_, sortStep_perm mulVM vm ghost_pos, sortStep_world_perm mulVM vm ghost_pos, ?_, ?_⟩
  · rw [(sortStep_perm mulVM vm ghost_pos).length_eq, transformGhosts_length]
  · refine qsort_pairwise compare_ghosts _ (fun g => g.view.z.isNaN = false)
      (fun a b ha hb hab => compare_ghosts_le ha hb hab)
      (fun a b ha hb hab => compare_ghosts_gt ha hb hab)
      (fun a b d _ _ _ hab hbd => F32.le_transitive hbd hab) _ ?_
    intro b hb
    simp only [transformGhosts, List.mem_map] at hb
    obtain ⟨g, hg, rfl⟩ := hb
    exact h g hg
  · intro g1 g2 g3 h1 h2 h3
    simp only [sortStep, transformGhosts, qsort, qsortInsert, compare_ghosts, h1, h2, h3, F32.eq,
      F32.lt, List.map, List.foldr]
    norm_num

/-- C1, at three entries whose depths under the identity transform are 5, 1, 3. -/
theorem C1_sortStep_sorted_perm_witness :
    (sortStep identityMulVM (gx3dMatrix.view 0) [ghostAt 5, ghostAt 1, ghostAt 3]).length = 3
    ∧ (sortStep identityMulVM (gx3dMatrix.view 0) [ghostAt 5, ghostAt 1, ghostAt 3]).Pairwise
        (fun a b => F32.le b.view.z a.view.z = true) :=
  ⟨(C1_sortStep_sorted_perm identityMulVM (gx3dMatrix.view 0)
      [ghostAt 5, ghostAt 1, ghostAt 3] (by simp [identityMulVM, ghostAt, F32.isNaN])).1,
   (C1_sortStep_sorted_perm identityMulVM (gx3dMatrix.view 0)
      [ghostAt 5, ghostAt 1, ghostAt 3] (by simp [identityMulVM, ghostAt, F32.isNaN])).2.2.2.1⟩

/-- C2: the sort step of an empty array is empty, and the sort step of a
one-entry array is that entry with the same world position and with its view
position equal to the transform of its world position. -/
theorem C2_sortStep_empty_single (mulVM : gx3dVector → gx3dMatrix → gx3dVector)
    (vm : gx3dMatrix) :
    sortStep mulVM vm [] = []
    ∧ ∀ g : GhostPos, sortStep mulVM vm [g] = [{ world := g.world, view := mulVM g.world vm }] :=
  ⟨rfl, fun _ => rfl⟩

/-- C3, refuted as stated: in a rendered frame that starts with the depths 1, 5 in
this order, index 0 of the array holds the world position `(0, 1, 1)` before the
frame and `(0, 1, 5)` after it. -/
theorem C3_world_index_changes :
    ((initLoopState [ghostAt 1, ghostAt 5]).ghost_pos.map (fun g => g.world))[0]?
        = some (ghostAt 1).world
    ∧ ((frame sampleConsts identityMulVM (initLoopState [ghostAt 1, ghostAt 5])
          (sampleInput 1000 none true)).1.ghost_pos.map (fun g => g.world))[0]?
        = some (ghostAt 5).world
    ∧ (ghostAt 5).world ≠ (ghostAt 1).world := by
  refine ⟨rfl, ?_, ?_⟩
  · simp only [frame, sampleInput, initLoopState, sortStep, transformGhosts, qsort, qsortInsert,
      compare_ghosts, identityMulVM, ghostAt, F32.eq, F32.lt, List.map, List.foldr]
    norm_num
  · simp [ghostAt]

/-- C3, amended: in every frame the world positions stored in the array after the
frame are a permutation of those stored before it (the sort moves whole entries,
world and view together, and alters no world position); a frame that is not
rendered leaves the array as it is; and when the transformed depths are already
strictly decreasing, every index keeps its world position. -/
theorem C3_world_positions_permuted (c : Consts)
    (mulVM : gx3dVector → gx3dMatrix → gx3dVector) (s : LoopState) (i : FrameInput) :
    ((frame c mulVM s i).1.ghost_pos.map (fun g => g.world)).Perm
      (s.ghost_pos.map (fun g => g.world))
    ∧ (i.beginRender = false → (frame c mulVM s i).1.ghost_pos = s.ghost_pos)
    ∧ ((transformGhosts mulVM i.viewmatrix s.ghost_pos).Pairwise
          (fun a b => F32.lt b.view.z a.view.z = true) →
        (frame c mulVM s i).1.ghost_pos.map (fun g => g.world)
          = s.ghost_pos.map (fun g => g.world)) := by
  refine ⟨frame_ghost_world_perm c mulVM s i, ?_, ?_⟩
  · intro h
    simp [frame, h]
  · intro h
    have hs : sortStep mulVM i.viewmatrix s.ghost_pos
        = transformGhosts mulVM i.viewmatrix s.ghost_pos :=
      qsort_eq_self compare_ghosts _ (h.imp (fun hab => compare_ghosts_of_lt hab))
    unfold frame
    split
    · show (sortStep mulVM i.viewmatrix s.ghost_pos).map (fun g => g.world) = _
      rw [hs, transformGhosts_world]
    · rfl

/-- C3 amended, at a rendered frame whose depths 5, 3 are already decreasing and
at a frame that is not rendered. -/
theorem C3_world_positions_permuted_witness :
    (frame sampleConsts identityMulVM (initLoopState [ghostAt 5, ghostAt 3])
        (sampleInput 1000 none true)).1.ghost_pos.map (fun g => g.world)
      = [(ghostAt 5).world, (ghostAt 3).world]
    ∧ (frame sampleConsts identityMulVM (initLoopState [ghostAt 1, ghostAt 5])
        (sampleInput 1000 none false)).1.ghost_pos = [ghostAt 1, ghostAt 5] :=
  ⟨(C3_world_positions_permuted sampleConsts identityMulVM (initLoopState [ghostAt 5, ghostAt 3])
      (sampleInput 1000 none true)).2.2
      (by
        simp only [transformGhosts, sampleInput, initLoopState, identityMulVM, ghostAt, List.map,
          List.pairwise_cons, List.mem_cons, List.mem_singleton, F32.lt]
        norm_num),
   (C3_world_positions_permuted sampleConsts identityMulVM (initLoopState [ghostAt 1, ghostAt 5])
      (sampleInput 1000 none false)).2.1 rfl⟩

/-- C4: when the four `POSITION_MOVE_*` constants are distinct single bits (and
ESC is none of the four letters), then after any run of iterations from the
initial state in which every event is a raw press or release of 'w', 's', 'a' or
'd', `cmd_move` is the bitwise OR of the bits of the keys whose most recent event
is a press; after press 'w', press 'd', release 'w' it is `POSITION_MOVE_RIGHT`. -/
theorem C4_cmd_move_is_held_keys (c : Consts) (hc : c.WellFormed)
    (mulVM : gx3dVector → gx3dMatrix → gx3dVector) (ghost_pos : List GhostPos)
    (inputs : List FrameInput)
    (h : ∀ e, some e ∈ inputs.map (fun i => i.event) → IsMoveKeyEvent e) :
    (gameLoop c mulVM (initLoopState ghost_pos) inputs).1.cmd_move
      = heldMask c (inputs.filterMap (fun i => i.event))
    ∧ (inputSteps c 0 false (inputs.map (fun i => i.event))).1
      = heldMask c (inputs.filterMap (fun i => i.event))
    ∧ (∀ i1 i2 i3 : FrameInput, i1.event = some (pressOf (chr 'w')) →
        i2.event = some (pressOf (chr 'd')) → i3.event = some (releaseOf (chr 'w')) →
        (gameLoop c mulVM (initLoopState ghost_pos) [i1, i2, i3]).1.cmd_move
          = c.POSITION_MOVE_RIGHT) := by
  have hmap : ∀ l : List FrameInput,
      (l.map (fun i => i.event)).filterMap id = l.filterMap (fun i => i.event) := by
    intro l
    rw [List.filterMap_map]
    rfl
  have key : ∀ l : List FrameInput,
      (∀ e, some e ∈ l.map (fun i => i.event) → IsMoveKeyEvent e) →
      (gameLoop c mulVM (initLoopState ghost_pos) l).1.cmd_move
        = heldMask c (l.filterMap (fun i => i.event)) := by
    intro l hl
    rw [gameLoop_cmd_move c hc mulVM _ rfl l hl]
    show (inputSteps c 0 false _).1 = _
    rw [inputSteps_heldMask c hc _ hl, hmap]
  refine ⟨key inputs h, ?_, ?_⟩
  · rw [inputSteps_heldMask c hc _ h, hmap]
  · intro i1 i2 i3 h1 h2 h3
    rw [key [i1, i2, i3]]
    · have e1 : held [pressOf (chr 'w'), pressOf (chr 'd'), releaseOf (chr 'w')] (chr 'w')
          = false := by decide
      have e2 : held [pressOf (chr 'w'), pressOf (chr 'd'), releaseOf (chr 'w')] (chr 's')
          = false := by decide
      have e3 : held [pressOf (chr 'w'), pressOf (chr 'd'), releaseOf (chr 'w')] (chr 'a')
          = false := by decide
      have e4 : held [pressOf (chr 'w'), pressOf (chr 'd'), releaseOf (chr 'w')] (chr 'd')
          = true := by decide
      simp [List.filterMap, h1, h2, h3, heldMask, e1, e2, e3, e4]
    · intro e he
      simp only [List.map_cons, List.map_nil, h1, h2, h3, List.mem_cons, List.mem_singleton,
        Option.some.injEq, List.not_mem_nil, or_false] at he
      rcases he with rfl | rfl | rfl
      · exact ⟨Or.inl rfl, by decide⟩
      · exact ⟨Or.inl rfl, by decide⟩
      · exact ⟨Or.inr rfl, by decide⟩

/-- C4, at the constants 1, 2, 4, 8 and the three iterations press 'w', press 'd',
release 'w'. -/
theorem C4_cmd_move_is_held_keys_witness :
    (gameLoop sampleConsts identityMulVM (initLoopState [])
      [sampleInput 10 (some (pressOf (chr 'w'))) false,
       sampleInput 20 (some (pressOf (chr 'd'))) false,
       sampleInput 30 (some (releaseOf (chr 'w'))) false]).1.cmd_move
      = heldMask sampleConsts [pressOf (chr 'w'), pressOf (chr 'd'), releaseOf (chr 'w')] :=
  (C4_cmd_move_is_held_keys sampleConsts sampleConsts_wellFormed identityMulVM []
      [sampleInput 10 (some (pressOf (chr 'w'))) false,
       sampleInput 20 (some (pressOf (chr 'd'))) false,
       sampleInput 30 (some (releaseOf (chr 'w'))) false]
      (fun e he => by
        simp only [sampleInput, List.map_cons, List.map_nil, List.mem_cons, List.mem_singleton,
          Option.some.injEq, List.not_mem_nil, or_false] at he
        rcases he with rfl | rfl | rfl
        · exact ⟨Or.inl rfl, by decide⟩
        · exact ⟨Or.inl rfl, by decide⟩
        · exact ⟨Or.inr rfl, by decide⟩)).1

/-- C5: for every 32-bit mask and every movement key whose bit is not set in the
mask, a raw release of that key leaves the mask and the quit flag as they were;
and for every mask, handling the same release twice gives the mask that handling
it once gives. -/
theorem C5_release_unset_is_noop (c : Consts) (mask : Nat) (quit : Bool) (k : Int)
    (hk : k ∈ movementKeys) (hmask : mask < 2 ^ 32) (hbit : mask &&& moveBit c k = 0) :
    processEvent c mask quit (releaseOf k) = (mask, quit)
    ∧ ∀ m : Nat,
        (processEvent c (processEvent c m quit (releaseOf k)).1
            (processEvent c m quit (releaseOf k)).2 (releaseOf k)).1
          = (processEvent c m quit (releaseOf k)).1 := by
  have hws : chr 'w' ≠ chr 's' := by decide
  have hwa : chr 'w' ≠ chr 'a' := by decide
  have hwd : chr 'w' ≠ chr 'd' := by decide
  have hsa : chr 's' ≠ chr 'a' := by decide
  have hsd : chr 's' ≠ chr 'd' := by decide
  have had : chr 'a' ≠ chr 'd' := by decide
  simp only [movementKeys, List.mem_cons, List.mem_singleton, List.not_mem_nil, or_false] at hk
  rcases hk with rfl | rfl | rfl | rfl
  all_goals
    simp only [moveBit, if_true, if_false, hws.symm, hwa.symm, hwd.symm, hsa.symm, hsd.symm,
      had.symm] at hbit
    simp only [processEvent, releaseOf, if_true, if_false, hws.symm, hwa.symm, hwd.symm,
      hsa.symm, hsd.symm, had.symm, reduceCtorEq, and_bitNot32_of_disjoint hmask hbit,
      and_bitNot32_idem, implies_true, and_self]

/-- C5, at the mask `POSITION_MOVE_BACK` and a release of 'w'. -/
theorem C5_release_unset_is_noop_witness :
    processEvent sampleConsts 2 false (releaseOf (chr 'w')) = (2, false) :=
  (C5_release_unset_is_noop sampleConsts 2 false (chr 'w') (by decide) (by decide)
    (by decide)).1

/-- C6: when no event is pending in an iteration, or the event is neither a raw
press of ESC, 'w', 's', 'a', 'd' nor a raw release of 'w', 's', 'a', 'd', the
input step returns `cmd_move` and `quit` unchanged, and the loop state after the
iteration holds the `cmd_move` and `quit` it held before. -/
theorem C6_unhandled_event_ignored (c : Consts)
    (mulVM : gx3dVector → gx3dMatrix → gx3dVector) (s : LoopState) (i : FrameInput)
    (h : ∀ e, i.event = some e → ¬ IsHandledEvent c e) :
    inputStep c s.cmd_move s.quit i.event = (s.cmd_move, s.quit)
    ∧ (frame c mulVM s i).1.cmd_move = s.cmd_move
    ∧ (frame c mulVM s i).1.quit = s.quit := by
  have key : inputStep c s.cmd_move s.quit i.event = (s.cmd_move, s.quit) := by
    cases hev : i.event with
    | none => rfl
    | some e =>
      have hne := h e hev
      obtain ⟨ty, code⟩ := e
      simp only [IsHandledEvent, movementKeys, List.mem_cons, List.mem_singleton,
        List.not_mem_nil, or_false, not_or, not_and] at hne
      simp only [inputStep, processEvent]
      by_cases hp : ty = evTYPE.RAW_KEY_PRESS
      · have h1 := hne.1 hp
        simp [hp, h1.1, h1.2.1, h1.2.2.1, h1.2.2.2.1, h1.2.2.2.2]
      · by_cases hr : ty = evTYPE.RAW_KEY_RELEASE
        · have h2 := hne.2 hr
          simp [hr, h2.1, h2.2.1, h2.2.2.1, h2.2.2.2]
        · simp [hp, hr]
  refine ⟨key, ?_, ?_⟩
  · rw [frame_cmd_move, key]
  · rw [frame_quit, key]

/-- C6, at an iteration without event and at a raw press of the key 'x'. -/
theorem C6_unhandled_event_ignored_witness :
    inputStep sampleConsts 5 false none = (5, false)
    ∧ (frame sampleConsts identityMulVM (initLoopState [])
        (sampleInput 10 (some (pressOf (chr 'x'))) true)).1.cmd_move = 0 :=
  ⟨(C6_unhandled_event_ignored sampleConsts identityMulVM
      { initLoopState [] with cmd_move := 5 } (sampleInput 10 none true)
      (fun e he => Option.noConfusion he)).1,
   (C6_unhandled_event_ignored sampleConsts identityMulVM (initLoopState [])
      (sampleInput 10 (some (pressOf (chr 'x'))) true)
      (fun e he => by
        have he2 : pressOf (chr 'x') = e := Option.some.inj he
        subst he2
        simp only [IsHandledEvent]
        decide)).2.1⟩

/-- C7: for every mask, a raw press of ESC sets the quit flag and leaves
`cmd_move` unchanged; and an input step that finds the quit flag clear and leaves
it set has handled a raw press of ESC. -/
theorem C7_only_esc_sets_quit (c : Consts) (cmd_move : Nat) (quit : Bool) :
    inputStep c cmd_move quit (some (pressOf c.evKY_ESC)) = (cmd_move, true)
    ∧ ∀ ev : Option evEvent, (inputStep c cmd_move false ev).2 = true →
        ev = some (pressOf c.evKY_ESC) := by
  constructor
  · exact inputStep_press_esc c cmd_move quit
  · intro ev h
    cases ev with
    | none => simp [inputStep] at h
    | some e =>
      obtain ⟨ty, code⟩ := e
      simp only [inputStep, processEvent] at h
      by_cases hp : ty = evTYPE.RAW_KEY_PRESS
      · by_cases hc : code = c.evKY_ESC
        · rw [hp, hc]; rfl
        · exfalso
          simp only [hp, hc, if_true, if_false] at h
          repeat' split at h
          all_goals simp at h
      · exfalso
        simp only [hp, if_false] at h
        repeat' split at h
        all_goals simp at h

/-- C7, at ESC = 27: the press of ESC sets the flag, and the press found behind a
set flag is the press of ESC. -/
theorem C7_only_esc_sets_quit_witness :
    inputStep sampleConsts 3 false (some (pressOf 27)) = (3, true)
    ∧ some (pressOf 27) = some (pressOf sampleConsts.evKY_ESC) :=
  ⟨(C7_only_esc_sets_quit sampleConsts 3 false).1,
   (C7_only_esc_sets_quit sampleConsts 3 false).2 (some (pressOf 27)) (by decide)⟩

/-- C8, refuted as stated: in a rendered iteration that drains the press of ESC,
the quit flag is set and, after `evGetEvent`, the mouse is still sampled, the
camera still updated, the array still sorted, a ghost still drawn and the page
still flipped. -/
theorem C8_exit_frame_not_skipped :
    (frame sampleConsts identityMulVM (initLoopState [ghostAt 5])
      (sampleInput 1000 (some (pressOf 27)) true)).1.quit = true
    ∧ Call.msGetMouseMovement ∈ callsAfter Call.evGetEvent
        (frame sampleConsts identityMulVM (initLoopState [ghostAt 5])
          (sampleInput 1000 (some (pressOf 27)) true)).2
    ∧ Call.Position_Update 0 0 0 0 false ∈ callsAfter Call.evGetEvent
        (frame sampleConsts identityMulVM (initLoopState [ghostAt 5])
          (sampleInput 1000 (some (pressOf 27)) true)).2
    ∧ Call.qsort [⟨(ghostAt 5).world, (ghostAt 5).world⟩] ∈ callsAfter Call.evGetEvent
        (frame sampleConsts identityMulVM (initLoopState [ghostAt 5])
          (sampleInput 1000 (some (pressOf 27)) true)).2
    ∧ Call.gx3d_DrawObject Object.obj_ghost ∈ callsAfter Call.evGetEvent
        (frame sampleConsts identityMulVM (initLoopState [ghostAt 5])
          (sampleInput 1000 (some (pressOf 27)) true)).2
    ∧ Call.gxFlipVisualActivePages ∈ callsAfter Call.evGetEvent
        (frame sampleConsts identityMulVM (initLoopState [ghostAt 5])
          (sampleInput 1000 (some (pressOf 27)) true)).2 := by
  refine ⟨by decide, ?_, ?_, ?_, ?_, ?_⟩ <;>
    simp [callsAfter, frame, sampleInput, initLoopState, orbitCalls, cameraCalls, renderCalls,
      drawSceneCalls, drawTree2Calls, drawBillboardTreeCalls, drawSkyCalls, drawGhostsCalls,
      drawGhostCalls, endRenderCalls, sortStep, transformGhosts, qsort, qsortInsert,
      identityMulVM, ghostAt, clockStep, inputStep, processEvent, pressOf, sampleConsts,
      List.dropWhile]

/-- C8, amended: the iteration that drains the press of ESC sets the quit flag
and then runs to its end like any other: it issues the calls of the same
iteration without event, so after `evGetEvent` come the mouse sample, the camera
and listener update, `gx3d_ClearViewport`, `gx3d_BeginRender` and, when that
succeeds, the whole rendering with sort, ghosts and page flip; the flag is tested
only at the top of the loop, so no further iteration starts. -/
theorem C8_exit_frame_completes (c : Consts) (mulVM : gx3dVector → gx3dMatrix → gx3dVector)
    (s : LoopState) (i : FrameInput) (h : i.event = some (pressOf c.evKY_ESC)) :
    (frame c mulVM s i).1.quit = true
    ∧ (frame c mulVM s i).2 = (frame c mulVM s { i with event := none }).2
    ∧ callsAfter Call.evGetEvent (frame c mulVM s i).2
        = cameraCalls (clockStep s.last_time i.new_time).1 s.cmd_move s.force_update i
          ++ [Call.gx3d_ClearViewport, Call.gx3d_BeginRender]
          ++ (if i.beginRender then
                renderCalls i.heading i.relation_outside (advanceOffset s.offset)
                  (s.targetX + s.targetX_incr) (sortStep mulVM i.viewmatrix s.ghost_pos)
              else [])
    ∧ ∀ rest : List FrameInput,
        gameLoop c mulVM (frame c mulVM s i).1 rest = ((frame c mulVM s i).1, []) := by
  have hin : inputStep c s.cmd_move s.quit i.event = (s.cmd_move, true) := by
    rw [h]
    exact inputStep_press_esc c s.cmd_move s.quit
  have hq : (frame c mulVM s i).1.quit = true := by rw [frame_quit, hin]
  refine ⟨hq, ?_, ?_, fun rest => gameLoop_of_quit c mulVM _ hq rest⟩
  · rw [frame_calls, frame_calls, hin]
    rfl
  · rw [callsAfter_evGetEvent_frame, hin]

/-- C8 amended, at a rendered iteration that drains the press of ESC = 27 and is
followed by the inputs of one more iteration. -/
theorem C8_exit_frame_completes_witness :
    (frame sampleConsts identityMulVM (initLoopState [ghostAt 5])
      (sampleInput 1000 (some (pressOf 27)) true)).1.quit = true
    ∧ gameLoop sampleConsts identityMulVM
        (frame sampleConsts identityMulVM (initLoopState [ghostAt 5])
          (sampleInput 1000 (some (pressOf 27)) true)).1 [sampleInput 1016 none true]
      = ((frame sampleConsts identityMulVM (initLoopState [ghostAt 5])
          (sampleInput 1000 (some (pressOf 27)) true)).1, []) :=
  ⟨(C8_exit_frame_completes sampleConsts identityMulVM (initLoopState [ghostAt 5])
      (sampleInput 1000 (some (pressOf 27)) true) rfl).1,
   (C8_exit_frame_completes sampleConsts identityMulVM (initLoopState [ghostAt 5])
      (sampleInput 1000 (some (pressOf 27)) true) rfl).2.2.2 [sampleInput 1016 none true]⟩

/-- C9: at the timestamps 0 in the first iteration and 5 in the second the clock
step returns elapsed time 0 in the second iteration, where the elapsed time since
the last pass is 5 - 0: the stored timestamp 0 is taken for the mark of a first
iteration. -/
theorem C9_second_frame_after_zero :
    (clockStep (initLoopState []).last_time 0).1 = 0
    ∧ (clockStep (clockStep (initLoopState []).last_time 0).2 5).1 = 0
    ∧ (clockStep (clockStep (initLoopState []).last_time 0).2 5).1 ≠ 5 - 0 := by
  decide

/-- The clock step on the first two iterations after initialisation, for a first
timestamp other than 0: elapsed time 0 in the first iteration and the difference
of the timestamps in the second. -/
theorem clockStep_first_and_second (ghost_pos : List GhostPos) (T1 T2 : Nat)
    (h2 : T2 < 2 ^ 32) (h12 : T1 < T2) (h0 : T1 ≠ 0) :
    (clockStep (initLoopState ghost_pos).last_time T1).1 = 0
    ∧ (clockStep (clockStep (initLoopState ghost_pos).last_time T1).2 T2).1 = T2 - T1 := by
  refine ⟨rfl, ?_⟩
  simp only [clockStep, initLoopState, h0, if_false, sub32]
  have h3 : T2 + 2 ^ 32 - T1 = (T2 - T1) + 2 ^ 32 := by omega
  rw [h3, Nat.add_mod_right]
  exact Nat.mod_eq_of_lt (by omega)

/-- C10, refuted as stated: with the stored timestamp 10 and the current
timestamp 5 the elapsed time is 4294967291, not 0. -/
theorem C10_backwards_not_clamped :
    (clockStep 10 5).1 = 4294967291 ∧ (clockStep 10 5).1 ≠ 0 := by
  decide

/-- C10, amended: when the current 32-bit timestamp T2 is smaller than the
stored timestamp T1, the clock step returns the difference modulo 2^32, that is
2^32 - (T1 - T2), which is positive and not clamped to 0; the stored timestamp
becomes T2. -/
theorem C10_backwards_wraps (T1 T2 : Nat) (h1 : T1 < 2 ^ 32) (h21 : T2 < T1) :
    (clockStep T1 T2).1 = 2 ^ 32 - (T1 - T2)
    ∧ 0 < (clockStep T1 T2).1
    ∧ (clockStep T1 T2).2 = T2 := by
  have h0 : T1 ≠ 0 := by omega
  have key : (clockStep T1 T2).1 = 2 ^ 32 - (T1 - T2) := by
    simp only [clockStep, h0, if_false, sub32]
    have h3 : T2 + 2 ^ 32 - T1 = 2 ^ 32 - (T1 - T2) := by omega
    rw [h3]
    exact Nat.mod_eq_of_lt (by omega)
  refine ⟨key, ?_, rfl⟩
  rw [key]
  omega

/-- C10 amended, at the stored timestamp 10 and the current timestamp 5. -/
theorem C10_backwards_wraps_witness :
    (clockStep 10 5).1 = 2 ^ 32 - (10 - 5) :=
  (C10_backwards_wraps 10 5 (by decide) (by decide)).1

/-! ## Lemmas on the orbit angle and on the calls of a frame -/

theorem advanceAngle_iterate (k : Nat) :
    advanceAngle^[k] 0 = ((k % 720 : Nat) : ℚ) / 2 := by
  induction k with
  | zero => simp
  | succ k ih =>
    rw [Function.iterate_succ_apply', ih]
    have hr : k % 720 < 720 := Nat.mod_lt k (by norm_num)
    unfold advanceAngle
    by_cases h : k % 720 = 719
    · have h2 : (k + 1) % 720 = 0 := by omega
      rw [h, h2]
      norm_num
    · have h2 : (k + 1) % 720 = k % 720 + 1 := by omega
      have h3 : ((k % 720 : Nat) : ℚ) + 1 < 720 := by
        have : k % 720 + 1 < 720 := by omega
        exact_mod_cast this
      rw [h2]
      have h4 : ¬ (((k % 720 : Nat) : ℚ) / 2 + 1 / 2 ≥ 360) := by
        intro h5
        linarith
      rw [if_neg h4]
      push_cast
      ring

theorem mod360_half (k : Nat) : mod360 ((k : ℚ) * (1 / 2)) = ((k % 720 : Nat) : ℚ) / 2 := by
  generalize hq : k / 720 = q
  generalize hrr : k % 720 = r
  have hkn : k = 720 * q + r := by
    rw [← hq, ← hrr]
    exact (Nat.div_add_mod k 720).symm
  have hk : (k : ℚ) = 720 * (q : ℚ) + (r : ℚ) := by exact_mod_cast hkn
  have hr : (r : ℚ) < 720 := by
    have : r < 720 := by rw [← hrr]; exact Nat.mod_lt k (by norm_num)
    exact_mod_cast this
  have hr0 : (0 : ℚ) ≤ (r : ℚ) := Nat.cast_nonneg _
  have hfl : ⌊(k : ℚ) * (1 / 2) / 360⌋ = (q : ℤ) := by
    rw [Int.floor_eq_iff, Int.cast_natCast, hk]
    constructor <;> linarith
  unfold mod360
  rw [hfl, Int.cast_natCast, hk]
  ring

theorem frame_angle (c : Consts) (mulVM : gx3dVector → gx3dMatrix → gx3dVector)
    (s : LoopState) (i : FrameInput) :
    (frame c mulVM s i).1.angle = advanceAngle s.angle := by
  unfold frame
  split <;> rfl

theorem inputStep_quit_false (c : Consts) (m : Nat) (ev : Option evEvent)
    (h : ev ≠ some (pressOf c.evKY_ESC)) : (inputStep c m false ev).2 = false := by
  cases ev with
  | none => rfl
  | some e =>
    obtain ⟨ty, code⟩ := e
    simp only [inputStep, processEvent]
    by_cases hp : ty = evTYPE.RAW_KEY_PRESS
    · by_cases hc : code = c.evKY_ESC
      · exact absurd (by rw [hp, hc]; rfl) h
      · simp only [hp, hc, if_true, if_false]
        repeat' split
        all_goals rfl
    · simp only [hp, if_false]
      repeat' split
      all_goals rfl

theorem frame_quit_false (c : Consts) (mulVM : gx3dVector → gx3dMatrix → gx3dVector)
    (s : LoopState) (hs : s.quit = false) (i : FrameInput)
    (h : i.event ≠ some (pressOf c.evKY_ESC)) : (frame c mulVM s i).1.quit = false := by
  rw [frame_quit, hs]
  exact inputStep_quit_false c s.cmd_move i.event h

theorem gameLoop_cons (c : Consts) (mulVM : gx3dVector → gx3dMatrix → gx3dVector)
    (s : LoopState) (hs : s.quit = false) (i : FrameInput) (rest : List FrameInput) :
    gameLoop c mulVM s (i :: rest)
      = ((gameLoop c mulVM (frame c mulVM s i).1 rest).1,
         (frame c mulVM s i).2 ++ (gameLoop c mulVM (frame c mulVM s i).1 rest).2) := by
  simp [gameLoop, hs]

/-- While no press of ESC arrives, every iteration of the loop advances the
angle once. -/
theorem gameLoop_angle (c : Consts) (mulVM : gx3dVector → gx3dMatrix → gx3dVector)
    (s : LoopState) (hs : s.quit = false) (inputs : List FrameInput)
    (h : ∀ i ∈ inputs, i.event ≠ some (pressOf c.evKY_ESC)) :
    (gameLoop c mulVM s inputs).1.angle = advanceAngle^[inputs.length] s.angle := by
  induction inputs generalizing s with
  | nil => rfl
  | cons i rest ih =>
    have hq := frame_quit_false c mulVM s hs i (h i (List.mem_cons_self i rest))
    rw [gameLoop_cons c mulVM s hs, List.length_cons, Function.iterate_succ_apply]
    show (gameLoop c mulVM (frame c mulVM s i).1 rest).1.angle = _
    rw [ih _ hq (fun j hj => h j (List.mem_cons_of_mem i hj)), frame_angle]

/-- C11: starting from angle 0 with step 0.5, the orbit angle after k advances is
(k * 0.5) mod 360, so it lies in [0, 360), and after 720 advances it is 0 again;
every iteration of the loop advances the angle once, so while no press of ESC ends
the loop the angle after k iterations from the initial state is (k * 0.5) mod 360. -/
theorem C11_orbit_angle_mod_360 (c : Consts) (mulVM : gx3dVector → gx3dMatrix → gx3dVector)
    (ghost_pos : List GhostPos) (k : Nat) :
    advanceAngle^[k] (initLoopState ghost_pos).angle = mod360 ((k : ℚ) * (1 / 2))
    ∧ 0 ≤ advanceAngle^[k] (initLoopState ghost_pos).angle
    ∧ advanceAngle^[k] (initLoopState ghost_pos).angle < 360
    ∧ advanceAngle^[720] (initLoopState ghost_pos).angle = 0
    ∧ (∀ (s : LoopState) (i : FrameInput), (frame c mulVM s i).1.angle = advanceAngle s.angle)
    ∧ (∀ inputs : List FrameInput, inputs.length = k →
        (∀ i ∈ inputs, i.event ≠ some (pressOf c.evKY_ESC)) →
        (gameLoop c mulVM (initLoopState ghost_pos) inputs).1.angle
          = mod360 ((k : ℚ) * (1 / 2))) := by
  have h0 : (initLoopState ghost_pos).angle = 0 := rfl
  have hr : ((k % 720 : Nat) : ℚ) < 720 := by
    exact_mod_cast Nat.mod_lt k (by norm_num)
  have hr0 : (0 : ℚ) ≤ ((k % 720 : Nat) : ℚ) := Nat.cast_nonneg _
  rw [h0]
  refine ⟨?_, ?_, ?_, ?_, frame_angle c mulVM, ?_⟩
  · rw [advanceAngle_iterate, mod360_half]
  · rw [advanceAngle_iterate]
    linarith
  · rw [advanceAngle_iterate]
    linarith
  · rw [advanceAngle_iterate]
    norm_num
  · intro inputs hlen hesc
    rw [gameLoop_angle c mulVM _ rfl inputs hesc, hlen, h0, advanceAngle_iterate, mod360_half]

/-- C11, at three iterations without event: the angle is 1.5. -/
theorem C11_orbit_angle_mod_360_witness :
    (gameLoop sampleConsts identityMulVM (initLoopState [])
      [sampleInput 10 none false, sampleInput 20 none false, sampleInput 30 none false]).1.angle
      = mod360 (((3 : Nat) : ℚ) * (1 / 2)) :=
  (C11_orbit_angle_mod_360 sampleConsts identityMulVM [] 3).2.2.2.2.2
    [sampleInput 10 none false, sampleInput 20 none false, sampleInput 30 none false] rfl
    (by
      intro i hi
      simp only [List.mem_cons, List.mem_singleton, List.not_mem_nil, or_false] at hi
      rcases hi with rfl | rfl | rfl <;> exact fun h => Option.noConfusion h)

theorem drawGhostsCalls_nil (heading : gx3dVector) (targetX : ℚ) :
    drawGhostsCalls heading targetX [] = [] := rfl

theorem drawGhostsCalls_cons (heading : gx3dVector) (targetX : ℚ) (g : GhostPos)
    (l : List GhostPos) :
    drawGhostsCalls heading targetX (g :: l)
      = drawGhostCalls heading targetX g ++ drawGhostsCalls heading targetX l := by
  simp [drawGhostsCalls]

theorem lightPositions_drawGhostsCalls (heading : gx3dVector) (targetX : ℚ)
    (l : List GhostPos) : lightPositions (drawGhostsCalls heading targetX l) = [] := by
  induction l with
  | nil => rfl
  | cons g l ih =>
    rw [drawGhostsCalls_cons]
    unfold lightPositions at ih ⊢
    rw [List.filterMap_append, ih]
    simp [drawGhostCalls]

theorem soundPositions_drawGhostsCalls (heading : gx3dVector) (targetX : ℚ)
    (l : List GhostPos) : soundPositions (drawGhostsCalls heading targetX l) = [] := by
  induction l with
  | nil => rfl
  | cons g l ih =>
    rw [drawGhostsCalls_cons]
    unfold soundPositions at ih ⊢
    rw [List.filterMap_append, ih]
    simp [drawGhostCalls]

theorem lightPositions_append (l1 l2 : List Call) :
    lightPositions (l1 ++ l2) = lightPositions l1 ++ lightPositions l2 := by
  simp [lightPositions]

theorem soundPositions_append (l1 l2 : List Call) :
    soundPositions (l1 ++ l2) = soundPositions l1 ++ soundPositions l2 := by
  simp [soundPositions]

theorem lightPositions_frame (c : Consts) (mulVM : gx3dVector → gx3dMatrix → gx3dVector)
    (s : LoopState) (i : FrameInput) :
    lightPositions (frame c mulVM s i).2
      = [mulVM light_position (gx3dMatrix.rotateY (advanceAngle s.angle))] := by
  rw [frame_calls]
  simp only [lightPositions_append]
  have h1 : lightPositions (if i.beginRender then
      renderCalls i.heading i.relation_outside (advanceOffset s.offset)
        (s.targetX + s.targetX_incr) (sortStep mulVM i.viewmatrix s.ghost_pos) else []) = [] := by
    split
    · unfold renderCalls
      simp only [lightPositions_append, lightPositions_drawGhostsCalls]
      cases i.relation_outside <;>
        simp [lightPositions, drawSceneCalls, drawTree2Calls, drawBillboardTreeCalls,
          drawSkyCalls, endRenderCalls]
    · rfl
  rw [h1]
  simp [lightPositions, orbitCalls, cameraCalls]

theorem soundPositions_frame (c : Consts) (mulVM : gx3dVector → gx3dMatrix → gx3dVector)
    (s : LoopState) (i : FrameInput) :
    soundPositions (frame c mulVM s i).2
      = [mulVM sound1_position (gx3dMatrix.rotateY (advanceAngle s.angle))] := by
  rw [frame_calls]
  simp only [soundPositions_append]
  have h1 : soundPositions (if i.beginRender then
      renderCalls i.heading i.relation_outside (advanceOffset s.offset)
        (s.targetX + s.targetX_incr) (sortStep mulVM i.viewmatrix s.ghost_pos) else []) = [] := by
    split
    · unfold renderCalls
      simp only [soundPositions_append, soundPositions_drawGhostsCalls]
      cases i.relation_outside <;>
        simp [soundPositions, drawSceneCalls, drawTree2Calls, drawBillboardTreeCalls,
          drawSkyCalls, endRenderCalls]
    · rfl
  rw [h1]
  simp [soundPositions, orbitCalls, cameraCalls]

/-- C12: in every frame the one position sent to `gx3d_UpdateLight` and the one
position sent to `snd_SetSoundPosition` are the products of the reference points
(10,20,0) and (50,10,0) with one and the same matrix, the Y rotation by the
angle already advanced in this frame; the two calls open the frame, the light
first, and the light position is also what `light_data.point.src` then holds. -/
theorem C12_light_and_sound_share_rotation (c : Consts)
    (mulVM : gx3dVector → gx3dMatrix → gx3dVector) (s : LoopState) (i : FrameInput) :
    lightPositions (frame c mulVM s i).2
      = [mulVM ⟨F32.fin 10, F32.fin 20, F32.fin 0⟩
          (gx3dMatrix.rotateY (frame c mulVM s i).1.angle)]
    ∧ soundPositions (frame c mulVM s i).2
      = [mulVM ⟨F32.fin 50, F32.fin 10, F32.fin 0⟩
          (gx3dMatrix.rotateY (frame c mulVM s i).1.angle)]
    ∧ (frame c mulVM s i).1.angle = advanceAngle s.angle
    ∧ (frame c mulVM s i).1.light_src
      = mulVM ⟨F32.fin 10, F32.fin 20, F32.fin 0⟩
          (gx3dMatrix.rotateY (frame c mulVM s i).1.angle)
    ∧ (∃ rest : List Call,
        (frame c mulVM s i).2
          = Call.gx3d_UpdateLight Light.point_light1
              (mulVM ⟨F32.fin 10, F32.fin 20, F32.fin 0⟩
                (gx3dMatrix.rotateY (advanceAngle s.angle)))
            :: Call.snd_SetSoundPosition Sound.s_chimes
              (mulVM ⟨F32.fin 50, F32.fin 10, F32.fin 0⟩
                (gx3dMatrix.rotateY (advanceAngle s.angle))).x
              (mulVM ⟨F32.fin 50, F32.fin 10, F32.fin 0⟩
                (gx3dMatrix.rotateY (advanceAngle s.angle))).y
              (mulVM ⟨F32.fin 50, F32.fin 10, F32.fin 0⟩
                (gx3dMatrix.rotateY (advanceAngle s.angle))).z
            :: rest) := by
  rw [frame_angle]
  refine ⟨lightPositions_frame c mulVM s i, soundPositions_frame c mulVM s i, rfl, ?_, ?_⟩
  · unfold frame
    split <;> rfl
  · rw [frame_calls]
    exact ⟨_, by simp only [orbitCalls, List.cons_append, List.nil_append]; rfl⟩

/-- C13, refuted as stated: in the frame that wraps the angle from 359.5 to 0,
where the rotation leaves every point in place, the light is sent to (10,20,0)
and the sound to (50,10,0). -/
theorem C13_light_and_sound_apart :
    lightPositions (frame sampleConsts identityMulVM
        { initLoopState [] with angle := 719 / 2 } (sampleInput 1000 none true)).2
      = [⟨F32.fin 10, F32.fin 20, F32.fin 0⟩]
    ∧ soundPositions (frame sampleConsts identityMulVM
        { initLoopState [] with angle := 719 / 2 } (sampleInput 1000 none true)).2
      = [⟨F32.fin 50, F32.fin 10, F32.fin 0⟩]
    ∧ (frame sampleConsts identityMulVM
        { initLoopState [] with angle := 719 / 2 } (sampleInput 1000 none true)).1.angle = 0
    ∧ lightPositions (frame sampleConsts identityMulVM
        { initLoopState [] with angle := 719 / 2 } (sampleInput 1000 none true)).2
      ≠ soundPositions (frame sampleConsts identityMulVM
        { initLoopState [] with angle := 719 / 2 } (sampleInput 1000 none true)).2 := by
  rw [lightPositions_frame, soundPositions_frame, frame_angle]
  refine ⟨rfl, rfl, ?_, ?_⟩
  · simp only [advanceAngle]
    norm_num
  · simp [identityMulVM, light_position, sound1_position]

/-- C13, amended: in every frame the light and the sound emitter are sent to the
images of two different reference points, (10,20,0) at height 20 and (50,10,0)
at height 10, under the same rotation about the Y axis; whenever the product
with that rotation keeps the height of these two points, as a rotation about the
Y axis does, the light is at height 20 and the sound at height 10, so the two
positions of the frame differ. -/
theorem C13_same_rotation_different_points (c : Consts)
    (mulVM : gx3dVector → gx3dMatrix → gx3dVector) (s : LoopState) (i : FrameInput) :
    lightPositions (frame c mulVM s i).2
      = [mulVM light_position (gx3dMatrix.rotateY (advanceAngle s.angle))]
    ∧ soundPositions (frame c mulVM s i).2
      = [mulVM sound1_position (gx3dMatrix.rotateY (advanceAngle s.angle))]
    ∧ light_position.y = F32.fin 20
    ∧ sound1_position.y = F32.fin 10
    ∧ ((mulVM light_position (gx3dMatrix.rotateY (advanceAngle s.angle))).y = light_position.y →
        (mulVM sound1_position (gx3dMatrix.rotateY (advanceAngle s.angle))).y
          = sound1_position.y →
        lightPositions (frame c mulVM s i).2 ≠ soundPositions (frame c mulVM s i).2) := by
  refine ⟨lightPositions_frame c mulVM s i, soundPositions_frame c mulVM s i, rfl, rfl, ?_⟩
  intro hl hs heq
  rw [lightPositions_frame, soundPositions_frame] at heq
  have hy := congrArg gx3dVector.y (List.head_eq_of_cons_eq heq)
  rw [hl, hs] at hy
  simp only [light_position, sound1_position, F32.fin.injEq] at hy
  norm_num at hy

/-- C13 amended, at the frame that advances the angle from 89.5 to 90, with a
product that makes the quarter turn: the light goes to (0,20,-10), the sound to
(0,10,-50). -/
theorem C13_same_rotation_different_points_witness :
    lightPositions (frame sampleConsts quarterTurnMulVM
        { initLoopState [] with angle := 179 / 2 } (sampleInput 1000 none true)).2
      ≠ soundPositions (frame sampleConsts quarterTurnMulVM
        { initLoopState [] with angle := 179 / 2 } (sampleInput 1000 none true)).2 :=
  (C13_same_rotation_different_points sampleConsts quarterTurnMulVM
    { initLoopState [] with angle := 179 / 2 } (sampleInput 1000 none true)).2.2.2.2
    (by simp only [quarterTurnMulVM]; split_ifs <;> rfl)
    (by simp only [quarterTurnMulVM]; split_ifs <;> rfl)

theorem frame_calls_of_fail (c : Consts) (mulVM : gx3dVector → gx3dMatrix → gx3dVector)
    (s : LoopState) (i : FrameInput) (h : i.beginRender = false) :
    (frame c mulVM s i).2
      = orbitCalls mulVM (advanceAngle s.angle) ++ [Call.timeGetTime, Call.evGetEvent]
        ++ cameraCalls (clockStep s.last_time i.new_time).1
            (inputStep c s.cmd_move s.quit i.event).1 s.force_update i
        ++ [Call.gx3d_ClearViewport, Call.gx3d_BeginRender] := by
  rw [frame_calls, h]
  simp

theorem frame_calls_of_render (c : Consts) (mulVM : gx3dVector → gx3dMatrix → gx3dVector)
    (s : LoopState) (i : FrameInput) (h : i.beginRender = true) :
    (frame c mulVM s i).2
      = orbitCalls mulVM (advanceAngle s.angle) ++ [Call.timeGetTime, Call.evGetEvent]
        ++ cameraCalls (clockStep s.last_time i.new_time).1
            (inputStep c s.cmd_move s.quit i.event).1 s.force_update i
        ++ [Call.gx3d_ClearViewport, Call.gx3d_BeginRender]
        ++ renderCalls i.heading i.relation_outside (advanceOffset s.offset)
            (s.targetX + s.targetX_incr) (sortStep mulVM i.viewmatrix s.ghost_pos) := by
  rw [frame_calls, h]
  simp

theorem frame_ghost_pos_of_fail (c : Consts) (mulVM : gx3dVector → gx3dMatrix → gx3dVector)
    (s : LoopState) (i : FrameInput) (h : i.beginRender = false) :
    (frame c mulVM s i).1.ghost_pos = s.ghost_pos := by
  simp [frame, h]

theorem frame_ghost_pos_of_render (c : Consts) (mulVM : gx3dVector → gx3dMatrix → gx3dVector)
    (s : LoopState) (i : FrameInput) (h : i.beginRender = true) :
    (frame c mulVM s i).1.ghost_pos = sortStep mulVM i.viewmatrix s.ghost_pos := by
  simp [frame, h]

/-- C14: a frame whose `gx3d_BeginRender` fails leaves `quit`, `cmd_move` and the
stored timestamp exactly as the input step and the clock step of that frame set
them, the same as in the frame with a successful render-begin; it issues no
drawing call and no page flip; and unless a press of ESC arrived in it, `quit`
stays clear and the loop goes on with the calls of the next frame. -/
theorem C14_render_begin_failure_is_transient (c : Consts)
    (mulVM : gx3dVector → gx3dMatrix → gx3dVector) (s : LoopState) (i : FrameInput)
    (hfail : i.beginRender = false) :
    (frame c mulVM s i).1.quit = (inputStep c s.cmd_move s.quit i.event).2
    ∧ (frame c mulVM s i).1.cmd_move = (inputStep c s.cmd_move s.quit i.event).1
    ∧ (frame c mulVM s i).1.last_time = i.new_time
    ∧ (frame c mulVM s i).1.quit = (frame c mulVM s { i with beginRender := true }).1.quit
    ∧ (frame c mulVM s i).1.cmd_move
        = (frame c mulVM s { i with beginRender := true }).1.cmd_move
    ∧ (frame c mulVM s i).1.last_time
        = (frame c mulVM s { i with beginRender := true }).1.last_time
    ∧ (∀ d ∈ (frame c mulVM s i).2, d.isDraw = false ∧ d ≠ Call.gxFlipVisualActivePages)
    ∧ (s.quit = false → i.event ≠ some (pressOf c.evKY_ESC) →
        (frame c mulVM s i).1.quit = false
        ∧ ∀ (j : FrameInput) (rest : List FrameInput),
            (gameLoop c mulVM s (i :: j :: rest)).2
              = (frame c mulVM s i).2 ++ (frame c mulVM (frame c mulVM s i).1 j).2
                ++ (gameLoop c mulVM (frame c mulVM (frame c mulVM s i).1 j).1 rest).2) := by
  refine ⟨frame_quit c mulVM s i, frame_cmd_move c mulVM s i, frame_last_time c mulVM s i,
    ?_, ?_, ?_, ?_, ?_⟩
  · rw [frame_quit, frame_quit]
  · rw [frame_cmd_move, frame_cmd_move]
  · rw [frame_last_time, frame_last_time]
  · intro d hd
    rw [frame_calls_of_fail c mulVM s i hfail] at hd
    simp only [orbitCalls, cameraCalls, List.cons_append, List.nil_append, List.mem_cons,
      List.mem_singleton, List.not_mem_nil, or_false] at hd
    rcases hd with rfl | rfl | rfl | rfl | rfl | rfl | rfl | rfl | rfl | rfl <;>
      exact ⟨rfl, fun h => Call.noConfusion h⟩
  · intro hs hesc
    have hq := frame_quit_false c mulVM s hs i hesc
    refine ⟨hq, fun j rest => ?_⟩
    rw [gameLoop_cons c mulVM s hs, gameLoop_cons c mulVM _ hq, List.append_assoc]

/-- C14, at a first frame without event whose render-begin fails, followed by a
second frame. -/
theorem C14_render_begin_failure_is_transient_witness :
    (frame sampleConsts identityMulVM (initLoopState [ghostAt 1])
      (sampleInput 1000 none false)).1.quit = false
    ∧ (gameLoop sampleConsts identityMulVM (initLoopState [ghostAt 1])
        [sampleInput 1000 none false, sampleInput 1016 none true]).2
      = (frame sampleConsts identityMulVM (initLoopState [ghostAt 1])
          (sampleInput 1000 none false)).2
        ++ (frame sampleConsts identityMulVM
            (frame sampleConsts identityMulVM (initLoopState [ghostAt 1])
              (sampleInput 1000 none false)).1 (sampleInput 1016 none true)).2
        ++ (gameLoop sampleConsts identityMulVM
            (frame sampleConsts identityMulVM
              (frame sampleConsts identityMulVM (initLoopState [ghostAt 1])
                (sampleInput 1000 none false)).1 (sampleInput 1016 none true)).1 []).2 :=
  ⟨((C14_render_begin_failure_is_transient sampleConsts identityMulVM (initLoopState [ghostAt 1])
      (sampleInput 1000 none false) rfl).2.2.2.2.2.2.2 rfl
      (fun h => Option.noConfusion h)).1,
   ((C14_render_begin_failure_is_transient sampleConsts identityMulVM (initLoopState [ghostAt 1])
      (sampleInput 1000 none false) rfl).2.2.2.2.2.2.2 rfl
      (fun h => Option.noConfusion h)).2 (sampleInput 1016 none true) []⟩

theorem filter_isQsort_drawGhostsCalls (heading : gx3dVector) (targetX : ℚ)
    (l : List GhostPos) :
    (drawGhostsCalls heading targetX l).filter Call.isQsort = [] := by
  induction l with
  | nil => rfl
  | cons g l ih =>
    rw [drawGhostsCalls_cons, List.filter_append, ih]
    simp [drawGhostCalls, Call.isQsort]

theorem filter_isQsort_frame_of_fail (c : Consts)
    (mulVM : gx3dVector → gx3dMatrix → gx3dVector) (s : LoopState) (i : FrameInput)
    (h : i.beginRender = false) : (frame c mulVM s i).2.filter Call.isQsort = [] := by
  rw [frame_calls_of_fail c mulVM s i h]
  simp [orbitCalls, cameraCalls, Call.isQsort]

theorem filter_isQsort_frame_of_render (c : Consts)
    (mulVM : gx3dVector → gx3dMatrix → gx3dVector) (s : LoopState) (i : FrameInput)
    (h : i.beginRender = true) :
    (frame c mulVM s i).2.filter Call.isQsort
      = [Call.qsort (sortStep mulVM i.viewmatrix s.ghost_pos)] := by
  rw [frame_calls_of_render c mulVM s i h]
  unfold renderCalls
  simp only [List.filter_append, filter_isQsort_drawGhostsCalls]
  cases i.relation_outside <;>
    simp [orbitCalls, cameraCalls, drawSceneCalls, drawTree2Calls, drawBillboardTreeCalls,
      drawSkyCalls, endRenderCalls, Call.isQsort]

/-- C15, refuted as stated: in a frame whose render-begin fails the angle
advances from 0 to 0.5, but no sort is called and the array keeps its order 1, 5
and its stale view fields, which is not what the sort step would have left. -/
theorem C15_no_sort_without_render :
    (frame sampleConsts identityMulVM (initLoopState [ghostAt 1, ghostAt 5])
      (sampleInput 1000 none false)).1.angle = 1 / 2
    ∧ (frame sampleConsts identityMulVM (initLoopState [ghostAt 1, ghostAt 5])
        (sampleInput 1000 none false)).2.filter Call.isQsort = []
    ∧ (frame sampleConsts identityMulVM (initLoopState [ghostAt 1, ghostAt 5])
        (sampleInput 1000 none false)).1.ghost_pos = [ghostAt 1, ghostAt 5]
    ∧ (frame sampleConsts identityMulVM (initLoopState [ghostAt 1, ghostAt 5])
        (sampleInput 1000 none false)).1.ghost_pos
      ≠ sortStep identityMulVM (sampleInput 1000 none false).viewmatrix
          [ghostAt 1, ghostAt 5] := by
  rw [frame_angle, filter_isQsort_frame_of_fail _ _ _ _ rfl,
    frame_ghost_pos_of_fail _ _ _ _ rfl]
  refine ⟨?_, rfl, rfl, ?_⟩
  · simp only [initLoopState, advanceAngle]
    norm_num
  · simp only [initLoopState, sortStep, transformGhosts, qsort, qsortInsert, compare_ghosts,
      identityMulVM, ghostAt, F32.eq, F32.lt, List.map, List.foldr]
    norm_num

/-- C15, amended: in a frame whose render-begin fails the orbit angle has still
advanced by exactly one step, but the billboard sort has not run: no sort is
called and the ghost array is left as it was; the sort runs, exactly once, only
in a frame whose render-begin succeeds. -/
theorem C15_failed_frame_advances_angle_only (c : Consts)
    (mulVM : gx3dVector → gx3dMatrix → gx3dVector) (s : LoopState) (i : FrameInput) :
    (frame c mulVM s i).1.angle = advanceAngle s.angle
    ∧ (i.beginRender = false →
        (frame c mulVM s i).2.filter Call.isQsort = []
        ∧ (frame c mulVM s i).1.ghost_pos = s.ghost_pos)
    ∧ (i.beginRender = true →
        (frame c mulVM s i).2.filter Call.isQsort
          = [Call.qsort (sortStep mulVM i.viewmatrix s.ghost_pos)]
        ∧ (frame c mulVM s i).1.ghost_pos = sortStep mulVM i.viewmatrix s.ghost_pos) :=
  ⟨frame_angle c mulVM s i,
   fun h => ⟨filter_isQsort_frame_of_fail c mulVM s i h, frame_ghost_pos_of_fail c mulVM s i h⟩,
   fun h => ⟨filter_isQsort_frame_of_render c mulVM s i h,
     frame_ghost_pos_of_render c mulVM s i h⟩⟩

/-- C15 amended, at a failing frame and at a rendered frame over the depths 1, 5. -/
theorem C15_failed_frame_advances_angle_only_witness :
    (frame sampleConsts identityMulVM (initLoopState [ghostAt 1, ghostAt 5])
      (sampleInput 1000 none false)).1.ghost_pos = [ghostAt 1, ghostAt 5]
    ∧ (frame sampleConsts identityMulVM (initLoopState [ghostAt 1, ghostAt 5])
        (sampleInput 1000 none true)).1.ghost_pos
      = sortStep identityMulVM (gx3dMatrix.view 0) [ghostAt 1, ghostAt 5] :=
  ⟨((C15_failed_frame_advances_angle_only sampleConsts identityMulVM
      (initLoopState [ghostAt 1, ghostAt 5]) (sampleInput 1000 none false)).2.1 rfl).2,
   ((C15_failed_frame_advances_angle_only sampleConsts identityMulVM
      (initLoopState [ghostAt 1, ghostAt 5]) (sampleInput 1000 none true)).2.2 rfl).2⟩

theorem takeWhile_append_cons {α : Type} (p : α → Bool) (l1 : List α) (x : α) (l2 : List α)
    (h1 : ∀ a ∈ l1, p a = true) (hx : p x = false) :
    (l1 ++ x :: l2).takeWhile p = l1 := by
  induction l1 with
  | nil => simp [List.takeWhile, hx]
  | cons a l ih =>
    have ha : p a = true := h1 a (List.mem_cons_self a l)
    rw [List.cons_append, List.takeWhile_cons, ha]
    simp only [if_true]
    rw [ih (fun b hb => h1 b (List.mem_cons_of_mem a hb))]

/-- The calls of a rendered frame that precede the sort: everything up to and
including `gx3d_GetViewMatrix`. -/
theorem callsBeforeSort_frame (c : Consts) (mulVM : gx3dVector → gx3dMatrix → gx3dVector)
    (s : LoopState) (i : FrameInput) (h : i.beginRender = true) :
    callsBeforeSort (frame c mulVM s i).2
      = orbitCalls mulVM (advanceAngle s.angle) ++ [Call.timeGetTime, Call.evGetEvent]
        ++ cameraCalls (clockStep s.last_time i.new_time).1
            (inputStep c s.cmd_move s.quit i.event).1 s.force_update i
        ++ [Call.gx3d_ClearViewport, Call.gx3d_BeginRender]
        ++ drawSceneCalls ++ drawTree2Calls i.relation_outside
        ++ drawBillboardTreeCalls i.heading ++ drawSkyCalls (advanceOffset s.offset)
        ++ [Call.gx3d_GetViewMatrix] := by
  rw [frame_calls_of_render c mulVM s i h]
  unfold renderCalls callsBeforeSort
  have e : ∀ (a b d e f g h k : List Call) (x y : Call) (t u : List Call),
      a ++ b ++ d ++ e ++ (f ++ g ++ h ++ k ++ [x, y] ++ t ++ u)
        = (a ++ b ++ d ++ e ++ f ++ g ++ h ++ k ++ [x]) ++ y :: (t ++ u) := by
    intros
    simp
  rw [e]
  apply takeWhile_append_cons
  · cases i.relation_outside <;>
      simp [orbitCalls, cameraCalls, drawSceneCalls, drawTree2Calls, drawBillboardTreeCalls,
        drawSkyCalls, Call.isQsort]
  · rfl

/-- C16, refuted as stated: in a rendered frame the ground, the sky dome and the
cloud dome are drawn before the sort is called. -/
theorem C16_geometry_drawn_before_sort :
    Call.gx3d_DrawObject Object.obj_ground ∈ callsBeforeSort
      (frame sampleConsts identityMulVM (initLoopState [ghostAt 1, ghostAt 5])
        (sampleInput 1000 none true)).2
    ∧ Call.gx3d_DrawObject Object.obj_skydome ∈ callsBeforeSort
      (frame sampleConsts identityMulVM (initLoopState [ghostAt 1, ghostAt 5])
        (sampleInput 1000 none true)).2
    ∧ Call.gx3d_DrawObject Object.obj_clouddome ∈ callsBeforeSort
      (frame sampleConsts identityMulVM (initLoopState [ghostAt 1, ghostAt 5])
        (sampleInput 1000 none true)).2 := by
  rw [callsBeforeSort_frame _ _ _ _ rfl]
  simp [drawSceneCalls, drawSkyCalls]

theorem mem_drawGhostsCalls {heading : gx3dVector} {targetX : ℚ} {l : List GhostPos}
    {d : Call} (h : d ∈ drawGhostsCalls heading targetX l) :
    (∃ m, d = Call.gx3d_SetObjectMatrix Object.obj_ghost m)
    ∨ d = Call.gx3d_SetTexture 0 Texture.tex_ghost
    ∨ d = Call.gx3d_DrawObject Object.obj_ghost := by
  induction l with
  | nil => simp [drawGhostsCalls] at h
  | cons g l ih =>
    rw [drawGhostsCalls_cons, List.mem_append] at h
    rcases h with h | h
    · simp only [drawGhostCalls, List.mem_cons, List.mem_singleton, List.not_mem_nil,
        or_false] at h
      rcases h with rfl | rfl | rfl
      · exact Or.inl ⟨_, rfl⟩
      · exact Or.inr (Or.inl rfl)
      · exact Or.inr (Or.inr rfl)
    · exact ih h

/-- C16, amended: every iteration issues, in this order, the light and emitter
update, the clock read, the event poll, the mouse sample, the camera update with
the two listener calls, the viewport clear and render-begin; a rendered frame
goes on with the scenery (ground, trees, billboard trees, sky dome, cloud dome),
then the view-matrix read and the sort, then the ghosts, then the end of the
frame with the page flip last.  So the sort comes after the scenery has been
drawn and before any ghost is drawn. -/
theorem C16_order_of_a_frame (c : Consts) (mulVM : gx3dVector → gx3dMatrix → gx3dVector)
    (s : LoopState) (i : FrameInput) :
    (frame c mulVM s i).2
      = [Call.gx3d_UpdateLight Light.point_light1
           (mulVM light_position (gx3dMatrix.rotateY (advanceAngle s.angle))),
         Call.snd_SetSoundPosition Sound.s_chimes
           (mulVM sound1_position (gx3dMatrix.rotateY (advanceAngle s.angle))).x
           (mulVM sound1_position (gx3dMatrix.rotateY (advanceAngle s.angle))).y
           (mulVM sound1_position (gx3dMatrix.rotateY (advanceAngle s.angle))).z,
         Call.timeGetTime,
         Call.evGetEvent,
         Call.msGetMouseMovement,
         Call.Position_Update (clockStep s.last_time i.new_time).1
           (inputStep c s.cmd_move s.quit i.event).1 (-i.move_y) i.move_x s.force_update,
         Call.snd_SetListenerPosition i.position.x i.position.y i.position.z,
         Call.snd_SetListenerOrientation i.heading.x i.heading.y i.heading.z (F32.fin 0)
           (F32.fin 1) (F32.fin 0),
         Call.gx3d_ClearViewport,
         Call.gx3d_BeginRender]
        ++ (if i.beginRender then
              (drawSceneCalls ++ drawTree2Calls i.relation_outside
                ++ drawBillboardTreeCalls i.heading ++ drawSkyCalls (advanceOffset s.offset))
              ++ [Call.gx3d_GetViewMatrix,
                  Call.qsort (sortStep mulVM i.viewmatrix s.ghost_pos)]
              ++ drawGhostsCalls i.heading (s.targetX + s.targetX_incr)
                  (sortStep mulVM i.viewmatrix s.ghost_pos)
              ++ [Call.gx3d_SetAmbientLight, Call.gx3d_DisableAlphaBlending,
                  Call.gx3d_EndRender, Call.gxFlipVisualActivePages]
            else [])
    ∧ Call.gx3d_DrawObject Object.obj_ground ∈ drawSceneCalls
    ∧ Call.gx3d_DrawObject Object.obj_skydome ∈ drawSkyCalls (advanceOffset s.offset)
    ∧ Call.gx3d_DrawObject Object.obj_clouddome ∈ drawSkyCalls (advanceOffset s.offset)
    ∧ (∀ d ∈ drawGhostsCalls i.heading (s.targetX + s.targetX_incr)
          (sortStep mulVM i.viewmatrix s.ghost_pos),
        d.isDraw = true → d = Call.gx3d_DrawObject Object.obj_ghost)
    ∧ (i.beginRender = true →
        Call.gx3d_DrawObject Object.obj_ground ∈ callsBeforeSort (frame c mulVM s i).2
        ∧ ∀ d ∈ callsBeforeSort (frame c mulVM s i).2,
            d ≠ Call.gx3d_DrawObject Object.obj_ghost) := by
  refine ⟨?_, by simp [drawSceneCalls], by simp [drawSkyCalls], by simp [drawSkyCalls], ?_, ?_⟩
  · rw [frame_calls]
    split
    · simp [orbitCalls, cameraCalls, renderCalls, endRenderCalls]
    · simp [orbitCalls, cameraCalls]
  · intro d hd hdraw
    rcases mem_drawGhostsCalls hd with ⟨m, rfl⟩ | rfl | rfl
    · simp [Call.isDraw] at hdraw
    · simp [Call.isDraw] at hdraw
    · rfl
  · intro h
    rw [callsBeforeSort_frame c mulVM s i h]
    constructor
    · simp [drawSceneCalls]
    · cases i.relation_outside <;>
        simp [orbitCalls, cameraCalls, drawSceneCalls, drawTree2Calls, drawBillboardTreeCalls,
          drawSkyCalls]

/-- C16 amended, at a rendered first frame over the depths 1, 5. -/
theorem C16_order_of_a_frame_witness :
    Call.gx3d_DrawObject Object.obj_ground ∈ callsBeforeSort
      (frame sampleConsts identityMulVM (initLoopState [ghostAt 1, ghostAt 5])
        (sampleInput 1000 none true)).2
    ∧ ∀ d ∈ callsBeforeSort
        (frame sampleConsts identityMulVM (initLoopState [ghostAt 1, ghostAt 5])
          (sampleInput 1000 none true)).2,
        d ≠ Call.gx3d_DrawObject Object.obj_ghost :=
  (C16_order_of_a_frame sampleConsts identityMulVM (initLoopState [ghostAt 1, ghostAt 5])
    (sampleInput 1000 none true)).2.2.2.2.2 rfl

theorem drawsWithBlend_append (b : Bool) (l1 l2 : List Call) :
    drawsWithBlend b (l1 ++ l2)
      = drawsWithBlend b l1 ++ drawsWithBlend (l1.foldl blendAfter b) l2 := by
  induction l1 generalizing b with
  | nil => rfl
  | cons d l ih =>
    show (if d.isDraw then [(d, b)] else []) ++ drawsWithBlend (blendAfter b d) (l ++ l2) = _
    rw [ih]
    simp only [drawsWithBlend, List.foldl_cons, List.append_assoc]

theorem foldl_blendAfter_drawGhostsCalls (b : Bool) (heading : gx3dVector) (targetX : ℚ)
    (l : List GhostPos) :
    (drawGhostsCalls heading targetX l).foldl blendAfter b = b := by
  induction l with
  | nil => rfl
  | cons g l ih =>
    have h : (drawGhostCalls heading targetX g).foldl blendAfter b = b := by
      simp [drawGhostCalls, blendAfter]
    rw [drawGhostsCalls_cons, List.foldl_append, h, ih]

theorem drawsWithBlend_drawGhostsCalls (b : Bool) (heading : gx3dVector) (targetX : ℚ)
    (l : List GhostPos) :
    drawsWithBlend b (drawGhostsCalls heading targetX l)
      = List.replicate l.length (Call.gx3d_DrawObject Object.obj_ghost, b) := by
  induction l with
  | nil => rfl
  | cons g l ih =>
    rw [drawGhostsCalls_cons, drawsWithBlend_append]
    have h : (drawGhostCalls heading targetX g).foldl blendAfter b = b := by
      simp [drawGhostCalls, blendAfter]
    rw [h, ih]
    simp [drawGhostCalls, drawsWithBlend, Call.isDraw, blendAfter, List.replicate_succ]

/-- The drawing calls of a rendered frame with the state of the blending switch
at each of them, and the state of the switch after the frame. -/
theorem drawsWithBlend_frame_of_render (c : Consts)
    (mulVM : gx3dVector → gx3dMatrix → gx3dVector) (s : LoopState) (i : FrameInput)
    (h : i.beginRender = true) (b : Bool) :
    (∀ p ∈ drawsWithBlend b (frame c mulVM s i).2, p.2 = true)
    ∧ (Call.gx3d_DrawObject Object.obj_ground, true) ∈ drawsWithBlend b (frame c mulVM s i).2
    ∧ (Call.gx3d_DrawObject Object.obj_skydome, true) ∈ drawsWithBlend b (frame c mulVM s i).2
    ∧ (frame c mulVM s i).2.foldl blendAfter b = false := by
  rw [frame_calls_of_render c mulVM s i h]
  unfold renderCalls
  cases i.relation_outside <;>
    simp [drawsWithBlend_append, drawsWithBlend_drawGhostsCalls,
      foldl_blendAfter_drawGhostsCalls, drawsWithBlend, blendAfter, Call.isDraw, orbitCalls,
      cameraCalls, drawSceneCalls, drawTree2Calls, drawBillboardTreeCalls, drawSkyCalls,
      endRenderCalls, List.mem_replicate]

theorem filter_drawGhostsCalls_eq_nil (p : Call → Bool) (heading : gx3dVector) (targetX : ℚ)
    (l : List GhostPos) (h1 : ∀ m, p (Call.gx3d_SetObjectMatrix Object.obj_ghost m) = false)
    (h2 : p (Call.gx3d_SetTexture 0 Texture.tex_ghost) = false)
    (h3 : p (Call.gx3d_DrawObject Object.obj_ghost) = false) :
    (drawGhostsCalls heading targetX l).filter p = [] := by
  rw [List.filter_eq_nil_iff]
  intro d hd
  rcases mem_drawGhostsCalls hd with ⟨m, rfl⟩ | rfl | rfl
  · simp [h1]
  · simp [h2]
  · simp [h3]

/-- C17, refuted as stated: in a rendered frame that starts with blending
disabled, the ground, the trunk of the tree and the sky dome are drawn while alpha
blending is enabled. -/
theorem C17_opaque_drawn_with_blending :
    (Call.gx3d_DrawObject Object.obj_ground, true) ∈ drawsWithBlend false
      (frame sampleConsts identityMulVM (initLoopState [ghostAt 1, ghostAt 5])
        (sampleInput 1000 none true)).2
    ∧ (Call.gx3d_DrawObjectLayer Object.obj_tree Layer.trunk, true) ∈ drawsWithBlend false
      (frame sampleConsts identityMulVM (initLoopState [ghostAt 1, ghostAt 5])
        (sampleInput 1000 none true)).2
    ∧ (Call.gx3d_DrawObject Object.obj_skydome, true) ∈ drawsWithBlend false
      (frame sampleConsts identityMulVM (initLoopState [ghostAt 1, ghostAt 5])
        (sampleInput 1000 none true)).2 := by
  rw [frame_calls_of_render _ _ _ _ rfl]
  simp [renderCalls, drawsWithBlend_append, drawsWithBlend, blendAfter, Call.isDraw,
    orbitCalls, cameraCalls, drawSceneCalls, drawTree2Calls, drawBillboardTreeCalls,
    drawSkyCalls, endRenderCalls, sampleInput]

/-- C17, amended: a rendered frame enables alpha blending once, before its first
draw, and disables it once, after its last draw; so every draw of the frame, the
opaque ground, tree layers and sky dome included, is issued while blending is
enabled, whatever the state before the frame, and blending is disabled after the
frame. -/
theorem C17_blending_spans_all_draws (c : Consts)
    (mulVM : gx3dVector → gx3dMatrix → gx3dVector) (s : LoopState) (i : FrameInput)
    (h : i.beginRender = true) (blend : Bool) :
    (∀ p ∈ drawsWithBlend blend (frame c mulVM s i).2, p.2 = true)
    ∧ (Call.gx3d_DrawObject Object.obj_ground, true)
        ∈ drawsWithBlend blend (frame c mulVM s i).2
    ∧ (Call.gx3d_DrawObject Object.obj_skydome, true)
        ∈ drawsWithBlend blend (frame c mulVM s i).2
    ∧ (frame c mulVM s i).2.foldl blendAfter blend = false
    ∧ (frame c mulVM s i).2.filter
          (fun d => decide (d = Call.gx3d_EnableAlphaBlending)
            || decide (d = Call.gx3d_DisableAlphaBlending))
        = [Call.gx3d_EnableAlphaBlending, Call.gx3d_DisableAlphaBlending] := by
  obtain ⟨h1, h2, h3, h4⟩ := drawsWithBlend_frame_of_render c mulVM s i h blend
  refine ⟨h1, h2, h3, h4, ?_⟩
  rw [frame_calls_of_render c mulVM s i h]
  unfold renderCalls
  simp only [List.filter_append]
  rw [filter_drawGhostsCalls_eq_nil _ _ _ _ (fun m => by simp) (by simp) (by simp)]
  cases i.relation_outside <;>
    simp [orbitCalls, cameraCalls, drawSceneCalls, drawTree2Calls, drawBillboardTreeCalls,
      drawSkyCalls, endRenderCalls]

/-- C17 amended, at a rendered first frame over the depths 1, 5 that starts with
blending disabled. -/
theorem C17_blending_spans_all_draws_witness :
    (Call.gx3d_DrawObject Object.obj_ground, true) ∈ drawsWithBlend false
      (frame sampleConsts identityMulVM (initLoopState [ghostAt 1, ghostAt 5])
        (sampleInput 1000 none true)).2
    ∧ (frame sampleConsts identityMulVM (initLoopState [ghostAt 1, ghostAt 5])
        (sampleInput 1000 none true)).2.foldl blendAfter false = false :=
  ⟨(C17_blending_spans_all_draws sampleConsts identityMulVM
      (initLoopState [ghostAt 1, ghostAt 5]) (sampleInput 1000 none true) rfl false).2.1,
   (C17_blending_spans_all_draws sampleConsts identityMulVM
      (initLoopState [ghostAt 1, ghostAt 5]) (sampleInput 1000 none true) rfl false).2.2.2.1⟩

theorem filter_isDraw_drawGhostsCalls (heading : gx3dVector) (targetX : ℚ)
    (l : List GhostPos) :
    (drawGhostsCalls heading targetX l).filter Call.isDraw
      = List.replicate l.length (Call.gx3d_DrawObject Object.obj_ghost) := by
  induction l with
  | nil => rfl
  | cons g l ih =>
    rw [drawGhostsCalls_cons, List.filter_append, ih]
    simp [drawGhostCalls, Call.isDraw, List.replicate_succ]

theorem ghostMatrices_append (l1 l2 : List Call) :
    ghostMatrices (l1 ++ l2) = ghostMatrices l1 ++ ghostMatrices l2 := by
  simp [ghostMatrices]

theorem ghostMatrices_drawGhostsCalls (heading : gx3dVector) (targetX : ℚ)
    (l : List GhostPos) :
    ghostMatrices (drawGhostsCalls heading targetX l)
      = l.map (fun g =>
          gx3dMatrix.multiply
            (gx3dMatrix.multiply (gx3dMatrix.scale (F32.fin 10) (F32.fin 10) (F32.fin 10))
              (gx3dMatrix.billboardRotateY billboard_normal heading))
            (gx3dMatrix.translate (F32.fin targetX) g.world.y g.world.z)) := by
  induction l with
  | nil => rfl
  | cons g l ih =>
    rw [drawGhostsCalls_cons, ghostMatrices_append, ih]
    simp [drawGhostCalls, ghostMatrices]

theorem sortStep_length (mulVM : gx3dVector → gx3dMatrix → gx3dVector)
    (vm : gx3dMatrix) (l : List GhostPos) : (sortStep mulVM vm l).length = l.length := by
  rw [(sortStep_perm mulVM vm l).length_eq, transformGhosts_length]

theorem sortStep_pairwise (mulVM : gx3dVector → gx3dMatrix → gx3dVector)
    (vm : gx3dMatrix) (l : List GhostPos)
    (h : ∀ g ∈ l, (mulVM g.world vm).z.isNaN = false) :
    (sortStep mulVM vm l).Pairwise (fun a b => F32.le b.view.z a.view.z = true) := by
  refine qsort_pairwise compare_ghosts _ (fun g => g.view.z.isNaN = false)
    (fun a b ha hb hab => compare_ghosts_le ha hb hab)
    (fun a b ha hb hab => compare_ghosts_gt ha hb hab)
    (fun a b d _ _ _ hab hbd => F32.le_transitive hbd hab) _ ?_
  intro b hb
  simp only [transformGhosts, List.mem_map] at hb
  obtain ⟨g, hg, rfl⟩ := hb
  exact h g hg

theorem frame_calls_split_at_sort (c : Consts) (mulVM : gx3dVector → gx3dMatrix → gx3dVector)
    (s : LoopState) (i : FrameInput) (h : i.beginRender = true) :
    (frame c mulVM s i).2
      = callsBeforeSort (frame c mulVM s i).2
        ++ Call.qsort (sortStep mulVM i.viewmatrix s.ghost_pos)
        :: (drawGhostsCalls i.heading (s.targetX + s.targetX_incr)
              (sortStep mulVM i.viewmatrix s.ghost_pos) ++ endRenderCalls) := by
  rw [callsBeforeSort_frame c mulVM s i h, frame_calls_of_render c mulVM s i h]
  unfold renderCalls
  simp

theorem ghostMatrices_frame_of_render (c : Consts)
    (mulVM : gx3dVector → gx3dMatrix → gx3dVector) (s : LoopState) (i : FrameInput)
    (h : i.beginRender = true) :
    ghostMatrices (frame c mulVM s i).2
      = (sortStep mulVM i.viewmatrix s.ghost_pos).map (fun g =>
          gx3dMatrix.multiply
            (gx3dMatrix.multiply (gx3dMatrix.scale (F32.fin 10) (F32.fin 10) (F32.fin 10))
              (gx3dMatrix.billboardRotateY billboard_normal i.heading))
            (gx3dMatrix.translate (F32.fin (s.targetX + s.targetX_incr)) g.world.y
              g.world.z)) := by
  have hgm : ghostMatrices (callsBeforeSort (frame c mulVM s i).2) = [] := by
    rw [callsBeforeSort_frame c mulVM s i h]
    cases i.relation_outside <;>
      simp [ghostMatrices, orbitCalls, cameraCalls, drawSceneCalls, drawTree2Calls,
        drawBillboardTreeCalls, drawSkyCalls]
  conv_lhs => rw [frame_calls_split_at_sort c mulVM s i h]
  rw [ghostMatrices_append, hgm, List.nil_append]
  have e : ∀ (x : Call) (l : List Call), x :: l = [x] ++ l := fun _ _ => rfl
  rw [e, ghostMatrices_append, ghostMatrices_append, ghostMatrices_drawGhostsCalls]
  simp [ghostMatrices, endRenderCalls]

theorem frame_targetX_of_render (c : Consts)
    (mulVM : gx3dVector → gx3dMatrix → gx3dVector) (s : LoopState) (i : FrameInput)
    (h : i.beginRender = true) :
    (frame c mulVM s i).1.targetX = s.targetX + s.targetX_incr := by
  simp [frame, h]

theorem sortStep_view (mulVM : gx3dVector → gx3dMatrix → gx3dVector) (vm : gx3dMatrix)
    (l : List GhostPos) (g : GhostPos) (hg : g ∈ sortStep mulVM vm l) :
    g.view = mulVM g.world vm ∧ ∃ g0 ∈ l, g.world = g0.world := by
  rw [(sortStep_perm mulVM vm l).mem_iff] at hg
  simp only [transformGhosts, List.mem_map] at hg
  obtain ⟨g0, hg0, rfl⟩ := hg
  exact ⟨rfl, g0, hg0, rfl⟩

theorem compare_ghosts_nan (a b : GhostPos)
    (h : a.view.z.isNaN = true ∨ b.view.z.isNaN = true) : compare_ghosts a b = -1 := by
  unfold compare_ghosts
  cases hza : a.view.z with
  | nan => simp [F32.eq, F32.lt]
  | fin p =>
    cases hzb : b.view.z with
    | nan => simp [F32.eq, F32.lt]
    | fin q => simp [hza, hzb, F32.isNaN] at h

theorem F32.le_nan_left (x : F32) : F32.le F32.nan x = false := by
  cases x <;> rfl

theorem F32.le_nan_right (x : F32) : F32.le x F32.nan = false := by
  cases x <;> rfl

theorem F32.eq_nan_of_isNaN {x : F32} (h : x.isNaN = true) : x = F32.nan := by
  cases x with
  | nan => rfl
  | fin q => simp [F32.isNaN] at h

/-- An array of at least two entries that holds an entry of NaN depth is in no
arrangement non-increasing in depth. -/
theorem not_pairwise_of_nan (r : List GhostPos) (hlen : 2 ≤ r.length) (g : GhostPos)
    (hg : g ∈ r) (hnan : g.view.z.isNaN = true) :
    ¬ r.Pairwise (fun a b => F32.le b.view.z a.view.z = true) := by
  intro hp
  have hz := F32.eq_nan_of_isNaN hnan
  cases r with
  | nil => simp at hlen
  | cons a r =>
    cases r with
    | nil => simp at hlen
    | cons b rest =>
      rw [List.pairwise_cons] at hp
      rcases List.mem_cons.mp hg with hga | hg2
      · have h1 := hp.1 b (List.mem_cons_self _ _)
        rw [← hga, hz, F32.le_nan_right] at h1
        exact Bool.noConfusion h1
      · have h1 := hp.1 g hg2
        rw [hz, F32.le_nan_left] at h1
        exact Bool.noConfusion h1

theorem mem_sortStep_of_mem (mulVM : gx3dVector → gx3dMatrix → gx3dVector) (vm : gx3dMatrix)
    (l : List GhostPos) (g : GhostPos) (hg : g ∈ l) :
    (⟨g.world, mulVM g.world vm⟩ : GhostPos) ∈ sortStep mulVM vm l := by
  rw [(sortStep_perm mulVM vm l).mem_iff]
  simp only [transformGhosts, List.mem_map]
  exact ⟨g, hg, rfl⟩

/-- With a NaN depth among at least two entries, no rearrangement of the
transformed array, whichever the sort returns, is non-increasing in depth. -/
theorem not_pairwise_of_perm_of_nan (mulVM : gx3dVector → gx3dMatrix → gx3dVector)
    (vm : gx3dMatrix) (l r : List GhostPos) (hr : r.Perm (transformGhosts mulVM vm l))
    (hlen : 2 ≤ l.length) (hnan : ∃ g ∈ l, (mulVM g.world vm).z.isNaN = true) :
    ¬ r.Pairwise (fun a b => F32.le b.view.z a.view.z = true) := by
  obtain ⟨g, hg, hz⟩ := hnan
  have hmem : (⟨g.world, mulVM g.world vm⟩ : GhostPos) ∈ r := by
    rw [hr.mem_iff]
    simp only [transformGhosts, List.mem_map]
    exact ⟨g, hg, rfl⟩
  have hl : 2 ≤ r.length := by
    rw [hr.length_eq, transformGhosts_length]
    exact hlen
  exact not_pairwise_of_nan r hl _ hmem hz

/-- C18, refuted as stated.  In a rendered frame whose view matrix is all NaN the
two ghosts are drawn with NaN depths, in no non-increasing order.  And in a
rendered frame whose depth is x + z, the entries at (0,1,5) and (10,1,0) are
sorted to the keys 10, 5, but drawn at (-9.9,1,0) and then (-9.9,1,5), whose
depths are -9.9 and then -4.9: the nearer ghost is drawn first. -/
theorem C18_draw_order_not_back_to_front :
    (∀ g ∈ (frame sampleConsts nanMulVM (initLoopState [ghostAt 1, ghostAt 5])
          (sampleInput 1000 none true)).1.ghost_pos, g.view.z.isNaN = true)
    ∧ (frame sampleConsts nanMulVM (initLoopState [ghostAt 1, ghostAt 5])
          (sampleInput 1000 none true)).1.ghost_pos.length = 2
    ∧ ¬ (frame sampleConsts nanMulVM (initLoopState [ghostAt 1, ghostAt 5])
          (sampleInput 1000 none true)).1.ghost_pos.Pairwise
            (fun a b => F32.le b.view.z a.view.z = true)
    ∧ (frame sampleConsts depthSumMulVM (initLoopState [ghostAtXZ 0 5, ghostAtXZ 10 0])
          (sampleInput 1000 none true)).1.ghost_pos.map (fun g => g.view.z)
        = [F32.fin 10, F32.fin 5]
    ∧ ghostMatrices (frame sampleConsts depthSumMulVM
          (initLoopState [ghostAtXZ 0 5, ghostAtXZ 10 0]) (sampleInput 1000 none true)).2
        = [gx3dMatrix.multiply
            (gx3dMatrix.multiply (gx3dMatrix.scale (F32.fin 10) (F32.fin 10) (F32.fin 10))
              (gx3dMatrix.billboardRotateY billboard_normal
                ⟨F32.fin 0, F32.fin 0, F32.fin 1⟩))
            (gx3dMatrix.translate (F32.fin (-99 / 10)) (F32.fin 1) (F32.fin 0)),
           gx3dMatrix.multiply
            (gx3dMatrix.multiply (gx3dMatrix.scale (F32.fin 10) (F32.fin 10) (F32.fin 10))
              (gx3dMatrix.billboardRotateY billboard_normal
                ⟨F32.fin 0, F32.fin 0, F32.fin 1⟩))
            (gx3dMatrix.translate (F32.fin (-99 / 10)) (F32.fin 1) (F32.fin 5))]
    ∧ (depthSumMulVM ⟨F32.fin (-99 / 10), F32.fin 1, F32.fin 0⟩ (gx3dMatrix.view 0)).z
        = F32.fin (-99 / 10)
    ∧ (depthSumMulVM ⟨F32.fin (-99 / 10), F32.fin 1, F32.fin 5⟩ (gx3dMatrix.view 0)).z
        = F32.fin (-49 / 10)
    ∧ F32.lt (F32.fin (-99 / 10)) (F32.fin (-49 / 10)) = true := by
  have hall : ∀ g ∈ (frame sampleConsts nanMulVM (initLoopState [ghostAt 1, ghostAt 5])
      (sampleInput 1000 none true)).1.ghost_pos, g.view.z.isNaN = true := by
    rw [frame_ghost_pos_of_render _ _ _ _ rfl]
    intro g hg
    rw [(sortStep_view _ _ _ g hg).1]
    rfl
  have hlen : (frame sampleConsts nanMulVM (initLoopState [ghostAt 1, ghostAt 5])
      (sampleInput 1000 none true)).1.ghost_pos.length = 2 := by
    rw [frame_ghost_pos_of_render _ _ _ _ rfl, sortStep_length]
    rfl
  refine ⟨hall, hlen, ?_, ?_, ?_, ?_, ?_, ?_⟩
  · have hmem : (⟨(ghostAt 1).world, nanMulVM (ghostAt 1).world (gx3dMatrix.view 0)⟩ : GhostPos)
        ∈ (frame sampleConsts nanMulVM (initLoopState [ghostAt 1, ghostAt 5])
          (sampleInput 1000 none true)).1.ghost_pos := by
      rw [frame_ghost_pos_of_render _ _ _ _ rfl]
      exact mem_sortStep_of_mem _ _ _ _ (List.mem_cons_self _ _)
    exact not_pairwise_of_nan _ (le_of_eq hlen.symm) _ hmem rfl
  · rw [frame_ghost_pos_of_render _ _ _ _ rfl]
    simp only [sortStep, transformGhosts, qsort, qsortInsert, compare_ghosts, depthSumMulVM,
      ghostAtXZ, sampleInput, initLoopState, F32.add, F32.eq, F32.lt, List.map, List.foldr]
    norm_num
  · rw [ghostMatrices_frame_of_render _ _ _ _ rfl]
    simp only [sortStep, transformGhosts, qsort, qsortInsert, compare_ghosts, depthSumMulVM,
      ghostAtXZ, sampleInput, initLoopState, F32.add, F32.eq, F32.lt, List.map, List.foldr]
    norm_num
  · simp only [depthSumMulVM, F32.add]
    norm_num
  · simp only [depthSumMulVM, F32.add]
    norm_num
  · simp only [F32.lt]
    norm_num

/-- C18, amended: in every rendered frame the drawing calls are those issued
before the sort, none of them a ghost, followed by exactly one ghost draw per
entry of the array; the ghosts are drawn in the order of the array as the sort
left it, each at (targetX, world.y, world.z) of its entry; the sort key of an
entry is the view depth of its world position, and when no such depth is NaN the
order of the array is non-increasing in the sort key. -/
theorem C18_ghosts_drawn_last_in_sorted_order (c : Consts)
    (mulVM : gx3dVector → gx3dMatrix → gx3dVector) (s : LoopState) (i : FrameInput)
    (h : i.beginRender = true) :
    (frame c mulVM s i).2.filter Call.isDraw
      = (callsBeforeSort (frame c mulVM s i).2).filter Call.isDraw
        ++ List.replicate s.ghost_pos.length (Call.gx3d_DrawObject Object.obj_ghost)
    ∧ (∀ d ∈ callsBeforeSort (frame c mulVM s i).2, d ≠ Call.gx3d_DrawObject Object.obj_ghost)
    ∧ ghostMatrices (frame c mulVM s i).2
      = (sortStep mulVM i.viewmatrix s.ghost_pos).map (fun g =>
          gx3dMatrix.multiply
            (gx3dMatrix.multiply (gx3dMatrix.scale (F32.fin 10) (F32.fin 10) (F32.fin 10))
              (gx3dMatrix.billboardRotateY billboard_normal i.heading))
            (gx3dMatrix.translate (F32.fin (s.targetX + s.targetX_incr)) g.world.y g.world.z))
    ∧ (sortStep mulVM i.viewmatrix s.ghost_pos).length = s.ghost_pos.length
    ∧ (frame c mulVM s i).1.ghost_pos = sortStep mulVM i.viewmatrix s.ghost_pos
    ∧ (∀ g ∈ sortStep mulVM i.viewmatrix s.ghost_pos, g.view = mulVM g.world i.viewmatrix)
    ∧ ((∀ g ∈ s.ghost_pos, (mulVM g.world i.viewmatrix).z.isNaN = false) →
        (sortStep mulVM i.viewmatrix s.ghost_pos).Pairwise
          (fun a b => F32.le b.view.z a.view.z = true)) := by
  have hpre : ∀ d ∈ callsBeforeSort (frame c mulVM s i).2,
      d ≠ Call.gx3d_DrawObject Object.obj_ghost := by
    rw [callsBeforeSort_frame c mulVM s i h]
    cases i.relation_outside <;>
      simp [orbitCalls, cameraCalls, drawSceneCalls, drawTree2Calls, drawBillboardTreeCalls,
        drawSkyCalls]
  refine ⟨?_, hpre, ghostMatrices_frame_of_render c mulVM s i h, sortStep_length mulVM _ _,
    frame_ghost_pos_of_render c mulVM s i h,
    fun g hg => (sortStep_view mulVM i.viewmatrix s.ghost_pos g hg).1,
    fun hnan => sortStep_pairwise mulVM _ _ hnan⟩
  conv_lhs => rw [frame_calls_split_at_sort c mulVM s i h]
  rw [List.filter_append, List.filter_cons, List.filter_append,
    filter_isDraw_drawGhostsCalls, sortStep_length]
  simp [Call.isDraw, endRenderCalls]

/-- C18 amended, at a rendered first frame over the depths 1, 5 under the
identity transform. -/
theorem C18_ghosts_drawn_last_in_sorted_order_witness :
    (sortStep identityMulVM (gx3dMatrix.view 0) [ghostAt 1, ghostAt 5]).Pairwise
        (fun a b => F32.le b.view.z a.view.z = true)
    ∧ (frame sampleConsts identityMulVM (initLoopState [ghostAt 1, ghostAt 5])
        (sampleInput 1000 none true)).1.ghost_pos
      = sortStep identityMulVM (gx3dMatrix.view 0) [ghostAt 1, ghostAt 5] :=
  ⟨(C18_ghosts_drawn_last_in_sorted_order sampleConsts identityMulVM
      (initLoopState [ghostAt 1, ghostAt 5]) (sampleInput 1000 none true) rfl).2.2.2.2.2.2
      (by simp [initLoopState, identityMulVM, ghostAt, F32.isNaN]),
   (C18_ghosts_drawn_last_in_sorted_order sampleConsts identityMulVM
      (initLoopState [ghostAt 1, ghostAt 5]) (sampleInput 1000 none true) rfl).2.2.2.2.1⟩

/-- C19, refuted as stated: in a rendered frame whose view matrix is all NaN the
sort is called all the same, on an array whose every depth is NaN; the array is
not left as it was, every entry now has a NaN depth, no error is reported, and
`compare_ghosts` answers -1 for two of these entries in both argument orders. -/
theorem C19_nan_depth_is_sorted_unguarded :
    (frame sampleConsts nanMulVM (initLoopState [ghostAt 1, ghostAt 5])
        (sampleInput 1000 none true)).2.filter Call.isQsort
      = [Call.qsort (frame sampleConsts nanMulVM (initLoopState [ghostAt 1, ghostAt 5])
          (sampleInput 1000 none true)).1.ghost_pos]
    ∧ (∀ g ∈ (frame sampleConsts nanMulVM (initLoopState [ghostAt 1, ghostAt 5])
          (sampleInput 1000 none true)).1.ghost_pos, g.view.z.isNaN = true)
    ∧ (frame sampleConsts nanMulVM (initLoopState [ghostAt 1, ghostAt 5])
          (sampleInput 1000 none true)).1.ghost_pos.length = 2
    ∧ (frame sampleConsts nanMulVM (initLoopState [ghostAt 1, ghostAt 5])
          (sampleInput 1000 none true)).1.ghost_pos ≠ [ghostAt 1, ghostAt 5]
    ∧ compare_ghosts ⟨(ghostAt 1).world, nanMulVM (ghostAt 1).world (gx3dMatrix.view 0)⟩
        ⟨(ghostAt 5).world, nanMulVM (ghostAt 5).world (gx3dMatrix.view 0)⟩ = -1
    ∧ compare_ghosts ⟨(ghostAt 5).world, nanMulVM (ghostAt 5).world (gx3dMatrix.view 0)⟩
        ⟨(ghostAt 1).world, nanMulVM (ghostAt 1).world (gx3dMatrix.view 0)⟩ = -1 := by
  have hall : ∀ g ∈ (frame sampleConsts nanMulVM (initLoopState [ghostAt 1, ghostAt 5])
      (sampleInput 1000 none true)).1.ghost_pos, g.view.z.isNaN = true := by
    rw [frame_ghost_pos_of_render _ _ _ _ rfl]
    intro g hg
    rw [(sortStep_view _ _ _ g hg).1]
    rfl
  refine ⟨?_, hall, ?_, ?_, compare_ghosts_nan _ _ (Or.inl rfl),
    compare_ghosts_nan _ _ (Or.inl rfl)⟩
  · rw [filter_isQsort_frame_of_render _ _ _ _ rfl, frame_ghost_pos_of_render _ _ _ _ rfl]
  · rw [frame_ghost_pos_of_render _ _ _ _ rfl, sortStep_length]
    rfl
  · intro heq
    have h1 := hall (ghostAt 1) (by rw [heq]; exact List.mem_cons_self _ _)
    simp [ghostAt, F32.isNaN] at h1

/-- C19, amended: the sort step has no guard against NaN depths.  Whatever the
product returns, a rendered frame calls the sort once and stores its result, a
rearrangement of the array in which every entry has its view field overwritten by
the product, the entries with a NaN depth included; `compare_ghosts` answers -1
in both argument orders whenever one of the two depths is NaN; and when some
depth among at least two entries is NaN, no rearrangement of the transformed
array is non-increasing in depth, whichever order the sort returns. -/
theorem C19_sort_has_no_nan_guard (c : Consts) (mulVM : gx3dVector → gx3dMatrix → gx3dVector)
    (s : LoopState) (i : FrameInput) :
    (sortStep mulVM i.viewmatrix s.ghost_pos).Perm
      (transformGhosts mulVM i.viewmatrix s.ghost_pos)
    ∧ (∀ g ∈ s.ghost_pos,
        (⟨g.world, mulVM g.world i.viewmatrix⟩ : GhostPos)
          ∈ sortStep mulVM i.viewmatrix s.ghost_pos)
    ∧ (i.beginRender = true →
        (frame c mulVM s i).1.ghost_pos = sortStep mulVM i.viewmatrix s.ghost_pos
        ∧ (frame c mulVM s i).2.filter Call.isQsort
            = [Call.qsort (sortStep mulVM i.viewmatrix s.ghost_pos)])
    ∧ (∀ a b : GhostPos, a.view.z.isNaN = true ∨ b.view.z.isNaN = true →
        compare_ghosts a b = -1 ∧ compare_ghosts b a = -1)
    ∧ (∀ r : List GhostPos, r.Perm (transformGhosts mulVM i.viewmatrix s.ghost_pos) →
        2 ≤ s.ghost_pos.length →
        (∃ g ∈ s.ghost_pos, (mulVM g.world i.viewmatrix).z.isNaN = true) →
        ¬ r.Pairwise (fun a b => F32.le b.view.z a.view.z = true)) :=
  ⟨sortStep_perm mulVM _ _,
   fun g hg => mem_sortStep_of_mem mulVM i.viewmatrix s.ghost_pos g hg,
   fun h => ⟨frame_ghost_pos_of_render c mulVM s i h, filter_isQsort_frame_of_render c mulVM s i h⟩,
   fun a b h => ⟨compare_ghosts_nan a b h, compare_ghosts_nan b a h.symm⟩,
   fun r hr hlen hnan => not_pairwise_of_perm_of_nan mulVM i.viewmatrix s.ghost_pos r hr hlen hnan⟩

/-- C19 amended, at a rendered frame over two ghosts whose view matrix is all
NaN. -/
theorem C19_sort_has_no_nan_guard_witness :
    (frame sampleConsts nanMulVM (initLoopState [ghostAt 1, ghostAt 5])
        (sampleInput 1000 none true)).1.ghost_pos
      = sortStep nanMulVM (gx3dMatrix.view 0) [ghostAt 1, ghostAt 5]
    ∧ ¬ (sortStep nanMulVM (gx3dMatrix.view 0) [ghostAt 1, ghostAt 5]).Pairwise
        (fun a b => F32.le b.view.z a.view.z = true)
    ∧ compare_ghosts ⟨(ghostAt 1).world, nanMulVM (ghostAt 1).world (gx3dMatrix.view 0)⟩
        ⟨(ghostAt 5).world, nanMulVM (ghostAt 5).world (gx3dMatrix.view 0)⟩ = -1 :=
  ⟨((C19_sort_has_no_nan_guard sampleConsts nanMulVM (initLoopState [ghostAt 1, ghostAt 5])
      (sampleInput 1000 none true)).2.2.1 rfl).1,
   (C19_sort_has_no_nan_guard sampleConsts nanMulVM (initLoopState [ghostAt 1, ghostAt 5])
      (sampleInput 1000 none true)).2.2.2.2
      (sortStep nanMulVM (gx3dMatrix.view 0) [ghostAt 1, ghostAt 5])
      (sortStep_perm nanMulVM (gx3dMatrix.view 0) [ghostAt 1, ghostAt 5])
      (by decide) ⟨ghostAt 1, List.mem_cons_self _ _, rfl⟩,
   ((C19_sort_has_no_nan_guard sampleConsts nanMulVM (initLoopState [ghostAt 1, ghostAt 5])
      (sampleInput 1000 none true)).2.2.2.1
      ⟨(ghostAt 1).world, nanMulVM (ghostAt 1).world (gx3dMatrix.view 0)⟩
      ⟨(ghostAt 5).world, nanMulVM (ghostAt 5).world (gx3dMatrix.view 0)⟩ (Or.inl rfl)).1⟩

/-- C20: every iteration calls `Position_Update` exactly once, with the elapsed
time of this iteration's clock step, the `cmd_move` left by this iteration's
input step and this iteration's mouse counters (as `-move_y`, `move_x`); the call
comes right after the mouse sample and is followed at once by the only two
listener calls of the iteration, which pass the position and the heading that
`Position_Update` wrote, with up vector (0,1,0). -/
theorem C20_camera_update_and_listener (c : Consts)
    (mulVM : gx3dVector → gx3dMatrix → gx3dVector) (s : LoopState) (i : FrameInput) :
    (frame c mulVM s i).2.filter Call.isPositionUpdate
      = [Call.Position_Update (clockStep s.last_time i.new_time).1
          (frame c mulVM s i).1.cmd_move (-i.move_y) i.move_x s.force_update]
    ∧ (frame c mulVM s i).2.filter Call.isListenerUpdate
      = [Call.snd_SetListenerPosition (frame c mulVM s i).1.position.x
           (frame c mulVM s i).1.position.y (frame c mulVM s i).1.position.z,
         Call.snd_SetListenerOrientation (frame c mulVM s i).1.heading.x
           (frame c mulVM s i).1.heading.y (frame c mulVM s i).1.heading.z
           (F32.fin 0) (F32.fin 1) (F32.fin 0)]
    ∧ (frame c mulVM s i).1.position = i.position
    ∧ (frame c mulVM s i).1.heading = i.heading
    ∧ (frame c mulVM s i).1.cmd_move = (inputStep c s.cmd_move s.quit i.event).1
    ∧ (∃ pre post : List Call,
        (frame c mulVM s i).2
          = pre
            ++ [Call.msGetMouseMovement,
                Call.Position_Update (clockStep s.last_time i.new_time).1
                  (inputStep c s.cmd_move s.quit i.event).1 (-i.move_y) i.move_x
                  s.force_update,
                Call.snd_SetListenerPosition i.position.x i.position.y i.position.z,
                Call.snd_SetListenerOrientation i.heading.x i.heading.y i.heading.z
                  (F32.fin 0) (F32.fin 1) (F32.fin 0)]
            ++ post) := by
  have hpos : (frame c mulVM s i).1.position = i.position := by
    unfold frame
    split <;> rfl
  have hhead : (frame c mulVM s i).1.heading = i.heading := by
    unfold frame
    split <;> rfl
  rw [hpos, hhead, frame_cmd_move]
  refine ⟨?_, ?_, rfl, rfl, rfl, ?_⟩
  · rw [frame_calls]
    simp only [List.filter_append]
    split
    · unfold renderCalls
      simp only [List.filter_append]
      rw [filter_drawGhostsCalls_eq_nil _ _ _ _ (fun m => rfl) rfl rfl]
      cases i.relation_outside <;>
        simp [orbitCalls, cameraCalls, drawSceneCalls, drawTree2Calls,
          drawBillboardTreeCalls, drawSkyCalls, endRenderCalls, Call.isPositionUpdate]
    · simp [orbitCalls, cameraCalls, Call.isPositionUpdate]
  · rw [frame_calls]
    simp only [List.filter_append]
    split
    · unfold renderCalls
      simp only [List.filter_append]
      rw [filter_drawGhostsCalls_eq_nil _ _ _ _ (fun m => rfl) rfl rfl]
      cases i.relation_outside <;>
        simp [orbitCalls, cameraCalls, drawSceneCalls, drawTree2Calls,
          drawBillboardTreeCalls, drawSkyCalls, endRenderCalls, Call.isListenerUpdate]
    · simp [orbitCalls, cameraCalls, Call.isListenerUpdate]
  · rw [frame_calls]
    refine ⟨orbitCalls mulVM (advanceAngle s.angle) ++ [Call.timeGetTime, Call.evGetEvent],
      [Call.gx3d_ClearViewport, Call.gx3d_BeginRender]
        ++ (if i.beginRender then
              renderCalls i.heading i.relation_outside (advanceOffset s.offset)
                (s.targetX + s.targetX_incr) (sortStep mulVM i.viewmatrix s.ghost_pos)
            else []), ?_⟩
    simp [cameraCalls]

/-! ## Lemmas on the end of the loop -/

/-- While only movement-key events arrive the loop keeps running, so the loop on
a longer input list goes on from the state it reaches on the first part. -/
theorem gameLoop_append_moves (c : Consts) (hc : c.WellFormed)
    (mulVM : gx3dVector → gx3dMatrix → gx3dVector) (s : LoopState) (hs : s.quit = false)
    (moves rest : List FrameInput)
    (h : ∀ e, some e ∈ moves.map (fun i => i.event) → IsMoveKeyEvent e) :
    (gameLoop c mulVM s (moves ++ rest)).1
        = (gameLoop c mulVM (gameLoop c mulVM s moves).1 rest).1
    ∧ (gameLoop c mulVM s moves).1.quit = false := by
  induction moves generalizing s with
  | nil => exact ⟨rfl, hs⟩
  | cons i l ih =>
    have hl : ∀ e, some e ∈ l.map (fun i => i.event) → IsMoveKeyEvent e :=
      fun e he => h e (by simp only [List.map_cons]; exact List.mem_cons_of_mem _ he)
    have hq : (inputStep c s.cmd_move false i.event).2 = false :=
      inputSteps_quit c hc s.cmd_move false [i.event]
        (fun e he => h e (by
          simp only [List.map_cons]
          rw [List.mem_singleton] at he
          rw [he]
          exact List.mem_cons_self _ _))
    have hq2 : (frame c mulVM s i).1.quit = false := by rw [frame_quit, hs]; exact hq
    rw [List.cons_append, gameLoop_cons c mulVM s hs, gameLoop_cons c mulVM s hs]
    exact ih _ hq2 hl

theorem filterMap_event (l : List FrameInput) :
    (l.map (fun i => i.event)).filterMap id = l.filterMap (fun i => i.event) := by
  rw [List.filterMap_map]
  rfl

/-- C21, refuted as stated: after a frame with a press of 'w' and a frame with a
press of ESC the loop has ended and `cmd_move` is `POSITION_MOVE_FORWARD` (1 with
the sample constants), not 0. -/
theorem C21_cmd_move_not_reset :
    (Program_Run sampleConsts identityMulVM []
      [sampleInput 10 (some (pressOf (chr 'w'))) false,
       sampleInput 20 (some (pressOf 27)) false]).1.quit = true
    ∧ (Program_Run sampleConsts identityMulVM []
      [sampleInput 10 (some (pressOf (chr 'w'))) false,
       sampleInput 20 (some (pressOf 27)) false]).1.cmd_move = 1
    ∧ (Program_Run sampleConsts identityMulVM []
      [sampleInput 10 (some (pressOf (chr 'w'))) false,
       sampleInput 20 (some (pressOf 27)) false]).1.cmd_move ≠ 0 := by
  have h1 : (frame sampleConsts identityMulVM (initLoopState [])
      (sampleInput 10 (some (pressOf (chr 'w'))) false)).1.quit = false := by
    rw [frame_quit]; decide
  have h2 : (frame sampleConsts identityMulVM
      (frame sampleConsts identityMulVM (initLoopState [])
        (sampleInput 10 (some (pressOf (chr 'w'))) false)).1
      (sampleInput 20 (some (pressOf 27)) false)).1.quit = true := by
    rw [frame_quit, frame_cmd_move, h1]; decide
  have h3 : (frame sampleConsts identityMulVM
      (frame sampleConsts identityMulVM (initLoopState [])
        (sampleInput 10 (some (pressOf (chr 'w'))) false)).1
      (sampleInput 20 (some (pressOf 27)) false)).1.cmd_move = 1 := by
    rw [frame_cmd_move, frame_cmd_move, h1]; decide
  unfold Program_Run
  rw [gameLoop_cons _ _ _ rfl, gameLoop_cons _ _ _ h1, gameLoop_of_quit _ _ _ h2]
  exact ⟨h2, h3, by rw [h3]; decide⟩

/-- C21, amended: `cmd_move` is set to zero only before the loop starts; nothing
resets it at loop exit.  After any run of movement-key events followed by a press
of ESC the loop has ended, whatever inputs would follow, and `cmd_move` still is
the bitwise OR of the bits of the keys held at that moment; the statements after
the loop only free the two trees and stop the sound. -/
theorem C21_cmd_move_kept_at_exit (c : Consts) (hc : c.WellFormed)
    (mulVM : gx3dVector → gx3dMatrix → gx3dVector) (ghost_pos : List GhostPos)
    (moves : List FrameInput) (iesc : FrameInput) (rest : List FrameInput)
    (hmoves : ∀ e, some e ∈ moves.map (fun i => i.event) → IsMoveKeyEvent e)
    (hesc : iesc.event = some (pressOf c.evKY_ESC)) :
    (initLoopState ghost_pos).cmd_move = 0
    ∧ (Program_Run c mulVM ghost_pos (moves ++ iesc :: rest)).1.quit = true
    ∧ (Program_Run c mulVM ghost_pos (moves ++ iesc :: rest)).1.cmd_move
        = heldMask c (moves.filterMap (fun i => i.event))
    ∧ (Program_Run c mulVM ghost_pos (moves ++ iesc :: rest)).2.2
        = [ExitCall.gx3d_FreeObject Object.obj_tree, ExitCall.gx3d_FreeObject Object.obj_tree2,
           ExitCall.snd_StopSound Sound.s_song, ExitCall.snd_Free] := by
  obtain ⟨happ, hq⟩ :=
    gameLoop_append_moves c hc mulVM (initLoopState ghost_pos) rfl moves (iesc :: rest) hmoves
  have hm : (gameLoop c mulVM (initLoopState ghost_pos) moves).1.cmd_move
      = heldMask c (moves.filterMap (fun i => i.event)) := by
    rw [gameLoop_cmd_move c hc mulVM _ rfl moves hmoves]
    show (inputSteps c 0 false _).1 = _
    rw [inputSteps_heldMask c hc _ hmoves, filterMap_event]
  have hin : inputStep c (gameLoop c mulVM (initLoopState ghost_pos) moves).1.cmd_move
      (gameLoop c mulVM (initLoopState ghost_pos) moves).1.quit iesc.event
      = ((gameLoop c mulVM (initLoopState ghost_pos) moves).1.cmd_move, true) := by
    rw [hesc]
    exact inputStep_press_esc c _ _
  have hq2 : (frame c mulVM (gameLoop c mulVM (initLoopState ghost_pos) moves).1 iesc).1.quit
      = true := by rw [frame_quit, hin]
  refine ⟨rfl, ?_, ?_, rfl⟩
  · show (gameLoop c mulVM (initLoopState ghost_pos) (moves ++ iesc :: rest)).1.quit = true
    rw [happ, gameLoop_cons c mulVM _ hq, gameLoop_of_quit c mulVM _ hq2]
    exact hq2
  · show (gameLoop c mulVM (initLoopState ghost_pos) (moves ++ iesc :: rest)).1.cmd_move = _
    rw [happ, gameLoop_cons c mulVM _ hq, gameLoop_of_quit c mulVM _ hq2]
    show (frame c mulVM _ iesc).1.cmd_move = _
    rw [frame_cmd_move, hin, hm]

/-- C21 amended, at a press of 'w' followed by a press of ESC = 27. -/
theorem C21_cmd_move_kept_at_exit_witness :
    (Program_Run sampleConsts identityMulVM []
      ([sampleInput 10 (some (pressOf (chr 'w'))) false]
        ++ sampleInput 20 (some (pressOf 27)) false :: [])).1.cmd_move
      = heldMask sampleConsts [pressOf (chr 'w')] :=
  (C21_cmd_move_kept_at_exit sampleConsts sampleConsts_wellFormed identityMulVM []
    [sampleInput 10 (some (pressOf (chr 'w'))) false]
    (sampleInput 20 (some (pressOf 27)) false) []
    (fun e he => by
      simp only [sampleInput, List.map_cons, List.map_nil, List.mem_singleton,
        Option.some.injEq] at he
      subst he
      exact ⟨Or.inl rfl, by decide⟩)
    rfl).2.2.1

/-- C22: `Program_Init` returns 0 for a null preferences pointer, without any
call and without touching the globals; whenever `gxStartGraphics` returns a
page count other than `MAX_VRAM_PAGES` = 2 it returns 0, `gxStartGraphics` is its
only call (no font load, no `evStartEvents`), `Pgm_num_pages` is 0 and
`Pgm_system_font` is null; when `gxStartGraphics` returns 2 it returns 2 after
loading the font and starting the events; so the result is 2 exactly when the
pointer is not null and `gxStartGraphics` returned 2, and 0 otherwise. -/
theorem C22_Program_Init_status (started : Int) (font : Option Nat) (st : InitState) :
    Program_Init none started font st = (0, st, [])
    ∧ (∀ p : UserPreferences, started ≠ 2 →
        (Program_Init (some p) started font st).1 = 0
        ∧ (Program_Init (some p) started font st).2.2
            = [InitCall.gxStartGraphics p.resolution p.bitdepth 0 2]
        ∧ (Program_Init (some p) started font st).2.1.Pgm_num_pages = 0
        ∧ (Program_Init (some p) started font st).2.1.Pgm_system_font = none
        ∧ (Program_Init (some p) started font st).2.1.generate_keypress_events
            = st.generate_keypress_events)
    ∧ (∀ p : UserPreferences, started = 2 →
        (Program_Init (some p) started font st).1 = 2
        ∧ (Program_Init (some p) started font st).2.2
            = [InitCall.gxStartGraphics p.resolution p.bitdepth 0 2, InitCall.gxLoadFontData,
               InitCall.gxSetFont font, InitCall.evStartEvents 1,
               InitCall.msSetCursor ⟨255, 0, 0, 0⟩ ⟨1, 1, 1, 0⟩]
        ∧ (Program_Init (some p) started font st).2.1
            = { Pgm_num_pages := 2, Pgm_system_font := font, generate_keypress_events := 0 })
    ∧ (∀ preferences : Option UserPreferences,
        ((Program_Init preferences started font st).1 = 2
          ↔ preferences ≠ none ∧ started = 2)
        ∧ ((Program_Init preferences started font st).1 = 0
          ∨ (Program_Init preferences started font st).1 = 2)) := by
  refine ⟨rfl, ?_, ?_, ?_⟩
  · intro p h
    simp [Program_Init, Init_Graphics, h, GRAPHICS_STENCILDEPTH, MAX_VRAM_PAGES]
  · intro p h
    subst h
    simp [Program_Init, Init_Graphics, MAX_VRAM_PAGES, GRAPHICS_STENCILDEPTH, AUTO_TRACKING,
      Set_Mouse_Cursor]
  · intro preferences
    cases preferences with
    | none => simp [Program_Init]
    | some p =>
      by_cases h : started = 2
      · subst h
        simp [Program_Init, Init_Graphics, MAX_VRAM_PAGES]
      · simp [Program_Init, Init_Graphics, MAX_VRAM_PAGES, h]

/-- C22, at a failing start of graphics (one page) and at a successful one. -/
theorem C22_Program_Init_status_witness :
    (Program_Init (some ⟨4, 32⟩) 1 (some 5) sampleInitState).1 = 0
    ∧ (Program_Init (some ⟨4, 32⟩) 1 (some 5) sampleInitState).2.1.Pgm_num_pages = 0
    ∧ (Program_Init (some ⟨4, 32⟩) 2 (some 5) sampleInitState).1 = 2 :=
  ⟨((C22_Program_Init_status 1 (some 5) sampleInitState).2.1 ⟨4, 32⟩ (by decide)).1,
   ((C22_Program_Init_status 1 (some 5) sampleInitState).2.1 ⟨4, 32⟩ (by decide)).2.2.1,
   ((C22_Program_Init_status 2 (some 5) sampleInitState).2.2.1 ⟨4, 32⟩ rfl).1⟩

/-! ## Lemmas on the DirectX version probe -/

theorem charCode_values :
    charCode ' ' = 32 ∧ charCode 'a' = 97 ∧ charCode 'z' = 122 ∧ charCode 'A' = 65
    ∧ charCode 'Z' = 90 ∧ charCode 'b' = 98 :=
  ⟨rfl, rfl, rfl, rfl, rfl, rfl⟩

/-- The encoding in closed form, for a major version below 65536, a minor
version below 256 and a blank or a Latin letter. -/
theorem encodeVersion_eq (major minor letter : Nat) (hM : major < 65536) (hm : minor < 256)
    (hl : letter = 32 ∨ (97 ≤ letter ∧ letter ≤ 122) ∨ (65 ≤ letter ∧ letter ≤ 90)) :
    encodeVersion ⟨major, minor, letter⟩ = major * 65536 + minor * 256 + letterIndex letter := by
  obtain ⟨_, ha, hz, hA, hZ, _⟩ := charCode_values
  simp only [encodeVersion, letterIndex, tolower, Nat.shiftLeft_eq, ha, hz, hA, hZ]
  norm_num
  rcases hl with rfl | h | h
  · norm_num
    omega
  · have h1 : ¬ (65 ≤ letter ∧ letter ≤ 90) := by omega
    have h2 : letter % 256 = letter := by omega
    simp only [h1, if_false, h2, h, and_self, if_true]
    omega
  · have h1 : ¬ (97 ≤ letter ∧ letter ≤ 122) := by omega
    have h2 : (letter + 32) % 256 = letter + 32 := by omega
    have h3 : 97 ≤ letter + 32 ∧ letter + 32 ≤ 122 := by omega
    simp only [h1, if_false, h2, h, and_self, if_true, h3]
    omega

theorem GetDXVersion_of_dxdiag (dx : DxDiagEnv) (fs : FileEnv) (v : DXVersion)
    (h : GetDirectXVersionViaDxDiag dx ⟨0, 0, charCode ' '⟩ = (true, v)) :
    GetDXVersion dx fs = encodeVersion v := by
  simp [GetDXVersion, h]

theorem GetDirectXVerionViaFileVersions_ok (fs : FileEnv) (v : DXVersion) :
    (GetDirectXVerionViaFileVersions fs v).1 = true := by
  simp only [GetDirectXVerionViaFileVersions]
  split_ifs <;> rfl

theorem GetDXVersion_of_files (dx : DxDiagEnv) (fs : FileEnv)
    (h : (GetDirectXVersionViaDxDiag dx ⟨0, 0, charCode ' '⟩).1 = false) :
    GetDXVersion dx fs
      = encodeVersion (GetDirectXVerionViaFileVersions fs
          (GetDirectXVersionViaDxDiag dx ⟨0, 0, charCode ' '⟩).2).2 := by
  simp [GetDXVersion, h, GetDirectXVerionViaFileVersions_ok]

theorem GetDirectXVersionViaDxDiag_dxDiagOf (major minor : Nat) (letter : Char) (v : DXVersion) :
    GetDirectXVersionViaDxDiag (dxDiagOf major minor letter) v
      = (true, ⟨major, minor, charCode letter⟩) := rfl

/-- C23: for a detected version with major below 65536, minor below 256 and a
letter that is a blank or a Latin letter of either case, the encoding is
major*0x10000 + minor*0x100 + L, with L = 0 for the blank and the place of the
letter in the alphabet otherwise, and that is what `GetDXVersion` returns when
either probe delivers this version; DirectX 8.1b gives 0x00080102 and 9.0 gives
0x00090000. -/
theorem C23_GetDXVersion_encoding (dx : DxDiagEnv) (fs : FileEnv) (major minor letter : Nat)
    (hM : major < 65536) (hm : minor < 256)
    (hl : letter = charCode ' ' ∨ (charCode 'a' ≤ letter ∧ letter ≤ charCode 'z')
      ∨ (charCode 'A' ≤ letter ∧ letter ≤ charCode 'Z')) :
    encodeVersion ⟨major, minor, letter⟩
      = major * 0x10000 + minor * 0x100 + letterIndex letter
    ∧ (GetDirectXVersionViaDxDiag dx ⟨0, 0, charCode ' '⟩ = (true, ⟨major, minor, letter⟩) →
        GetDXVersion dx fs = major * 0x10000 + minor * 0x100 + letterIndex letter)
    ∧ ((GetDirectXVersionViaDxDiag dx ⟨0, 0, charCode ' '⟩).1 = false →
        (GetDirectXVerionViaFileVersions fs
          (GetDirectXVersionViaDxDiag dx ⟨0, 0, charCode ' '⟩).2).2 = ⟨major, minor, letter⟩ →
        GetDXVersion dx fs = major * 0x10000 + minor * 0x100 + letterIndex letter)
    ∧ letterIndex (charCode ' ') = 0 ∧ letterIndex (charCode 'a') = 1
    ∧ letterIndex (charCode 'b') = 2 ∧ letterIndex (charCode 'B') = 2
    ∧ GetDXVersion (dxDiagOf 8 1 'b') fs = 0x00080102
    ∧ GetDXVersion (dxDiagOf 9 0 ' ') fs = 0x00090000 := by
  have key := encodeVersion_eq major minor letter hM hm hl
  refine ⟨key, ?_, ?_, by decide, by decide, by decide, by decide, ?_, ?_⟩
  · intro h
    rw [GetDXVersion_of_dxdiag dx fs _ h, key]
  · intro h1 h2
    rw [GetDXVersion_of_files dx fs h1, h2, key]
  · rw [GetDXVersion_of_dxdiag _ fs _ (GetDirectXVersionViaDxDiag_dxDiagOf 8 1 'b' _),
      encodeVersion_eq 8 1 (charCode 'b') (by decide) (by decide) (by decide)]
    decide
  · rw [GetDXVersion_of_dxdiag _ fs _ (GetDirectXVersionViaDxDiag_dxDiagOf 9 0 ' ' _),
      encodeVersion_eq 9 0 (charCode ' ') (by decide) (by decide) (by decide)]
    decide

/-- C23, at DirectX 6.1a reported by DxDiag. -/
theorem C23_GetDXVersion_encoding_witness :
    GetDXVersion (dxDiagOf 6 1 'a') noFiles = 6 * 0x10000 + 1 * 0x100 + letterIndex 97 :=
  (C23_GetDXVersion_encoding (dxDiagOf 6 1 'a') noFiles 6 1 97 (by decide) (by decide)
    (by decide)).2.1 rfl

/-- C24: when the DxDiag query fails and the file probe either cannot obtain
the system directory or leaves `bFound` false (as it does when no probed file has
a version), the file probe still returns `S_OK` with major 0, minor 0 and a blank
letter, and `GetDXVersion` returns 0. -/
theorem C24_no_DirectX_gives_zero (dx : DxDiagEnv) (fs : FileEnv)
    (hdx : (GetDirectXVersionViaDxDiag dx ⟨0, 0, charCode ' '⟩).1 = false)
    (hfs : fs.systemDirectory = false
      ∨ (probeFiles fs
          (false, (GetDirectXVersionViaDxDiag dx ⟨0, 0, charCode ' '⟩).2)).1 = false) :
    GetDirectXVerionViaFileVersions fs (GetDirectXVersionViaDxDiag dx ⟨0, 0, charCode ' '⟩).2
      = (true, ⟨0, 0, charCode ' '⟩)
    ∧ GetDXVersion dx fs = 0x00000000
    ∧ (∀ v : DXVersion, (probeFiles noFiles (false, v)).1 = false) := by
  have h1 : GetDirectXVerionViaFileVersions fs
      (GetDirectXVersionViaDxDiag dx ⟨0, 0, charCode ' '⟩).2 = (true, ⟨0, 0, charCode ' '⟩) := by
    unfold GetDirectXVerionViaFileVersions
    rcases hfs with h | h
    · simp [h]
    · by_cases hs : fs.systemDirectory = true
      · simp [hs, h]
      · simp [hs]
  refine ⟨h1, ?_, fun v => rfl⟩
  rw [GetDXVersion_of_files dx fs hdx, h1]
  decide

/-- C24, at a DxDiag interface that cannot be created and a system directory
without any of the probed files. -/
theorem C24_no_DirectX_gives_zero_witness : GetDXVersion noDxDiag noFiles = 0 :=
  (C24_no_DirectX_gives_zero noDxDiag noFiles rfl (Or.inr rfl)).2.1

/-- C25: on entries whose depths are not NaN, `compare_ghosts` returns 0 exactly
when the depths are equal, a negative value exactly when the first depth is
strictly greater, and a positive value exactly when it is strictly smaller; so it
is antisymmetric, `cmp (a, b) = -cmp (b, a)`, and the order "a may come before b"
that it induces is reflexive, total and transitive. -/
theorem C25_compare_ghosts_total_preorder (a b d : GhostPos)
    (ha : a.view.z.isNaN = false) (hb : b.view.z.isNaN = false)
    (hd : d.view.z.isNaN = false) :
    (compare_ghosts a b = 0 ↔ F32.eq a.view.z b.view.z = true)
    ∧ (compare_ghosts a b < 0 ↔ F32.lt b.view.z a.view.z = true)
    ∧ (0 < compare_ghosts a b ↔ F32.lt a.view.z b.view.z = true)
    ∧ compare_ghosts a b = -compare_ghosts b a
    ∧ compare_ghosts a a = 0
    ∧ (compare_ghosts a b ≤ 0 ∨ compare_ghosts b a ≤ 0)
    ∧ (compare_ghosts a b ≤ 0 → compare_ghosts b d ≤ 0 → compare_ghosts a d ≤ 0) := by
  unfold compare_ghosts
  cases hza : a.view.z with
  | nan => simp [hza, F32.isNaN] at ha
  | fin p =>
    cases hzb : b.view.z with
    | nan => simp [hzb, F32.isNaN] at hb
    | fin q =>
      cases hzd : d.view.z with
      | nan => simp [hzd, F32.isNaN] at hd
      | fin r =>
        simp only [F32.eq, F32.lt, decide_eq_true_eq]
        rcases lt_trichotomy p q with hpq | hpq | hpq
        · have h1 : ¬ p = q := ne_of_lt hpq
          have h2 : ¬ q = p := ne_of_gt hpq
          have h3 : ¬ q < p := not_lt_of_gt hpq
          simp [h1, h2, h3, hpq]
        · subst hpq
          simp
        · have h1 : ¬ p = q := ne_of_gt hpq
          have h2 : ¬ q = p := ne_of_lt hpq
          have h3 : ¬ p < q := not_lt_of_gt hpq
          simp only [h1, h2, h3, hpq, if_true, if_false, eq_self_iff_true]
          refine ⟨by simp, by simp, by simp, by simp, by simp, by simp, ?_⟩
          intro _ hqr
          by_cases e1 : q = r
          · subst e1
            simp [h1, h3]
          · by_cases e2 : q < r
            · simp [e1, e2] at hqr
            · have hrq : r < q := lt_of_le_of_ne (le_of_not_lt e2) (Ne.symm e1)
              have hrp : r < p := lt_trans hrq hpq
              have h4 : ¬ p = r := ne_of_gt hrp
              have h5 : ¬ p < r := not_lt_of_gt hrp
              simp [h4, h5]

/-- C25, at entries of depths 5, 3 and 1. -/
theorem C25_compare_ghosts_total_preorder_witness :
    compare_ghosts ⟨(ghostAt 5).world, (ghostAt 5).world⟩ ⟨(ghostAt 3).world, (ghostAt 3).world⟩
      = -compare_ghosts ⟨(ghostAt 3).world, (ghostAt 3).world⟩
          ⟨(ghostAt 5).world, (ghostAt 5).world⟩ :=
  (C25_compare_ghosts_total_preorder ⟨(ghostAt 5).world, (ghostAt 5).world⟩
    ⟨(ghostAt 3).world, (ghostAt 3).world⟩ ⟨(ghostAt 1).world, (ghostAt 1).world⟩
    rfl rfl rfl).2.2.2.1

/-- C26: after the sort step of a rendered frame every entry of the array holds
as its view position the product of its own world position with that frame's view
matrix, its world position is that of an entry of the array before the frame, and
the world positions are those before the frame, permuted. -/
theorem C26_view_belongs_to_world (c : Consts) (mulVM : gx3dVector → gx3dMatrix → gx3dVector)
    (s : LoopState) (i : FrameInput) (h : i.beginRender = true) :
    (∀ g ∈ (frame c mulVM s i).1.ghost_pos,
        g.view = mulVM g.world i.viewmatrix ∧ ∃ g0 ∈ s.ghost_pos, g.world = g0.world)
    ∧ ((frame c mulVM s i).1.ghost_pos.map (fun g => g.world)).Perm
        (s.ghost_pos.map (fun g => g.world))
    ∧ (frame c mulVM s i).1.ghost_pos.length = s.ghost_pos.length := by
  rw [frame_ghost_pos_of_render c mulVM s i h]
  exact ⟨fun g hg => sortStep_view mulVM i.viewmatrix s.ghost_pos g hg,
    sortStep_world_perm mulVM _ _, sortStep_length mulVM _ _⟩

/-- C26, at a rendered first frame over the depths 1, 5 under the identity
transform. -/
theorem C26_view_belongs_to_world_witness :
    (frame sampleConsts identityMulVM (initLoopState [ghostAt 1, ghostAt 5])
      (sampleInput 1000 none true)).1.ghost_pos.length = 2 :=
  (C26_view_belongs_to_world sampleConsts identityMulVM (initLoopState [ghostAt 1, ghostAt 5])
    (sampleInput 1000 none true) rfl).2.2

/-- C27: for halves whose low parts are 32-bit values, `CompareLargeInts`
returns 1, 0 or -1 according to whether the 64-bit value HighPart * 2^32 + LowPart
of the first argument is greater than, equal to or less than that of the second. -/
theorem C27_CompareLargeInts_is_64_bit_compare (p1 p2 : ULARGE_INTEGER)
    (h1 : p1.LowPart < 2 ^ 32) (h2 : p2.LowPart < 2 ^ 32) :
    CompareLargeInts p1 p2
      = (if p1.QuadPart > p2.QuadPart then 1 else if p1.QuadPart = p2.QuadPart then 0 else -1)
    ∧ (CompareLargeInts p1 p2 = 1 ↔ p1.QuadPart > p2.QuadPart)
    ∧ (CompareLargeInts p1 p2 = 0 ↔ p1.QuadPart = p2.QuadPart)
    ∧ (CompareLargeInts p1 p2 = -1 ↔ p1.QuadPart < p2.QuadPart) := by
  obtain ⟨H1, L1⟩ := p1
  obtain ⟨H2, L2⟩ := p2
  simp only [CompareLargeInts, ULARGE_INTEGER.QuadPart] at *
  norm_num at h1 h2 ⊢
  refine ⟨?_, ?_, ?_, ?_⟩ <;> split_ifs <;> first | omega | (simp; omega)

/-- C27, at the versions 4.8.0.400 and 4.7.0.700 as pairs of halves. -/
theorem C27_CompareLargeInts_is_64_bit_compare_witness :
    CompareLargeInts ⟨262152, 400⟩ ⟨262151, 700⟩ = 1
      ↔ (⟨262152, 400⟩ : ULARGE_INTEGER).QuadPart > (⟨262151, 700⟩ : ULARGE_INTEGER).QuadPart :=
  (C27_CompareLargeInts_is_64_bit_compare ⟨262152, 400⟩ ⟨262151, 700⟩ (by decide)
    (by decide)).2.1

theorem MAKELONG_eq (low high : Nat) (hl : low < 65536) (hh : high < 65536) :
    MAKELONG low high = high * 65536 + low := by
  have e : (0xFFFF : Nat) = 2 ^ 16 - 1 := by norm_num
  unfold MAKELONG
  rw [e, Nat.and_pow_two_sub_one_eq_mod, Nat.and_pow_two_sub_one_eq_mod, Nat.shiftLeft_eq,
    Nat.mod_eq_of_lt (by norm_num; exact hl), Nat.mod_eq_of_lt (by norm_num; exact hh),
    Nat.or_comm, Nat.mul_comm, ← Nat.mul_add_lt_is_or (by norm_num; exact hl)]

theorem MakeInt64_parts (a b c d : Nat) (ha : a < 65536) (hb : b < 65536) (hc : c < 65536)
    (hd : d < 65536) :
    (MakeInt64 a b c d).HighPart = a * 65536 + b ∧ (MakeInt64 a b c d).LowPart = c * 65536 + d :=
  ⟨MAKELONG_eq b a hb ha, MAKELONG_eq d c hd hc⟩

/-- C28: for 16-bit words a, b, c, d, `MakeInt64 (a, b, c, d)` has HighPart
a*2^16 + b and LowPart c*2^16 + d, that is the 64-bit value
a*2^48 + b*2^32 + c*2^16 + d; and `CompareLargeInts` on two such values is the
lexicographic three-way comparison of the tuples (a, b, c, d). -/
theorem C28_MakeInt64_packs_words (a b c d : Nat) (ha : a < 2 ^ 16) (hb : b < 2 ^ 16)
    (hc : c < 2 ^ 16) (hd : d < 2 ^ 16) :
    (MakeInt64 a b c d).HighPart = a * 2 ^ 16 + b
    ∧ (MakeInt64 a b c d).LowPart = c * 2 ^ 16 + d
    ∧ (MakeInt64 a b c d).QuadPart = a * 2 ^ 48 + b * 2 ^ 32 + c * 2 ^ 16 + d
    ∧ (∀ a2 b2 c2 d2 : Nat, a2 < 2 ^ 16 → b2 < 2 ^ 16 → c2 < 2 ^ 16 → d2 < 2 ^ 16 →
        CompareLargeInts (MakeInt64 a b c d) (MakeInt64 a2 b2 c2 d2)
          = lexCompare [a, b, c, d] [a2, b2, c2, d2]) := by
  norm_num at ha hb hc hd
  obtain ⟨hH, hL⟩ := MakeInt64_parts a b c d ha hb hc hd
  refine ⟨by rw [hH]; norm_num, by rw [hL]; norm_num, ?_, ?_⟩
  · rw [ULARGE_INTEGER.QuadPart, hH, hL]
    norm_num
    ring
  · intro a2 b2 c2 d2 ha2 hb2 hc2 hd2
    norm_num at ha2 hb2 hc2 hd2
    obtain ⟨hH2, hL2⟩ := MakeInt64_parts a2 b2 c2 d2 ha2 hb2 hc2 hd2
    simp only [CompareLargeInts, lexCompare, hH, hL, hH2, hL2]
    rcases Nat.lt_trichotomy a a2 with h | h | h
    · have e1 : ¬ a * 65536 + b > a2 * 65536 + b2 := by omega
      have e2 : a * 65536 + b < a2 * 65536 + b2 := by omega
      have e3 : ¬ a > a2 := by omega
      simp only [e1, e2, e3, h, if_true, if_false]
    · subst h
      rcases Nat.lt_trichotomy b b2 with h | h | h
      · have e1 : ¬ a * 65536 + b > a * 65536 + b2 := by omega
        have e2 : a * 65536 + b < a * 65536 + b2 := by omega
        have e3 : ¬ b > b2 := by omega
        simp only [e1, e2, e3, h, if_true, if_false, gt_iff_lt, lt_self_iff_false]
      · subst h
        rcases Nat.lt_trichotomy c c2 with h | h | h
        · have e1 : ¬ c * 65536 + d > c2 * 65536 + d2 := by omega
          have e2 : c * 65536 + d < c2 * 65536 + d2 := by omega
          have e3 : ¬ c > c2 := by omega
          simp only [e1, e2, e3, h, if_true, if_false, gt_iff_lt, lt_self_iff_false]
        · subst h
          rcases Nat.lt_trichotomy d d2 with h | h | h
          · have e1 : ¬ c * 65536 + d > c * 65536 + d2 := by omega
            have e2 : c * 65536 + d < c * 65536 + d2 := by omega
            have e3 : ¬ d > d2 := by omega
            simp only [e1, e2, e3, h, if_true, if_false, gt_iff_lt, lt_self_iff_false]
          · subst h
            simp only [gt_iff_lt, lt_self_iff_false, if_false]
          · have e1 : c * 65536 + d > c * 65536 + d2 := by omega
            simp only [e1, h, if_true, if_false, gt_iff_lt, lt_self_iff_false]
        · have e1 : c * 65536 + d > c2 * 65536 + d2 := by omega
          simp only [e1, h, if_true, if_false, gt_iff_lt, lt_self_iff_false]
      · have e1 : a * 65536 + b > a * 65536 + b2 := by omega
        simp only [e1, h, if_true, if_false, gt_iff_lt, lt_self_iff_false]
    · have e1 : a * 65536 + b > a2 * 65536 + b2 := by omega
      simp only [e1, h, if_true, if_false, gt_iff_lt]

/-- C28, at the versions 4.8.0.400 and 4.7.0.700. -/
theorem C28_MakeInt64_packs_words_witness :
    (MakeInt64 4 8 0 400).QuadPart = 4 * 2 ^ 48 + 8 * 2 ^ 32 + 0 * 2 ^ 16 + 400
    ∧ CompareLargeInts (MakeInt64 4 8 0 400) (MakeInt64 4 7 0 700)
        = lexCompare [4, 8, 0, 400] [4, 7, 0, 700] :=
  ⟨(C28_MakeInt64_packs_words 4 8 0 400 (by decide) (by decide) (by decide)
      (by decide)).2.2.1,
   (C28_MakeInt64_packs_words 4 8 0 400 (by decide) (by decide) (by decide)
      (by decide)).2.2.2 4 7 0 700 (by decide) (by decide) (by decide) (by decide)⟩

/-- C29, refuted as stated: in the first rendered frame the ghost whose anchor is
at (0, 1, 5) is drawn with the translation (-9.9, 1, 5): the x of the translation
is the shared `targetX`, not the x of the anchor. -/
theorem C29_ghost_drawn_at_targetX :
    ghostMatrices (frame sampleConsts identityMulVM (initLoopState [ghostAt 5])
        (sampleInput 1000 none true)).2
      = [gx3dMatrix.multiply
          (gx3dMatrix.multiply (gx3dMatrix.scale (F32.fin 10) (F32.fin 10) (F32.fin 10))
            (gx3dMatrix.billboardRotateY billboard_normal ⟨F32.fin 0, F32.fin 0, F32.fin 1⟩))
          (gx3dMatrix.translate (F32.fin (-99 / 10)) (F32.fin 1) (F32.fin 5))]
    ∧ (ghostAt 5).world = ⟨F32.fin 0, F32.fin 1, F32.fin 5⟩
    ∧ gx3dMatrix.translate (F32.fin (-99 / 10)) (F32.fin 1) (F32.fin 5)
      ≠ gx3dMatrix.translate (ghostAt 5).world.x (ghostAt 5).world.y (ghostAt 5).world.z := by
  refine ⟨?_, rfl, ?_⟩
  · rw [ghostMatrices_frame_of_render _ _ _ _ rfl]
    simp only [sortStep, transformGhosts, qsort, qsortInsert, identityMulVM, ghostAt,
      sampleInput, initLoopState, List.map, List.foldr]
    norm_num
  · simp only [ghostAt, ne_eq, gx3dMatrix.translate.injEq, F32.fin.injEq, and_true]
    norm_num

/-- C29, amended: in every rendered frame the i-th ghost is drawn with the
translation (targetX, world.y, world.z), where world is the world position of
the i-th sorted entry, the point whose view depth was its sort key, and targetX is
the one static value advanced by `targetX_incr` in this frame and shared by all
ghosts; the translation is the anchor's world position only for an anchor whose
world.x equals targetX. -/
theorem C29_ghost_translation (c : Consts) (mulVM : gx3dVector → gx3dMatrix → gx3dVector)
    (s : LoopState) (i : FrameInput) (h : i.beginRender = true) :
    ghostMatrices (frame c mulVM s i).2
      = (frame c mulVM s i).1.ghost_pos.map (fun g =>
          gx3dMatrix.multiply
            (gx3dMatrix.multiply (gx3dMatrix.scale (F32.fin 10) (F32.fin 10) (F32.fin 10))
              (gx3dMatrix.billboardRotateY billboard_normal i.heading))
            (gx3dMatrix.translate (F32.fin (frame c mulVM s i).1.targetX) g.world.y g.world.z))
    ∧ (frame c mulVM s i).1.targetX = s.targetX + s.targetX_incr
    ∧ (frame c mulVM s i).1.ghost_pos = sortStep mulVM i.viewmatrix s.ghost_pos
    ∧ (∀ g ∈ (frame c mulVM s i).1.ghost_pos, g.view = mulVM g.world i.viewmatrix)
    ∧ (∀ g : GhostPos,
        gx3dMatrix.translate (F32.fin (frame c mulVM s i).1.targetX) g.world.y g.world.z
            = gx3dMatrix.translate g.world.x g.world.y g.world.z
          ↔ g.world.x = F32.fin (frame c mulVM s i).1.targetX) := by
  rw [frame_ghost_pos_of_render c mulVM s i h, frame_targetX_of_render c mulVM s i h]
  refine ⟨ghostMatrices_frame_of_render c mulVM s i h, rfl, rfl,
    fun g hg => (sortStep_view mulVM i.viewmatrix s.ghost_pos g hg).1, ?_⟩
  intro g
  simp only [gx3dMatrix.translate.injEq, and_true]
  exact eq_comm

/-- C29 amended, at the first rendered frame over one ghost: `targetX` is -9.9. -/
theorem C29_ghost_translation_witness :
    (frame sampleConsts identityMulVM (initLoopState [ghostAt 5])
      (sampleInput 1000 none true)).1.targetX
      = (initLoopState [ghostAt 5]).targetX + (initLoopState [ghostAt 5]).targetX_incr :=
  (C29_ghost_translation sampleConsts identityMulVM (initLoopState [ghostAt 5])
    (sampleInput 1000 none true) rfl).2.1

theorem letterIndex_of_versionLetter (letter : Nat) (h : IsVersionLetter letter) :
    (letter = 32 ∧ letterIndex letter = 0)
    ∨ (97 ≤ letter ∧ letter ≤ 122 ∧ letterIndex letter = letter - 96) := by
  obtain ⟨hs, ha, hz, hA, hZ, _⟩ := charCode_values
  unfold IsVersionLetter at h
  rw [hs, ha, hz] at h
  unfold letterIndex
  rw [ha, hz, hA, hZ]
  rcases h with rfl | h
  · left
    exact ⟨rfl, by decide⟩
  · right
    refine ⟨h.1, h.2, ?_⟩
    rw [if_pos h]
    omega

/-- C30: for two versions with major below 65536, minor below 256 and a letter
that is a blank or one of a to z, the first is lexicographically smaller than the
second (the blank before every letter) if and only if its encoding is numerically
smaller; so a version is below 8.1 exactly when its encoding is below
0x00080100. -/
theorem C30_encoding_preserves_order (v w : DXVersion)
    (hvM : v.major < 65536) (hvm : v.minor < 256) (hvl : IsVersionLetter v.letter)
    (hwM : w.major < 65536) (hwm : w.minor < 256) (hwl : IsVersionLetter w.letter) :
    (v.lexLt w ↔ encodeVersion v < encodeVersion w)
    ∧ (v = w ↔ encodeVersion v = encodeVersion w)
    ∧ (v.lexLt ⟨8, 1, charCode ' '⟩ ↔ encodeVersion v < 0x00080100) := by
  obtain ⟨M1, m1, l1⟩ := v
  obtain ⟨M2, m2, l2⟩ := w
  simp only at hvM hvm hvl hwM hwm hwl
  have hl1 : l1 = 32 ∨ (97 ≤ l1 ∧ l1 ≤ 122) ∨ (65 ≤ l1 ∧ l1 ≤ 90) := by
    rcases letterIndex_of_versionLetter l1 hvl with h | h
    · exact Or.inl h.1
    · exact Or.inr (Or.inl ⟨h.1, h.2.1⟩)
  have hl2 : l2 = 32 ∨ (97 ≤ l2 ∧ l2 ≤ 122) ∨ (65 ≤ l2 ∧ l2 ≤ 90) := by
    rcases letterIndex_of_versionLetter l2 hwl with h | h
    · exact Or.inl h.1
    · exact Or.inr (Or.inl ⟨h.1, h.2.1⟩)
  have e8 : encodeVersion ⟨8, 1, charCode ' '⟩ = 0x00080100 := by
    rw [encodeVersion_eq 8 1 (charCode ' ') (by decide) (by decide) (by decide)]
    decide
  have hs : charCode ' ' = 32 := rfl
  rw [← e8, encodeVersion_eq M1 m1 l1 hvM hvm hl1, encodeVersion_eq M2 m2 l2 hwM hwm hl2,
    encodeVersion_eq 8 1 (charCode ' ') (by decide) (by decide) (by decide)]
  have i0 : letterIndex (charCode ' ') = 0 := by decide
  rw [i0, hs]
  simp only [DXVersion.lexLt, DXVersion.mk.injEq]
  rcases letterIndex_of_versionLetter l1 hvl with ⟨a1, b1⟩ | ⟨a1, a2, b1⟩ <;>
    rcases letterIndex_of_versionLetter l2 hwl with ⟨c1, d1⟩ | ⟨c1, c2, d1⟩ <;>
    rw [b1, d1] <;> refine ⟨?_, ?_, ?_⟩ <;> omega

/-- C30, at DirectX 8.0 and 8.1a. -/
theorem C30_encoding_preserves_order_witness :
    DXVersion.lexLt ⟨8, 0, 32⟩ ⟨8, 1, 97⟩ ↔ encodeVersion ⟨8, 0, 32⟩ < encodeVersion ⟨8, 1, 97⟩ :=
  (C30_encoding_preserves_order ⟨8, 0, 32⟩ ⟨8, 1, 97⟩ (by decide) (by decide)
    (Or.inl rfl) (by decide) (by decide) (Or.inr (by decide))).1

end Ghosts
